import Mathlib

/-!
Verification development for the AnimatedSVG repository (ArduinoSVG / modified
NanoSVG, `src/nanosvg.h`).  The C sources are shallowly embedded: every C
function relevant to the claims is translated into a Lean definition of the
same name (`nsvg__...`), operating on Lean structures mirroring the C structs.

Modeling conventions, documented once here:

* C `float`/`double` values are modeled as exact rationals (`Rat`).  All
  arithmetic used by the theorems below is ring arithmetic and comparisons,
  which rationals model faithfully; transcendental library calls
  (`sqrtf`, `sinf`, `cosf`, `tanf`, `acosf`) are themselves approximations in
  C and are modeled by executable rational approximations.  The model `sqrtf`
  is exact whenever the radicand is the square of a rational, which covers
  every use in the concrete evaluations below.
* C `long`/`int` are modeled as `Int` (the demo platform is LP64); machine
  truncation is written explicitly where the source relies on it.
* Heap allocation is modeled as always succeeding.  The accounting wrappers
  `nsvg__malloc`/`nsvg__realloc`/`nsvg__free` update `memorySize` exactly as
  the source does; allocations the source performs with plain `malloc`/`free`
  do not touch `memorySize`, again as in the source.
* Length-delimited (pointer, length) slices of the input buffer are modeled
  as `List Char`.  In the source every such slice is followed in the real
  buffer by a delimiter character (a quote, `>`, or the NUL terminator) that
  terminates every scanning loop exactly as the end of the Lean list does, so
  reading "one past the slice" is modeled by the NUL character.
* Reading through a NULL pointer (undefined behavior in C) is modeled by the
  `Except String` monad: the parse pipeline stops with an error message.
-/

namespace AnimatedSVG

/-- Model of C float values: exact rational arithmetic. -/
abbrev F := Rat

def NSVG_PI : F := 3.14159265358979323846264338327
def NSVG_KAPPA90 : F := 0.5522847493
def NSVG_EPSILON : F := 1 / 1000000000000

/-- Newton iteration for the integer square root (the fuel only bounds the
number of strictly decreasing steps, so it is never exhausted). -/
def isqrtIter (n guess : Nat) : Nat → Nat
  | 0 => guess
  | fuel + 1 =>
    let next := (guess + n / guess) / 2
    if next < guess then isqrtIter n next fuel else guess

/-- Integer square root by Newton's method. -/
def isqrt (n : Nat) : Nat :=
  if n ≤ 1 then n else isqrtIter n (n / 2) n

/-- Model of the C library `sqrtf`: a rational approximation of the square
root, exact whenever the radicand is the square of a rational (which is the
case at every point the theorems below evaluate it).  Nonpositive inputs give
zero. -/
def sqrtf (q : F) : F :=
  if q ≤ 0 then 0
  else (isqrt (q.num.toNat * q.den * 10 ^ 24) : F) / ((q.den : F) * 10 ^ 12)

/-- Model of `sinf` (radians): truncated Taylor series.  The C function is
itself an approximation; no theorem below depends on its values. -/
def sinf (x : F) : F := x - x ^ 3 / 6 + x ^ 5 / 120 - x ^ 7 / 5040

/-- Model of `cosf` (radians): truncated Taylor series. -/
def cosf (x : F) : F := 1 - x ^ 2 / 2 + x ^ 4 / 24 - x ^ 6 / 720

/-- Model of `tanf`: quotient of the models of sine and cosine. -/
def tanf (x : F) : F := sinf x / cosf x

/-- Model of `acosf`: truncated series approximation on `[-1, 1]`. -/
def acosf (x : F) : F := NSVG_PI / 2 - (x + x ^ 3 / 6 + 3 * x ^ 5 / 40)

/-- C `fabsf`. -/
def fabsf (x : F) : F := |x|

/-- C `roundf`: round half away from zero. -/
def roundf (x : F) : F :=
  if 0 ≤ x then ((x + 1/2).floor : F) else -(((-x) + 1/2).floor : F)

/-- C cast of a floating value to an integer type: truncation toward zero. -/
def cInt (q : F) : Int := Int.tdiv q.num (q.den : Int)

/-- C integer division (truncates toward zero). -/
def cdiv (a b : Int) : Int := Int.tdiv a b

/-- C `%` on integers: remainder of truncating division (sign of the
dividend).  For a zero divisor the C source is undefined; the model returns
the dividend, a case no theorem below reaches. -/
def cmod (a b : Int) : Int := a - b * Int.tdiv a b

/-- Pack of `NSVG_RGB(r, g, b)`: `r | g << 8 | b << 16` on unsigned int. -/
def NSVG_RGB (r g b : Nat) : Nat := r ||| (g <<< 8) ||| (b <<< 16)

/-- Model of `strncmp(a, b, n) == 0` for the length-delimited slices of this
code base (see the conventions above): list ends act as NUL terminators. -/
def cstrEq : List Char → List Char → Nat → Bool
  | _, _, 0 => true
  | [], [], _ + 1 => true
  | [], _ :: _, _ + 1 => false
  | _ :: _, [], _ + 1 => false
  | a :: as, b :: bs, n + 1 => if a = b then cstrEq as bs n else false

/-- Convenience: `strncmp(slice, literal, slice.length) == 0`, the dominant
comparison pattern of the source (attribute-name and value matching). -/
def cstrEqFull (a : List Char) (lit : String) : Bool :=
  cstrEq a lit.toList a.length

/-- Model of `nsvg__isspace` (`strchr(" \t\n\v\f\r", c) != 0`; note that in C
`strchr` also finds the NUL terminator, so NUL counts as space). -/
def nsvg__isspace (c : Char) : Bool :=
  c = ' ' || c = '\t' || c = '\n' || c = '\x0b' || c = '\x0c' || c = '\r' || c = '\x00'

/-- Model of `nsvg__isdigit`. -/
def nsvg__isdigit (c : Char) : Bool := '0' ≤ c && c ≤ '9'

/-- Read `l[i]`, with 0 for an out-of-range index (the C buffers are only
ever read inside their written prefix). -/
def getF (l : List F) (i : Nat) : F := l.getD i 0

/-- Write `l[i] := v`, extending with zeros if the list is shorter (models
writing into the reallocated capacity buffer). -/
def writeAt (l : List F) (i : Nat) (v : F) : List F :=
  if i < l.length then l.set i v
  else l ++ List.replicate (i - l.length) 0 ++ [v]

/-- Overwrite the first `vals.length` entries of `l` (C loop copies). -/
def overwritePrefix (l vals : List F) : List F :=
  vals ++ l.drop vals.length

/-- Multiply the first `k` entries of `l` by `s` (C dash-array scaling). -/
def scalePrefix (l : List F) (k : Nat) (s : F) : List F :=
  (l.take k).map (· * s) ++ l.drop k

def nsvg__minf (a b : F) : F := if a < b then a else b
def nsvg__maxf (a b : F) : F := if a > b then a else b

/-- Affine 2x3 transform, the C `float xform[6]`. -/
structure Xform where
  m0 : F
  m1 : F
  m2 : F
  m3 : F
  m4 : F
  m5 : F
deriving Repr, DecidableEq, Inhabited

/-- A `float bounds[4]` box `[minx, miny, maxx, maxy]`. -/
structure Bounds4 where
  b0 : F
  b1 : F
  b2 : F
  b3 : F
deriving Repr, DecidableEq, Inhabited

def nsvg__xformIdentity : Xform := ⟨1, 0, 0, 1, 0, 0⟩

def nsvg__xformSetTranslation (tx ty : F) : Xform := ⟨1, 0, 0, 1, tx, ty⟩

def nsvg__xformSetScale (sx sy : F) : Xform := ⟨sx, 0, 0, sy, 0, 0⟩

def nsvg__xformSetSkewX (a : F) : Xform :=
  ⟨1, 0, tanf (a / 180 * NSVG_PI), 1, 0, 0⟩

def nsvg__xformSetSkewY (a : F) : Xform :=
  ⟨1, tanf (a / 180 * NSVG_PI), 0, 1, 0, 0⟩

def nsvg__xformSetRotation (a : F) : Xform :=
  let r := a / 180 * NSVG_PI
  ⟨cosf r, sinf r, -(sinf r), cosf r, 0, 0⟩

/-- C `nsvg__xformMultiply(t, s)`: `t := t * s` in the source's convention. -/
def nsvg__xformMultiply (t s : Xform) : Xform :=
  ⟨t.m0 * s.m0 + t.m1 * s.m2,
   t.m0 * s.m1 + t.m1 * s.m3,
   t.m2 * s.m0 + t.m3 * s.m2,
   t.m2 * s.m1 + t.m3 * s.m3,
   t.m4 * s.m0 + t.m5 * s.m2 + s.m4,
   t.m4 * s.m1 + t.m5 * s.m3 + s.m5⟩

def nsvg__xformSetNonCenterRotation (a tx ty : F) : Xform :=
  let m := nsvg__xformMultiply nsvg__xformIdentity (nsvg__xformSetTranslation (-tx) (-ty))
  let m := nsvg__xformMultiply m (nsvg__xformSetRotation a)
  nsvg__xformMultiply m (nsvg__xformSetTranslation tx ty)

/-- C `nsvg__xformInverse(inv, t)`.  For a near-singular determinant the
source overwrites `t` with the identity and leaves `inv` untouched; callers
pass an uninitialized or stale `inv`, which the model reproduces by returning
the supplied previous value of `inv`. -/
def nsvg__xformInverse (invPrev t : Xform) : Xform :=
  let det := t.m0 * t.m3 - t.m2 * t.m1
  if -(1/1000000) < det ∧ det < 1/1000000 then invPrev
  else
    let invdet := 1 / det
    ⟨t.m3 * invdet,
     -t.m1 * invdet,
     -t.m2 * invdet,
     t.m0 * invdet,
     (t.m2 * t.m5 - t.m3 * t.m4) * invdet,
     (t.m1 * t.m4 - t.m0 * t.m5) * invdet⟩

/-- C `nsvg__xformPremultiply(t, s)`: `t := s * t`. -/
def nsvg__xformPremultiply (t s : Xform) : Xform := nsvg__xformMultiply s t

/-- C `nsvg__xformPoint`. -/
def nsvg__xformPoint (x y : F) (t : Xform) : F × F :=
  (x * t.m0 + y * t.m2 + t.m4, x * t.m1 + y * t.m3 + t.m5)

/-- C `nsvg__xformVec`. -/
def nsvg__xformVec (x y : F) (t : Xform) : F × F :=
  (x * t.m0 + y * t.m2, x * t.m1 + y * t.m3)

def nsvg__ptInBounds (px py : F) (b : Bounds4) : Bool :=
  px ≥ b.b0 && px ≤ b.b2 && py ≥ b.b1 && py ≤ b.b3

def nsvg__evalBezier (t p0 p1 p2 p3 : F) : F :=
  let it := 1 - t
  it * it * it * p0 + 3 * it * it * t * p1 + 3 * it * t * t * p2 + t * t * t * p3

/-- C `nsvg__curveBounds` for one coordinate axis: the inflection roots added
to the end-point bounds.  Mirrors the source's quadratic-root computation;
`sqrtf` stands in for `sqrt` (see the conventions above). -/
def nsvg__curveBoundsAxis (v0 v1 v2 v3 lo hi : F) : F × F :=
  let a := -3 * v0 + 9 * v1 - 9 * v2 + 3 * v3
  let b := 6 * v0 - 12 * v1 + 6 * v2
  let c := 3 * v1 - 3 * v0
  let roots : List F :=
    if fabsf a < NSVG_EPSILON then
      if fabsf b > NSVG_EPSILON then
        let t := -c / b
        if t > NSVG_EPSILON ∧ t < 1 - NSVG_EPSILON then [t] else []
      else []
    else
      let b2ac := b * b - 4 * c * a
      if b2ac > NSVG_EPSILON then
        let t1 := (-b + sqrtf b2ac) / (2 * a)
        let t2 := (-b - sqrtf b2ac) / (2 * a)
        (if t1 > NSVG_EPSILON ∧ t1 < 1 - NSVG_EPSILON then [t1] else []) ++
        (if t2 > NSVG_EPSILON ∧ t2 < 1 - NSVG_EPSILON then [t2] else [])
      else []
  roots.foldl
    (fun (acc : F × F) t =>
      let v := nsvg__evalBezier t v0 v1 v2 v3
      (nsvg__minf acc.1 v, nsvg__maxf acc.2 v))
    (lo, hi)

/-- C `nsvg__curveBounds(bounds, curve)` over one cubic segment
`(x0,y0, x1,y1, x2,y2, x3,y3)`. -/
def nsvg__curveBounds (x0 y0 x1 y1 x2 y2 x3 y3 : F) : Bounds4 :=
  let b : Bounds4 :=
    ⟨nsvg__minf x0 x3, nsvg__minf y0 y3, nsvg__maxf x0 x3, nsvg__maxf y0 y3⟩
  if nsvg__ptInBounds x1 y1 b && nsvg__ptInBounds x2 y2 b then b
  else
    let (l0, h0) := nsvg__curveBoundsAxis x0 x1 x2 x3 b.b0 b.b2
    let (l1, h1) := nsvg__curveBoundsAxis y0 y1 y2 y3 b.b1 b.b3
    ⟨l0, l1, h0, h1⟩

/-! Struct sizes (bytes).  The accounting theorems depend only on the sizes
being used consistently, exactly as `sizeof` is in the source; the values
below are the LP64 layout sizes of the C structs. -/

def sizeofFloat : Int := 4
def sizeofNSVGid : Int := 72
def sizeofNSVGpath : Int := 104
def sizeofNSVGshape : Int := 320
def sizeofNSVGshapeNode : Int := 56
def sizeofNSVGanimate : Int := 160
def sizeofNSVGgradient : Int := 72
def sizeofNSVGgradientStop : Int := 8
def sizeofNSVGgradientData : Int := 112

/-! Enumeration constants, kept verbatim from the source. -/

def NSVG_PAINT_UNDEF : Int := -1
def NSVG_PAINT_NONE : Int := 0
def NSVG_PAINT_COLOR : Int := 1
def NSVG_PAINT_LINEAR_GRADIENT : Int := 2
def NSVG_PAINT_RADIAL_GRADIENT : Int := 3

def NSVG_SPREAD_PAD : Int := 0
def NSVG_SPREAD_REFLECT : Int := 1
def NSVG_SPREAD_REPEAT : Int := 2

def NSVG_JOIN_MITER : Int := 0
def NSVG_JOIN_ROUND : Int := 1
def NSVG_JOIN_BEVEL : Int := 2

def NSVG_CAP_BUTT : Int := 0
def NSVG_CAP_ROUND : Int := 1
def NSVG_CAP_SQUARE : Int := 2

def NSVG_FILLRULE_NONZERO : Int := 0
def NSVG_FILLRULE_EVENODD : Int := 1

def NSVG_FLAGS_VISIBLE : Nat := 1

def NSVG_ANIMATE_TYPE_TRANSFORM_TRANSLATE : Int := 0
def NSVG_ANIMATE_TYPE_TRANSFORM_SCALE : Int := 1
def NSVG_ANIMATE_TYPE_TRANSFORM_ROTATE : Int := 2
def NSVG_ANIMATE_TYPE_TRANSFORM_SKEWX : Int := 3
def NSVG_ANIMATE_TYPE_TRANSFORM_SKEWY : Int := 4
def NSVG_ANIMATE_TYPE_OPACITY : Int := 5
def NSVG_ANIMATE_TYPE_FILL : Int := 6
def NSVG_ANIMATE_TYPE_FILL_OPACITY : Int := 7
def NSVG_ANIMATE_TYPE_STROKE : Int := 8
def NSVG_ANIMATE_TYPE_STROKE_OPACITY : Int := 9
def NSVG_ANIMATE_TYPE_STROKE_WIDTH : Int := 10
def NSVG_ANIMATE_TYPE_STROKE_DASHOFFSET : Int := 11
def NSVG_ANIMATE_TYPE_STROKE_DASHARRAY : Int := 12
def NSVG_ANIMATE_TYPE_SPLINE : Int := -1
def NSVG_ANIMATE_TYPE_NUMBER : Int := -2

def NSVG_ANIMATE_CALC_MODE_LINEAR : Int := 0
def NSVG_ANIMATE_CALC_MODE_DISCRETE : Int := 1
def NSVG_ANIMATE_CALC_MODE_PACED : Int := 2
def NSVG_ANIMATE_CALC_MODE_SPLINE : Int := 3

def NSVG_ANIMATE_FILL_REMOVE : Int := 0
def NSVG_ANIMATE_FILL_FREEZE : Int := 1

def NSVG_ANIMATE_ADDITIVE_REPLACE : Int := 0
def NSVG_ANIMATE_ADDITIVE_SUM : Int := 1

def NSVG_ANIMATE_FLAG_GROUP_FIRST : Nat := 1
def NSVG_ANIMATE_FLAG_GROUP_LAST : Nat := 2

def NSVG_ALIGN_MIN : Int := 0
def NSVG_ALIGN_MID : Int := 1
def NSVG_ALIGN_MAX : Int := 2
def NSVG_ALIGN_NONE : Int := 0
def NSVG_ALIGN_MEET : Int := 1
def NSVG_ALIGN_SLICE : Int := 2

def NSVG_USER_SPACE : Int := 0
def NSVG_OBJECT_SPACE : Int := 1

def NSVG_UNITS_USER : Int := 0
def NSVG_UNITS_PX : Int := 1
def NSVG_UNITS_PT : Int := 2
def NSVG_UNITS_PC : Int := 3
def NSVG_UNITS_MM : Int := 4
def NSVG_UNITS_CM : Int := 5
def NSVG_UNITS_IN : Int := 6
def NSVG_UNITS_PERCENT : Int := 7
def NSVG_UNITS_EM : Int := 8
def NSVG_UNITS_EX : Int := 9

def NSVG_MAX_DASHES : Nat := 8

/-! Scene-model structures, mirroring the C structs.  Intrusive `next`/`prev`
pointers become the position in a Lean list; the C `union` in `NSVGpaint` is
modeled by keeping both members side by side, with `ptype` telling which one
is meaningful, as in the source. -/

structure NSVGgradientStop where
  color : Nat
  offset : F
deriving Repr, DecidableEq, Inhabited

structure NSVGgradient where
  xform : Xform
  origXform : Xform
  spread : Int
  fx : F
  fy : F
  stops : List NSVGgradientStop
deriving Repr, DecidableEq, Inhabited

structure NSVGpaint where
  ptype : Int
  color : Nat
  gradient : Option NSVGgradient
deriving Repr, DecidableEq, Inhabited

structure NSVGpath where
  pts : List F
  npts : Nat
  closed : Bool
  xform : Xform
  bounds : Bounds4
  origPts : List F
  origXform : Xform
  scaled : Bool
deriving Repr, DecidableEq, Inhabited

structure NSVGshape where
  id : Option String
  fill : NSVGpaint
  stroke : NSVGpaint
  opacity : F
  strokeWidth : F
  strokeDashOffset : F
  strokeDashArray : List F
  strokeDashCount : Int
  strokeLineJoin : Int
  strokeLineCap : Int
  miterLimit : F
  fillRule : Int
  flags : Nat
  bounds : Bounds4
  fillGradient : Option String
  strokeGradient : Option String
  xform : Xform
  paths : List NSVGpath
  origOpacity : F
  origXform : Xform
  origFill : NSVGpaint
  origStroke : NSVGpaint
  origStrokeWidth : F
  origStrokeDashOffset : F
  origStrokeDashArray : List F
  origStrokeDashCount : Int
  strokeScaled : Bool
deriving Repr, DecidableEq, Inhabited

structure NSVGanimate where
  begin : Int
  endMs : Int
  dur : Int
  groupDur : Int
  repeatCount : Int
  src : List F
  dst : List F
  spline : List F
  srcNa : Int
  dstNa : Int
  type : Int
  calcMode : Int
  additive : Int
  fill : Int
  flags : Nat
deriving Repr, DecidableEq, Inhabited

structure NSVGshapeNode where
  shapeDepth : Int
  shape : Option NSVGshape
  parent : Option Nat
  animates : List NSVGanimate
deriving Repr, DecidableEq, Inhabited

structure NSVGimage where
  width : F
  height : F
  viewMinx : F
  viewMiny : F
  viewWidth : F
  viewHeight : F
  fontSize : F
  dpi : F
  alignX : Int
  alignY : Int
  alignType : Int
  units : List Char
  shapes : List NSVGshapeNode
  memorySize : Int
deriving Repr, DecidableEq, Inhabited

structure NSVGcoordinate where
  value : F
  units : Int
deriving Repr, DecidableEq, Inhabited

structure NSVGlinearData where
  x1 : NSVGcoordinate
  y1 : NSVGcoordinate
  x2 : NSVGcoordinate
  y2 : NSVGcoordinate
deriving Repr, DecidableEq, Inhabited

structure NSVGradialData where
  cx : NSVGcoordinate
  cy : NSVGcoordinate
  r : NSVGcoordinate
  fx : NSVGcoordinate
  fy : NSVGcoordinate
deriving Repr, DecidableEq, Inhabited

structure NSVGgradientData where
  id : Option String
  ref : Option String
  gtype : Int
  linear : NSVGlinearData
  radial : NSVGradialData
  spread : Int
  units : Int
  xform : Xform
  stops : List NSVGgradientStop
deriving Repr, DecidableEq, Inhabited

structure NSVGattrib where
  id : Option String
  xform : Xform
  fillColor : Nat
  strokeColor : Nat
  opacity : F
  fillOpacity : F
  strokeOpacity : F
  fillGradient : Option String
  strokeGradient : Option String
  strokeWidth : F
  strokeDashOffset : F
  strokeDashArray : List F
  strokeDashCount : Int
  strokeLineJoin : Int
  strokeLineCap : Int
  miterLimit : F
  fillRule : Int
  fontSize : F
  stopColor : Nat
  stopOpacity : F
  stopOffset : F
  hasFill : Int
  hasStroke : Int
  visible : Int
deriving Repr, DecidableEq, Inhabited

/-- The parser state, `NSVGparser` in the source.  The attribute freelist
(`attrFree`) and the raw `malloc` of attribute frames have no observable
effect (frames are value-copied and those allocations bypass the accounting
wrappers), so the attribute chain is modeled as a plain stack whose head is
`attrHead`.  The id freelist does affect `memorySize`, so its length is
tracked. -/
structure NSVGparserS where
  attr : List NSVGattrib
  idFreeCount : Nat
  pts : List F
  npts : Nat
  cpts : Nat
  plist : List NSVGpath
  image : NSVGimage
  gradients : List NSVGgradientData
  pathFlag : Bool
  defsFlag : Bool
  shapeDepth : Int
deriving Repr, DecidableEq, Inhabited

/-- Attribute slice pair from the XML lexer, `NSVGattrValue`.  `term` records
the character that follows the value slice in the real buffer (its closing
quote); a few scanning loops of the source read it. -/
structure NSVGattrValue where
  name : List Char
  value : List Char
  term : Char := '\x22'
deriving Repr, DecidableEq, Inhabited

/-! Accounting wrappers.  `nsvg__malloc` and `nsvg__realloc` never fail in
the model; `nsvg__free` of a null pointer is handled at call sites. -/

def nsvg__mallocAcct (img : NSVGimage) (size : Int) : NSVGimage :=
  { img with memorySize := img.memorySize + size }

def nsvg__reallocAcct (img : NSVGimage) (size prevSize : Int) : NSVGimage :=
  { img with memorySize := img.memorySize + size - prevSize }

def nsvg__freeAcct (img : NSVGimage) (size : Int) : NSVGimage :=
  { img with memorySize := img.memorySize - size }

/-! Number scanner (`nsvg__parseNumber`, `nsvg__atof`). -/

/-- Split a list into its longest digit prefix and the rest. -/
def takeDigits (s : List Char) : List Char × List Char :=
  (s.takeWhile nsvg__isdigit, s.dropWhile nsvg__isdigit)

/-- C `strtoll` on a digit string (no sign: the callers below have consumed
it), clamping at `LLONG_MAX` on overflow as `strtoll` does. -/
def strtollDigits (ds : List Char) : Int :=
  let v := ds.foldl (fun acc c => acc * 10 + (c.toNat - '0'.toNat)) 0
  min (v : Int) (2 ^ 63 - 1)

/-- C `nsvg__parseNumber(s, it, size)`: scan one number token, return the
token text truncated to `size - 1` characters (the copy bound of the 64-byte
buffer) together with the remaining input. -/
def nsvg__parseNumber (s : List Char) (size : Nat) : List Char × List Char :=
  let (sgn, s) :=
    match s with
    | c :: rest => if c = '-' ∨ c = '+' then ([c], rest) else ([], s)
    | [] => ([], s)
  let (ip, s) := takeDigits s
  let (dp, s) :=
    match s with
    | '.' :: rest =>
      let (fp, rest) := takeDigits rest
      ('.' :: fp, rest)
    | _ => ([], s)
  let (ep, s) :=
    match s with
    | c :: rest =>
      if (c = 'e' ∨ c = 'E') ∧ rest.getD 0 '\x00' ≠ 'm' ∧ rest.getD 0 '\x00' ≠ 'x' then
        let (es, rest) :=
          match rest with
          | c2 :: rest2 => if c2 = '-' ∨ c2 = '+' then ([c2], rest2) else ([], rest)
          | [] => ([], rest)
        let (eds, rest) := takeDigits rest
        (c :: (es ++ eds), rest)
      else ([], s)
    | [] => ([], s)
  ((sgn ++ ip ++ dp ++ ep).take (size - 1), s)

/-- C `nsvg__atof`, the locale-independent float scanner, over the rational
float model (exact on decimal input). -/
def nsvg__atof (s : List Char) : F :=
  let (sign, s) : F × List Char :=
    match s with
    | '+' :: rest => (1, rest)
    | '-' :: rest => (-1, rest)
    | _ => (1, s)
  let (ip, s1) := takeDigits s
  let hasIntPart := !ip.isEmpty
  let res : F := if hasIntPart then ((strtollDigits ip : Int) : F) else 0
  let (res, hasFracPart, s2) :=
    match s1 with
    | '.' :: rest =>
      let (fp, rest2) := takeDigits rest
      if fp.isEmpty then (res, false, '.' :: rest)
      else (res + ((strtollDigits fp : Int) : F) / (10 : F) ^ fp.length, true, rest2)
    | _ => (res, false, s1)
  if ¬hasIntPart ∧ ¬hasFracPart then 0
  else
    let res :=
      match s2 with
      | c :: rest =>
        if c = 'e' ∨ c = 'E' then
          let (esign, rest2) : Int × List Char :=
            match rest with
            | '+' :: r => (1, r)
            | '-' :: r => (-1, r)
            | _ => (1, rest)
          let (eds, _) := takeDigits rest2
          if eds.isEmpty then res
          else res * (10 : F) ^ (esign * strtollDigits eds)
        else res
      | [] => res
    res * sign

/-- C `nsvg__parseUnits`, reading the first two characters after a number. -/
def nsvg__parseUnits (units : List Char) : Int :=
  let u0 := units.getD 0 '\x00'
  let u1 := units.getD 1 '\x00'
  if u0 = 'p' ∧ u1 = 'x' then NSVG_UNITS_PX
  else if u0 = 'p' ∧ u1 = 't' then NSVG_UNITS_PT
  else if u0 = 'p' ∧ u1 = 'c' then NSVG_UNITS_PC
  else if u0 = 'm' ∧ u1 = 'm' then NSVG_UNITS_MM
  else if u0 = 'c' ∧ u1 = 'm' then NSVG_UNITS_CM
  else if u0 = 'i' ∧ u1 = 'n' then NSVG_UNITS_IN
  else if u0 = '%' then NSVG_UNITS_PERCENT
  else if u0 = 'e' ∧ u1 = 'm' then NSVG_UNITS_EM
  else if u0 = 'e' ∧ u1 = 'x' then NSVG_UNITS_EX
  else NSVG_UNITS_USER

/-- C `nsvg__isCoordinate`. -/
def nsvg__isCoordinate (s : List Char) : Bool :=
  let s := match s with
    | c :: rest => if c = '-' ∨ c = '+' then rest else s
    | [] => s
  nsvg__isdigit (s.getD 0 '\x00') || s.getD 0 '\x00' = '.'

def nsvg__parseCoordinateRaw (str : List Char) : NSVGcoordinate :=
  let len := min (str.length + 1) 64
  let (buf, rest) := nsvg__parseNumber str len
  { units := nsvg__parseUnits rest, value := nsvg__atof buf }

def nsvg__coord (v : F) (units : Int) : NSVGcoordinate := ⟨v, units⟩

def nsvg__convertToPixels (image : NSVGimage) (c : NSVGcoordinate) (orig length : F) : F :=
  if c.units = NSVG_UNITS_USER then c.value
  else if c.units = NSVG_UNITS_PX then c.value
  else if c.units = NSVG_UNITS_PT then c.value / 72 * image.dpi
  else if c.units = NSVG_UNITS_PC then c.value / 6 * image.dpi
  else if c.units = NSVG_UNITS_MM then c.value / (254/10) * image.dpi
  else if c.units = NSVG_UNITS_CM then c.value / (254/100) * image.dpi
  else if c.units = NSVG_UNITS_IN then c.value * image.dpi
  else if c.units = NSVG_UNITS_EM then c.value * image.fontSize
  else if c.units = NSVG_UNITS_EX then c.value * image.fontSize * (52/100)
  else if c.units = NSVG_UNITS_PERCENT then orig + c.value / 100 * length
  else c.value

def nsvg__actualOrigX (p : NSVGparserS) : F := p.image.viewMinx
def nsvg__actualOrigY (p : NSVGparserS) : F := p.image.viewMiny
def nsvg__actualWidth (p : NSVGparserS) : F := p.image.viewWidth
def nsvg__actualHeight (p : NSVGparserS) : F := p.image.viewHeight

def nsvg__actualLength (p : NSVGparserS) : F :=
  let w := nsvg__actualWidth p
  let h := nsvg__actualHeight p
  sqrtf (w * w + h * h) / sqrtf 2

def nsvg__parseCoordinate (p : NSVGparserS) (str : List Char) (orig length : F) : F :=
  nsvg__convertToPixels p.image (nsvg__parseCoordinateRaw str) orig length

/-! Color parsing. -/

def isHexDigit (c : Char) : Bool :=
  nsvg__isdigit c || ('a' ≤ c && c ≤ 'f') || ('A' ≤ c && c ≤ 'F')

def hexVal (c : Char) : Nat :=
  if nsvg__isdigit c then c.toNat - '0'.toNat
  else if 'a' ≤ c && c ≤ 'f' then c.toNat - 'a'.toNat + 10
  else if 'A' ≤ c && c ≤ 'F' then c.toNat - 'A'.toNat + 10
  else 0

/-- C `isspace` as used by `sscanf` conversions (no NUL quirk here). -/
def cIsspace (c : Char) : Bool :=
  c = ' ' || c = '\t' || c = '\n' || c = '\x0b' || c = '\x0c' || c = '\r'

/-- One `%2x`-style conversion of `sscanf`: skip whitespace, read at most
`maxw` hex digits (at least one).  Returns the value and the rest. -/
def scanHexField (s : List Char) (maxw : Nat) : Option (Nat × List Char) :=
  let s := s.dropWhile cIsspace
  let ds := (s.takeWhile isHexDigit).take maxw
  if ds.isEmpty then none
  else some (ds.foldl (fun a c => a * 16 + hexVal c) 0, s.drop ds.length)

/-- One `%u` conversion of `sscanf`: skip whitespace, read decimal digits. -/
def scanUIntField (s : List Char) : Option (Nat × List Char) :=
  let s := s.dropWhile cIsspace
  let ds := s.takeWhile nsvg__isdigit
  if ds.isEmpty then none
  else some (ds.foldl (fun a c => a * 10 + (c.toNat - '0'.toNat)) 0, s.drop ds.length)

/-- C `nsvg__parseColorHex` (`sscanf("#%2x%2x%2x")`, falling back to the
one-digit form, then to gray). -/
def nsvg__parseColorHex (str : List Char) : Nat :=
  match str with
  | '#' :: rest =>
    match scanHexField rest 2 with
    | some (r, s1) =>
      match scanHexField s1 2 with
      | some (g, s2) =>
        match scanHexField s2 2 with
        | some (b, _) => NSVG_RGB r g b
        | none => nsvg__parseColorHex1 rest
      | none => nsvg__parseColorHex1 rest
    | none => nsvg__parseColorHex1 rest
  | _ => NSVG_RGB 128 128 128
where
  /-- The `#%1x%1x%1x` fallback. -/
  nsvg__parseColorHex1 (rest : List Char) : Nat :=
    match scanHexField rest 1 with
    | some (r, s1) =>
      match scanHexField s1 1 with
      | some (g, s2) =>
        match scanHexField s2 1 with
        | some (b, _) => NSVG_RGB (r * 17) (g * 17) (b * 17)
        | none => NSVG_RGB 128 128 128
      | none => NSVG_RGB 128 128 128
    | none => NSVG_RGB 128 128 128

/-- The integer path of `nsvg__parseColorRGB`:
`sscanf(str, "rgb(%u, %u, %u)")` (the closing parenthesis cannot lower the
conversion count and is not required). -/
def scanRgbInts (str : List Char) : Option (Nat × Nat × Nat) := do
  let s := str.drop 4
  let (r, s) ← scanUIntField s
  let s ← match s with | ',' :: t => pure t | _ => none
  let (g, s) ← scanUIntField s
  let s ← match s with | ',' :: t => pure t | _ => none
  let (b, _) ← scanUIntField s
  pure (r, g, b)

/-- The percent loop of `nsvg__parseColorRGB` for one component: skip spaces,
optional `+`, a float with mandatory digits around an optional dot, a `%`,
spaces, then the delimiter.  Returns the component and the rest on success. -/
def scanRgbPercentComp (s : List Char) (delim : Char) : Option (F × List Char) := do
  let s := s.dropWhile nsvg__isspace
  let s := match s with | '+' :: t => t | _ => s
  if s.isEmpty then none
  else
    let v := nsvg__atof s
    let ds := s.takeWhile nsvg__isdigit
    let s := s.drop ds.length
    let s ← match s with
      | '.' :: t =>
        if nsvg__isdigit (t.getD 0 '\x00') then pure (t.dropWhile nsvg__isdigit)
        else none
      | _ => pure s
    let s ← match s with | '%' :: t => pure t | _ => none
    let s := s.dropWhile nsvg__isspace
    let s ← if s.getD 0 '\x00' = delim then pure (s.drop 1) else none
    pure (v, s)

/-- C `nsvg__parseColorRGB`. -/
def nsvg__parseColorRGB (str : List Char) : Nat :=
  let rgbi : Nat × Nat × Nat :=
    match scanRgbInts str with
    | some v => v
    | none =>
      let pcts := do
        let s := str.drop 4
        let (r, s) ← scanRgbPercentComp s ','
        let (g, s) ← scanRgbPercentComp s ','
        let (b, _) ← scanRgbPercentComp s ')'
        pure (r, g, b)
      match pcts with
      | some (rf, gf, bf) =>
        ((cInt (roundf (rf * (255/100)))).toNat,
         (cInt (roundf (gf * (255/100)))).toNat,
         (cInt (roundf (bf * (255/100)))).toNat)
      | none => (128, 128, 128)
  NSVG_RGB (min rgbi.1 255) (min rgbi.2.1 255) (min rgbi.2.2 255)

/-- The compiled color-name table (`NANOSVG_ALL_COLOR_KEYWORDS` is not
defined in this build, so only the ten base entries exist). -/
def nsvg__colors : List (String × Nat) :=
  [("red", NSVG_RGB 255 0 0),
   ("green", NSVG_RGB 0 128 0),
   ("blue", NSVG_RGB 0 0 255),
   ("yellow", NSVG_RGB 255 255 0),
   ("cyan", NSVG_RGB 0 255 255),
   ("magenta", NSVG_RGB 255 0 255),
   ("black", NSVG_RGB 0 0 0),
   ("grey", NSVG_RGB 128 128 128),
   ("gray", NSVG_RGB 128 128 128),
   ("white", NSVG_RGB 255 255 255)]

/-- C `nsvg__parseColorName`: first `strncmp(name, str, len) == 0` entry,
gray on no match. -/
def nsvg__parseColorName (str : List Char) (len : Nat) : Nat :=
  match nsvg__colors.find? (fun e => cstrEq e.1.toList str len) with
  | some e => e.2
  | none => NSVG_RGB 128 128 128

/-- C `nsvg__parseColor`. -/
def nsvg__parseColor (str : List Char) : Nat :=
  let str := str.dropWhile (· = ' ')
  let len := str.length
  if len ≥ 1 ∧ str.getD 0 '\x00' = '#' then nsvg__parseColorHex str
  else if len ≥ 4 ∧ str.getD 0 '\x00' = 'r' ∧ str.getD 1 '\x00' = 'g' ∧
          str.getD 2 '\x00' = 'b' ∧ str.getD 3 '\x00' = '(' then
    nsvg__parseColorRGB str
  else nsvg__parseColorName str len

/-- C `nsvg__parseOpacity`. -/
def nsvg__parseOpacity (str : List Char) : F :=
  let v := nsvg__atof str
  let v := if v < 0 then 0 else v
  if v > 1 then 1 else v

/-- C `nsvg__parseMiterLimit`. -/
def nsvg__parseMiterLimit (str : List Char) : F :=
  let v := nsvg__atof str
  if v < 0 then 0 else v

/-- C `nsvg__parseUrl`: skip `url(` and an optional `#`, copy up to 63
characters until `)`. -/
def nsvg__parseUrl (str : List Char) : String :=
  let s := str.drop 4
  let s := match s with | '#' :: t => t | _ => s
  String.mk ((s.takeWhile (· ≠ ')')).take 63)

def nsvg__parseLineCap (str : List Char) : Int :=
  if cstrEqFull str "butt" then NSVG_CAP_BUTT
  else if cstrEqFull str "round" then NSVG_CAP_ROUND
  else if cstrEqFull str "square" then NSVG_CAP_SQUARE
  else NSVG_CAP_BUTT

def nsvg__parseLineJoin (str : List Char) : Int :=
  if cstrEqFull str "miter" then NSVG_JOIN_MITER
  else if cstrEqFull str "round" then NSVG_JOIN_ROUND
  else if cstrEqFull str "bevel" then NSVG_JOIN_BEVEL
  else NSVG_JOIN_MITER

def nsvg__parseFillRule (str : List Char) : Int :=
  if cstrEqFull str "nonzero" then NSVG_FILLRULE_NONZERO
  else if cstrEqFull str "evenodd" then NSVG_FILLRULE_EVENODD
  else NSVG_FILLRULE_NONZERO

/-- C `nsvg__getNextDashItem`: skip whitespace and commas, then take
characters up to the next whitespace, comma or semicolon (at most 63 are
kept).  Returns the item and the rest. -/
def nsvg__getNextDashItem (s : List Char) : List Char × List Char :=
  let s := s.dropWhile (fun c => nsvg__isspace c || c = ',')
  let item := s.takeWhile (fun c => ¬nsvg__isspace c ∧ c ≠ ',' ∧ c ≠ ';')
  (item.take 63, s.drop item.length)

/-- Loop of `nsvg__parseStrokeDashArray`. -/
def nsvg__parseStrokeDashLoop (p : NSVGparserS) (s : List Char)
    (acc : List F) : Nat → List F
  | 0 => acc
  | fuel + 1 =>
    if s.isEmpty then acc
    else
      let (item, rest) := nsvg__getNextDashItem s
      if item.isEmpty then acc
      else
        let acc :=
          if acc.length < NSVG_MAX_DASHES then
            acc ++ [fabsf (nsvg__parseCoordinate p item 0 (nsvg__actualLength p))]
          else acc
        nsvg__parseStrokeDashLoop p rest acc fuel

/-- C `nsvg__parseStrokeDashArray`: returns the dash count and the parsed
values (the C code fills the caller's 8-float array). -/
def nsvg__parseStrokeDashArray (p : NSVGparserS) (str : List Char) :
    Int × List F :=
  if str.getD 0 '\x00' = 'n' then (0, [])
  else
    let vals := nsvg__parseStrokeDashLoop p str [] (str.length + 1)
    let sum := vals.foldl (· + ·) 0
    if sum ≤ 1 / 1000000 then (0, vals) else ((vals.length : Int), vals)

/-! Transform parsing. -/

/-- Number-collecting loop of `nsvg__parseTransformArgs` over the slice
between the parentheses.  Writes into the caller's buffer; `overflow = true`
models the `return 0` exit (the entries already written remain). -/
def transformArgsLoop (s : List Char) (maxNa : Nat) (args : List F) (na : Nat) :
    Nat → List F × Nat × Bool
  | 0 => (args, na, false)
  | fuel + 1 =>
    match s with
    | [] => (args, na, false)
    | c :: rest =>
      if c = '-' ∨ c = '+' ∨ c = '.' ∨ nsvg__isdigit c then
        if na ≥ maxNa then (args, na, true)
        else
          let len := min (s.length + 1) 64
          let (it, rest2) := nsvg__parseNumber s len
          transformArgsLoop rest2 maxNa (writeAt args na (nsvg__atof it)) (na + 1) fuel
      else transformArgsLoop rest maxNa args na fuel

/-- C `nsvg__parseTransformArgs` over the caller's buffer `args0` (only the
parsed entries are overwritten, as in C).  Returns the C `int` result (1 when
the parentheses are missing, 0 on argument overflow, otherwise the offset of
the terminator), the updated buffer and `na`. -/
def nsvg__parseTransformArgs (str : List Char) (args0 : List F) (maxNa : Nat)
    (hasParens : Bool) : Int × List F × Nat :=
  let popen := if hasParens then (str.findIdx? (· = '(')).getD str.length else 0
  if popen ≥ str.length then (1, args0, 0)
  else
    let pclose :=
      if hasParens then
        match (str.drop popen).findIdx? (· = ')') with
        | some i => some (popen + i)
        | none => none
      else some (popen + ((str.drop popen).findIdx? (· = ';')).getD (str.length - popen))
    match pclose with
    | none => (1, args0, 0)
    | some pend =>
      let inner := (str.take pend).drop popen
      match transformArgsLoop inner maxNa args0 0 (inner.length + 1) with
      | (args, na, true) => (0, args, na)
      | (args, na, false) => ((pend : Int), args, na)

/-- The uninitialized C stack buffers (`float args[N]`, `float t[6]`) are
modeled as zero-filled; no theorem below depends on a read-before-write. -/
def zeroBuf (n : Nat) : List F := List.replicate n 0

def nsvg__parseMatrix (str : List Char) : Int × Option Xform :=
  let (len, t, na) := nsvg__parseTransformArgs str (zeroBuf 6) 6 true
  if na ≠ 6 then (len, none)
  else (len, some ⟨t.getD 0 0, t.getD 1 0, t.getD 2 0, t.getD 3 0, t.getD 4 0, t.getD 5 0⟩)

def nsvg__parseTranslate (str : List Char) : Int × Xform :=
  let (len, args, na) := nsvg__parseTransformArgs str (zeroBuf 2) 2 true
  let a1 := if na = 1 then 0 else args.getD 1 0
  (len, nsvg__xformSetTranslation (args.getD 0 0) a1)

def nsvg__parseScale (str : List Char) : Int × Xform :=
  let (len, args, na) := nsvg__parseTransformArgs str (zeroBuf 2) 2 true
  let a1 := if na = 1 then args.getD 0 0 else args.getD 1 0
  (len, nsvg__xformSetScale (args.getD 0 0) a1)

def nsvg__parseSkewX (str : List Char) : Int × Xform :=
  let (len, args, _) := nsvg__parseTransformArgs str (zeroBuf 1) 1 true
  (len, nsvg__xformSetSkewX (args.getD 0 0))

def nsvg__parseSkewY (str : List Char) : Int × Xform :=
  let (len, args, _) := nsvg__parseTransformArgs str (zeroBuf 1) 1 true
  (len, nsvg__xformSetSkewY (args.getD 0 0))

def nsvg__parseRotate (str : List Char) : Int × Xform :=
  let (len, args, na) := nsvg__parseTransformArgs str (zeroBuf 3) 3 true
  let args := if na = 1 then [args.getD 0 0, 0, 0] else args
  if na > 1 then
    (len, nsvg__xformSetNonCenterRotation (args.getD 0 0) (args.getD 1 0) (args.getD 2 0))
  else (len, nsvg__xformSetRotation (args.getD 0 0))

/-- Loop body of C `nsvg__parseTransform`. -/
def nsvg__parseTransformLoop (str : List Char) (xform : Xform) : Nat → Xform
  | 0 => xform
  | fuel + 1 =>
    match str with
    | [] => xform
    | _ :: rest =>
      let step : Option (Int × Option Xform) :=
        if str.length ≥ 6 ∧ cstrEq str "matrix".toList 6 then
          some (nsvg__parseMatrix str)
        else if str.length ≥ 9 ∧ cstrEq str "translate".toList 9 then
          some (Prod.map id some (nsvg__parseTranslate str))
        else if str.length ≥ 5 ∧ cstrEq str "scale".toList 5 then
          some (Prod.map id some (nsvg__parseScale str))
        else if str.length ≥ 6 ∧ cstrEq str "rotate".toList 6 then
          some (Prod.map id some (nsvg__parseRotate str))
        else if str.length ≥ 5 ∧ cstrEq str "skewX".toList 5 then
          some (Prod.map id some (nsvg__parseSkewX str))
        else if str.length ≥ 5 ∧ cstrEq str "skewY".toList 5 then
          some (Prod.map id some (nsvg__parseSkewY str))
        else none
      match step with
      | none => nsvg__parseTransformLoop rest xform fuel
      | some (len, t) =>
        if len ≠ 0 then
          let str2 := str.drop len.toNat
          let xform2 := match t with
            | some t => nsvg__xformPremultiply xform t
            | none => xform
          nsvg__parseTransformLoop str2 xform2 fuel
        else nsvg__parseTransformLoop rest xform fuel

/-- C `nsvg__parseTransform`.  Note that the source premultiplies the parsed
matrix even when `nsvg__parseMatrix` failed to collect six numbers; in that
case `t` is the stale local (uninitialized on the first iteration), which the
model renders as "no update" — no theorem below depends on that corner. -/
def nsvg__parseTransform (str : List Char) : Xform :=
  nsvg__parseTransformLoop str nsvg__xformIdentity (str.length + 1)

/-! Point-buffer management and path building. -/

def nsvg__resetPath (p : NSVGparserS) : NSVGparserS := { p with npts := 0 }

/-- C `nsvg__addPoint` with its doubling reallocation accounting. -/
def nsvg__addPoint (p : NSVGparserS) (x y : F) : NSVGparserS :=
  let p :=
    if p.npts + 1 > p.cpts then
      let cpts := if p.cpts ≠ 0 then p.cpts * 2 else 8
      { p with
        image := nsvg__reallocAcct p.image ((cpts : Int) * 2 * sizeofFloat)
                   ((p.cpts : Int) * 2 * sizeofFloat)
        cpts := cpts }
    else p
  { p with
    pts := writeAt (writeAt p.pts (p.npts * 2) x) (p.npts * 2 + 1) y
    npts := p.npts + 1 }

def nsvg__moveTo (p : NSVGparserS) (x y : F) : NSVGparserS :=
  if p.npts > 0 then
    { p with pts := writeAt (writeAt p.pts ((p.npts - 1) * 2) x) ((p.npts - 1) * 2 + 1) y }
  else nsvg__addPoint p x y

def nsvg__lineTo (p : NSVGparserS) (x y : F) : NSVGparserS :=
  if p.npts > 0 then
    let px := getF p.pts ((p.npts - 1) * 2)
    let py := getF p.pts ((p.npts - 1) * 2 + 1)
    let dx := x - px
    let dy := y - py
    let p := nsvg__addPoint p (px + dx / 3) (py + dy / 3)
    let p := nsvg__addPoint p (x - dx / 3) (y - dy / 3)
    nsvg__addPoint p x y
  else p

def nsvg__cubicBezTo (p : NSVGparserS) (cpx1 cpy1 cpx2 cpy2 x y : F) : NSVGparserS :=
  if p.npts > 0 then
    let p := nsvg__addPoint p cpx1 cpy1
    let p := nsvg__addPoint p cpx2 cpy2
    nsvg__addPoint p x y
  else p

/-! Id allocation (fixed 64-byte records with a freelist). -/

/-- C `nsvg__allocId`: reuse a freelist record (no accounting) or charge a
fresh one.  The record contents are uninitialized; every caller overwrites
them, modeled by returning the empty string. -/
def nsvg__allocId (p : NSVGparserS) : NSVGparserS × String :=
  if p.idFreeCount > 0 then ({ p with idFreeCount := p.idFreeCount - 1 }, "")
  else ({ p with image := nsvg__mallocAcct p.image sizeofNSVGid }, "")

/-- C `nsvg__freeId`: push onto the freelist (no accounting change). -/
def nsvg__freeId (p : NSVGparserS) (id : Option String) : NSVGparserS :=
  match id with
  | none => p
  | some _ => { p with idFreeCount := p.idFreeCount + 1 }

/-- C `nsvg__cloneId`. -/
def nsvg__cloneId (p : NSVGparserS) (id : Option String) : NSVGparserS × Option String :=
  match id with
  | none => (p, none)
  | some s =>
    let (p, _) := nsvg__allocId p
    (p, some s)

def nsvg__getAttr (p : NSVGparserS) : NSVGattrib := p.attr.headD default

def modifyAttr (p : NSVGparserS) (f : NSVGattrib → NSVGattrib) : NSVGparserS :=
  match p.attr with
  | [] => p
  | a :: rest => { p with attr := f a :: rest }

/-- C `nsvg__pushAttr`: duplicate the head frame; ids are not shared — the
`id` is dropped and the gradient ids are cloned. -/
def nsvg__pushAttr (p : NSVGparserS) : NSVGparserS :=
  match p.attr with
  | [] => p
  | prev :: _ =>
    let (p, fg) := nsvg__cloneId p prev.fillGradient
    let (p, sg) := nsvg__cloneId p prev.strokeGradient
    { p with attr := { prev with id := none, fillGradient := fg, strokeGradient := sg } :: p.attr }

/-- C `nsvg__popAttr` (never pops the last frame); the popped frame's ids go
back to the freelist. -/
def nsvg__popAttr (p : NSVGparserS) : NSVGparserS :=
  match p.attr with
  | top :: next :: rest =>
    let p := { p with attr := next :: rest }
    let p := nsvg__freeId p top.id
    let p := nsvg__freeId p top.fillGradient
    nsvg__freeId p top.strokeGradient
  | _ => p

/-! Path transforms and bounds. -/

/-- The bounds fold of C `nsvg__transformPath` / `nsvg__addPath`:
`for (i = 0; i < npts - 1; i += 3)` over cubic segments, keeping the previous
bounds when no iteration runs. -/
def pathBoundsLoop (pts : List F) (npts i : Nat) (b : Bounds4) (first : Bool)
    (fuel : Nat) : Bounds4 :=
  match fuel with
  | 0 => b
  | fuel + 1 =>
    if i + 1 < npts then
      let c := nsvg__curveBounds (getF pts (i * 2)) (getF pts (i * 2 + 1))
        (getF pts ((i + 1) * 2)) (getF pts ((i + 1) * 2 + 1))
        (getF pts ((i + 2) * 2)) (getF pts ((i + 2) * 2 + 1))
        (getF pts ((i + 3) * 2)) (getF pts ((i + 3) * 2 + 1))
      let b2 :=
        if first then c
        else ⟨nsvg__minf b.b0 c.b0, nsvg__minf b.b1 c.b1,
              nsvg__maxf b.b2 c.b2, nsvg__maxf b.b3 c.b3⟩
      pathBoundsLoop pts npts (i + 3) b2 false fuel
    else b

/-- C `nsvg__transformPath`: rewrite `pts` from `orig.pts` through `xform`,
then recompute the bounds. -/
def nsvg__transformPath (path : NSVGpath) (xform : Xform) : NSVGpath :=
  let pts := (List.range path.npts).foldl
    (fun acc i =>
      let (x, y) := nsvg__xformPoint (getF path.origPts (i * 2)) (getF path.origPts (i * 2 + 1)) xform
      acc ++ [x, y])
    ([] : List F)
  let bounds := pathBoundsLoop pts path.npts 0 path.bounds true (path.npts + 1)
  { path with pts := pts, bounds := bounds }

/-- C `nsvg__addPath`. -/
def nsvg__addPath (p : NSVGparserS) (closed : Bool) : NSVGparserS :=
  let attr := nsvg__getAttr p
  if p.npts < 4 then p
  else
    let p := if closed then nsvg__lineTo p (getF p.pts 0) (getF p.pts 1) else p
    if p.npts % 3 ≠ 1 then p
    else
      let npts := p.npts
      let ptsCopy := (p.pts ++ List.replicate (npts * 2 - p.pts.length) 0).take (npts * 2)
      let img := nsvg__mallocAcct p.image sizeofNSVGpath
      let img := nsvg__mallocAcct img ((npts : Int) * 2 * sizeofFloat)
      let img := nsvg__mallocAcct img ((npts : Int) * 2 * sizeofFloat)
      let path : NSVGpath :=
        { pts := ptsCopy
          npts := npts
          closed := closed
          xform := attr.xform
          bounds := default
          origPts := ptsCopy
          origXform := attr.xform
          scaled := false }
      let path := nsvg__transformPath path path.xform
      { p with image := img, plist := path :: p.plist }

def nsvg__getAverageScale (t : Xform) : F :=
  let sx := sqrtf (t.m0 * t.m0 + t.m2 * t.m2)
  let sy := sqrtf (t.m1 * t.m1 + t.m3 * t.m3)
  (sx + sy) * (1/2)

/-- C `nsvg__scaleShapeStroke`: scale the live stroke metrics by the average
scale of `xform` and clear `strokeScaled`. -/
def nsvg__scaleShapeStroke (shape : NSVGshape) (xform : Xform) : NSVGshape :=
  let scale := nsvg__getAverageScale xform
  { shape with
    strokeWidth := shape.strokeWidth * scale
    strokeDashOffset := shape.strokeDashOffset * scale
    strokeDashArray := scalePrefix shape.strokeDashArray shape.strokeDashCount.toNat scale
    strokeScaled := false }

/-- Bounds fold over a path list (C loops in `nsvg__addShape` and
`nsvg__updateShapeBounds`), dereferencing the head unconditionally as the
source does (shapes always own at least one path). -/
def shapeBoundsOf (paths : List NSVGpath) : Bounds4 :=
  match paths with
  | [] => default
  | p0 :: rest =>
    rest.foldl
      (fun b pa =>
        ⟨nsvg__minf b.b0 pa.bounds.b0, nsvg__minf b.b1 pa.bounds.b1,
         nsvg__maxf b.b2 pa.bounds.b2, nsvg__maxf b.b3 pa.bounds.b3⟩)
      p0.bounds

def nsvg__updateShapeBounds (shape : NSVGshape) : NSVGshape :=
  { shape with bounds := shapeBoundsOf shape.paths }

/-- C `nsvg__addShape`: commit the accumulated path list as a shape with a
new shape node, snapshotting the attribute frame and the animation baseline. -/
def nsvg__addShape (p : NSVGparserS) : NSVGparserS :=
  let attr := nsvg__getAttr p
  if p.plist.isEmpty then p
  else
    let img := nsvg__mallocAcct p.image sizeofNSVGshape
    let img := nsvg__mallocAcct img sizeofNSVGshapeNode
    let dash0 : List F := List.replicate 8 (0 : F)
    let shape : NSVGshape :=
      { id := attr.id
        fillGradient := attr.fillGradient
        strokeGradient := attr.strokeGradient
        xform := attr.xform
        strokeWidth := attr.strokeWidth
        strokeDashOffset := attr.strokeDashOffset
        strokeDashArray := overwritePrefix dash0 (attr.strokeDashArray.take attr.strokeDashCount.toNat)
        strokeDashCount := attr.strokeDashCount
        strokeLineJoin := attr.strokeLineJoin
        strokeLineCap := attr.strokeLineCap
        miterLimit := attr.miterLimit
        fillRule := attr.fillRule
        opacity := attr.opacity
        paths := p.plist
        fill := default
        stroke := default
        flags := 0
        bounds := default
        origOpacity := 0
        origXform := nsvg__xformIdentity
        origFill := default
        origStroke := default
        origStrokeWidth := 0
        origStrokeDashOffset := 0
        origStrokeDashArray := dash0
        origStrokeDashCount := 0
        strokeScaled := false }
    let shape := nsvg__scaleShapeStroke shape shape.xform
    let shape := { shape with bounds := shapeBoundsOf shape.paths }
    let fill : NSVGpaint :=
      if attr.hasFill = 0 then { ptype := NSVG_PAINT_NONE, color := 0, gradient := none }
      else if attr.hasFill = 1 then
        { ptype := NSVG_PAINT_COLOR
          color := attr.fillColor ||| ((cInt (attr.fillOpacity * 255)).toNat <<< 24)
          gradient := none }
      else if attr.hasFill = 2 then { ptype := NSVG_PAINT_UNDEF, color := 0, gradient := none }
      else default
    let stroke : NSVGpaint :=
      if attr.hasStroke = 0 then { ptype := NSVG_PAINT_NONE, color := 0, gradient := none }
      else if attr.hasStroke = 1 then
        { ptype := NSVG_PAINT_COLOR
          color := attr.strokeColor ||| ((cInt (attr.strokeOpacity * 255)).toNat <<< 24)
          gradient := none }
      else if attr.hasStroke = 2 then { ptype := NSVG_PAINT_UNDEF, color := 0, gradient := none }
      else default
    let shape :=
      { shape with
        fill := fill
        stroke := stroke
        flags := if attr.visible ≠ 0 then NSVG_FLAGS_VISIBLE else 0 }
    let shape :=
      { shape with
        origOpacity := attr.opacity
        origXform := shape.xform
        origFill := shape.fill
        origStroke := shape.stroke
        origStrokeWidth := shape.strokeWidth
        origStrokeDashOffset := shape.strokeDashOffset
        origStrokeDashArray :=
          overwritePrefix shape.origStrokeDashArray (shape.strokeDashArray.take shape.strokeDashCount.toNat)
        origStrokeDashCount := shape.strokeDashCount }
    let node : NSVGshapeNode :=
      { shapeDepth := p.shapeDepth, shape := some shape, parent := none, animates := [] }
    let p := { p with image := { img with shapes := img.shapes ++ [node] }, plist := [] }
    modifyAttr p (fun a => { a with id := none, fillGradient := none, strokeGradient := none })

/-! Attribute dispatch (`nsvg__parseAttr`), the `style="..."` list
(`nsvg__parseStyle` / `nsvg__parseNameValue`), and `nsvg__parseAttribs`.

The three C functions are mutually recursive through nested `style`
attributes; the Lean versions share a fuel argument decremented at every
call.  Call sites size the fuel so that it cannot run out (each nesting level
strictly shrinks the slice).

A slice's `term` argument is the character that follows the slice in the
real buffer (the closing quote of an attribute value); `nsvg__parseStyle`
reads it during its right-trim and can include it in the last item, exactly
as the source does. -/

/-- The right-trim loop of `nsvg__parseStyle` / `nsvg__parseNameValue`: step
`e` back while the character there is `delim` or a space, never below
`start`.  The second `Nat` argument is fuel (`e - start` steps suffice). -/
def styleTrimBack (charAt : Nat → Char) (delim : Char) (start : Nat) : Nat → Nat → Nat
  | _, 0 => start
  | e, fuel + 1 =>
    if e > start ∧ (charAt e = delim ∨ nsvg__isspace (charAt e)) then
      styleTrimBack charAt delim start (e - 1) fuel
    else e

mutual

def nsvg__parseAttr (fuel : Nat) (p : NSVGparserS) (name value : List Char)
    (term : Char) : NSVGparserS × Bool :=
  match fuel with
  | 0 => (p, false)
  | fuel + 1 =>
    if cstrEqFull name "style" then
      (nsvg__parseStyle fuel p value term, true)
    else if cstrEqFull name "display" then
      (if cstrEqFull value "none" then modifyAttr p (fun a => { a with visible := 0 }) else p,
       true)
    else if cstrEqFull name "fill" then
      if cstrEqFull value "none" || cstrEqFull value "transparent" then
        (modifyAttr p (fun a => { a with hasFill := 0 }), true)
      else if cstrEq (value ++ [term]) "url(".toList 4 then
        let p := match (nsvg__getAttr p).fillGradient with
          | some _ => p
          | none => (nsvg__allocId p).1
        (modifyAttr p (fun a =>
          { a with hasFill := 2, fillGradient := some (nsvg__parseUrl value) }), true)
      else
        (modifyAttr p (fun a => { a with hasFill := 1, fillColor := nsvg__parseColor value }),
         true)
    else if cstrEqFull name "opacity" then
      (modifyAttr p (fun a => { a with opacity := nsvg__parseOpacity value }), true)
    else if cstrEqFull name "fill-opacity" then
      (modifyAttr p (fun a => { a with fillOpacity := nsvg__parseOpacity value }), true)
    else if cstrEqFull name "stroke" then
      if cstrEqFull value "none" then
        (modifyAttr p (fun a => { a with hasStroke := 0 }), true)
      else if cstrEq (value ++ [term]) "url(".toList 4 then
        let p := match (nsvg__getAttr p).strokeGradient with
          | some _ => p
          | none => (nsvg__allocId p).1
        (modifyAttr p (fun a =>
          { a with hasStroke := 2, strokeGradient := some (nsvg__parseUrl value) }), true)
      else
        (modifyAttr p (fun a => { a with hasStroke := 1, strokeColor := nsvg__parseColor value }),
         true)
    else if cstrEqFull name "stroke-width" then
      (modifyAttr p (fun a =>
        { a with strokeWidth := nsvg__parseCoordinate p value 0 (nsvg__actualLength p) }), true)
    else if cstrEqFull name "stroke-dasharray" then
      let (count, vals) := nsvg__parseStrokeDashArray p value
      (modifyAttr p (fun a =>
        { a with strokeDashCount := count
                 strokeDashArray := overwritePrefix a.strokeDashArray vals }), true)
    else if cstrEqFull name "stroke-dashoffset" then
      (modifyAttr p (fun a =>
        { a with strokeDashOffset := nsvg__parseCoordinate p value 0 (nsvg__actualLength p) }), true)
    else if cstrEqFull name "stroke-opacity" then
      (modifyAttr p (fun a => { a with strokeOpacity := nsvg__parseOpacity value }), true)
    else if cstrEqFull name "stroke-linecap" then
      (modifyAttr p (fun a => { a with strokeLineCap := nsvg__parseLineCap value }), true)
    else if cstrEqFull name "stroke-linejoin" then
      (modifyAttr p (fun a => { a with strokeLineJoin := nsvg__parseLineJoin value }), true)
    else if cstrEqFull name "stroke-miterlimit" then
      (modifyAttr p (fun a => { a with miterLimit := nsvg__parseMiterLimit value }), true)
    else if cstrEqFull name "fill-rule" then
      (modifyAttr p (fun a => { a with fillRule := nsvg__parseFillRule value }), true)
    else if cstrEqFull name "font-size" then
      (modifyAttr p (fun a =>
        { a with fontSize := nsvg__parseCoordinate p value 0 (nsvg__actualLength p) }), true)
    else if cstrEqFull name "transform" then
      (modifyAttr p (fun a =>
        { a with xform := nsvg__xformPremultiply a.xform (nsvg__parseTransform value) }), true)
    else if cstrEqFull name "stop-color" then
      (modifyAttr p (fun a => { a with stopColor := nsvg__parseColor value }), true)
    else if cstrEqFull name "stop-opacity" then
      (modifyAttr p (fun a => { a with stopOpacity := nsvg__parseOpacity value }), true)
    else if cstrEqFull name "offset" then
      (modifyAttr p (fun a => { a with stopOffset := nsvg__parseCoordinate p value 0 1 }), true)
    else if cstrEqFull name "id" then
      let p := match (nsvg__getAttr p).id with
        | some _ => p
        | none => (nsvg__allocId p).1
      (modifyAttr p (fun a => { a with id := some (String.mk (value.take 63)) }), true)
    else (p, false)

def nsvg__parseNameValue (fuel : Nat) (p : NSVGparserS) (item : List Char)
    (term : Char) : NSVGparserS :=
  match fuel with
  | 0 => p
  | fuel + 1 =>
    let charAt := fun i => (item ++ [term]).getD i '\x00'
    let colon := (item.takeWhile (· ≠ ':')).length
    let vstart :=
      colon + ((item.drop colon).takeWhile (fun c => c = ':' ∨ nsvg__isspace c)).length
    let value := item.drop vstart
    let nameEnd := styleTrimBack charAt ':' 0 colon colon + 1
    (nsvg__parseAttr fuel p (item.take nameEnd) value '\x00').1

def nsvg__parseStyle (fuel : Nat) (p : NSVGparserS) (value : List Char)
    (term : Char) : NSVGparserS :=
  match fuel with
  | 0 => p
  | fuel + 1 => nsvg__parseStyleLoop fuel p value term 0

def nsvg__parseStyleLoop (fuel : Nat) (p : NSVGparserS) (s : List Char)
    (term : Char) (pos : Nat) : NSVGparserS :=
  match fuel with
  | 0 => p
  | fuel + 1 =>
    if pos ≥ s.length then p
    else
      let charAt := fun i => (s ++ [term]).getD i '\x00'
      let start := pos + ((s.drop pos).takeWhile nsvg__isspace).length
      let q := start + ((s.drop start).takeWhile (· ≠ ';')).length
      let e := styleTrimBack charAt ';' start q q + 1
      let item := ((s ++ [term]).take e).drop start
      let p := nsvg__parseNameValue fuel p item '\x00'
      if q < s.length then nsvg__parseStyleLoop fuel p s term (q + 1) else p

end

/-- Fuel that cannot be exhausted by the style nesting of one attribute. -/
def attrFuel (name value : List Char) : Nat :=
  (name.length + value.length + 8) * (value.length + 8)

/-- C `nsvg__parseAttr` at a call site (fuel supplied). -/
def nsvg__parseAttrC (p : NSVGparserS) (a : NSVGattrValue) : NSVGparserS × Bool :=
  nsvg__parseAttr (attrFuel a.name a.value) p a.name a.value a.term

/-- C `nsvg__parseAttribs`. -/
def nsvg__parseAttribs (p : NSVGparserS) (attrs : List NSVGattrValue) : NSVGparserS :=
  attrs.foldl
    (fun p a =>
      if cstrEqFull a.name "style" then
        nsvg__parseStyle (attrFuel a.name a.value) p a.value a.term
      else (nsvg__parseAttr (attrFuel a.name a.value) p a.name a.value a.term).1)
    p

/-! Shape element handlers. -/

/-- The six geometry fields collected by the attribute loop of
`nsvg__parseRect` (`rx`/`ry` start at -1, marking "not set"). -/
structure RectVals where
  x : F := 0
  y : F := 0
  w : F := 0
  h : F := 0
  rx : F := -1
  ry : F := -1
deriving Repr, DecidableEq, Inhabited

/-- Attribute loop of C `nsvg__parseRect`. -/
def nsvg__parseRectAttrs (p : NSVGparserS) (attrs : List NSVGattrValue) :
    NSVGparserS × RectVals :=
  attrs.foldl
    (fun (acc : NSVGparserS × RectVals) a =>
      let (p, v) := acc
      let (p, ok) := nsvg__parseAttrC p a
      if ok then (p, v)
      else
        let v := if cstrEqFull a.name "x" then
          { v with x := nsvg__parseCoordinate p a.value (nsvg__actualOrigX p) (nsvg__actualWidth p) } else v
        let v := if cstrEqFull a.name "y" then
          { v with y := nsvg__parseCoordinate p a.value (nsvg__actualOrigY p) (nsvg__actualHeight p) } else v
        let v := if cstrEqFull a.name "width" then
          { v with w := nsvg__parseCoordinate p a.value 0 (nsvg__actualWidth p) } else v
        let v := if cstrEqFull a.name "height" then
          { v with h := nsvg__parseCoordinate p a.value 0 (nsvg__actualHeight p) } else v
        let v := if cstrEqFull a.name "rx" then
          { v with rx := fabsf (nsvg__parseCoordinate p a.value 0 (nsvg__actualWidth p)) } else v
        let v := if cstrEqFull a.name "ry" then
          { v with ry := fabsf (nsvg__parseCoordinate p a.value 0 (nsvg__actualHeight p)) } else v
        (p, v))
    (p, {})

/-- Radius defaulting and clamping of C `nsvg__parseRect` (the straight-line
code between the attribute loop and the `w != 0` test). -/
def nsvg__rectRadii (w h rx0 ry0 : F) : F × F :=
  let rx := if rx0 < 0 ∧ ry0 > 0 then ry0 else rx0
  let ry := if ry0 < 0 ∧ rx > 0 then rx else ry0
  let rx := if rx < 0 then 0 else rx
  let ry := if ry < 0 then 0 else ry
  let rx := if rx > w / 2 then w / 2 else rx
  let ry := if ry > h / 2 then h / 2 else ry
  (rx, ry)

/-- Path emission of C `nsvg__parseRect` after the radii are fixed: the
plain four-point rectangle when `rx < 0.00001 || ry < 0.0001`, the rounded
form otherwise. -/
def nsvg__rectEmit (p : NSVGparserS) (x y w h rx ry : F) : NSVGparserS :=
  if rx < 1/100000 ∨ ry < 1/10000 then
    let p := nsvg__moveTo p x y
    let p := nsvg__lineTo p (x + w) y
    let p := nsvg__lineTo p (x + w) (y + h)
    nsvg__lineTo p x (y + h)
  else
    let p := nsvg__moveTo p (x + rx) y
    let p := nsvg__lineTo p (x + w - rx) y
    let p := nsvg__cubicBezTo p (x + w - rx * (1 - NSVG_KAPPA90)) y (x + w) (y + ry * (1 - NSVG_KAPPA90)) (x + w) (y + ry)
    let p := nsvg__lineTo p (x + w) (y + h - ry)
    let p := nsvg__cubicBezTo p (x + w) (y + h - ry * (1 - NSVG_KAPPA90)) (x + w - rx * (1 - NSVG_KAPPA90)) (y + h) (x + w - rx) (y + h)
    let p := nsvg__lineTo p (x + rx) (y + h)
    let p := nsvg__cubicBezTo p (x + rx * (1 - NSVG_KAPPA90)) (y + h) x (y + h - ry * (1 - NSVG_KAPPA90)) x (y + h - ry)
    let p := nsvg__lineTo p x (y + ry)
    nsvg__cubicBezTo p x (y + ry * (1 - NSVG_KAPPA90)) (x + rx * (1 - NSVG_KAPPA90)) y (x + rx) y

/-- C `nsvg__parseRect`. -/
def nsvg__parseRect (p : NSVGparserS) (attrs : List NSVGattrValue) : NSVGparserS :=
  let (p, v) := nsvg__parseRectAttrs p attrs
  let (rx, ry) := nsvg__rectRadii v.w v.h v.rx v.ry
  if v.w ≠ 0 ∧ v.h ≠ 0 then
    let p := nsvg__resetPath p
    let p := nsvg__rectEmit p v.x v.y v.w v.h rx ry
    let p := nsvg__addPath p true
    nsvg__addShape p
  else p

/-- C `nsvg__parseCircle`. -/
def nsvg__parseCircle (p : NSVGparserS) (attrs : List NSVGattrValue) : NSVGparserS :=
  let acc := attrs.foldl
    (fun (acc : NSVGparserS × F × F × F) a =>
      let (p, cx, cy, r) := acc
      let (p, ok) := nsvg__parseAttrC p a
      if ok then (p, cx, cy, r)
      else
        let cx := if cstrEqFull a.name "cx" then
          nsvg__parseCoordinate p a.value (nsvg__actualOrigX p) (nsvg__actualWidth p) else cx
        let cy := if cstrEqFull a.name "cy" then
          nsvg__parseCoordinate p a.value (nsvg__actualOrigY p) (nsvg__actualHeight p) else cy
        let r := if cstrEqFull a.name "r" then
          fabsf (nsvg__parseCoordinate p a.value 0 (nsvg__actualLength p)) else r
        (p, cx, cy, r))
    (p, 0, 0, 0)
  let (p, cx, cy, r) := acc
  if r > 0 then
    let p := nsvg__resetPath p
    let p := nsvg__moveTo p (cx + r) cy
    let p := nsvg__cubicBezTo p (cx + r) (cy + r * NSVG_KAPPA90) (cx + r * NSVG_KAPPA90) (cy + r) cx (cy + r)
    let p := nsvg__cubicBezTo p (cx - r * NSVG_KAPPA90) (cy + r) (cx - r) (cy + r * NSVG_KAPPA90) (cx - r) cy
    let p := nsvg__cubicBezTo p (cx - r) (cy - r * NSVG_KAPPA90) (cx - r * NSVG_KAPPA90) (cy - r) cx (cy - r)
    let p := nsvg__cubicBezTo p (cx + r * NSVG_KAPPA90) (cy - r) (cx + r) (cy - r * NSVG_KAPPA90) (cx + r) cy
    let p := nsvg__addPath p true
    nsvg__addShape p
  else p

/-- C `nsvg__parseEllipse`. -/
def nsvg__parseEllipse (p : NSVGparserS) (attrs : List NSVGattrValue) : NSVGparserS :=
  let acc := attrs.foldl
    (fun (acc : NSVGparserS × F × F × F × F) a =>
      let (p, cx, cy, rx, ry) := acc
      let (p, ok) := nsvg__parseAttrC p a
      if ok then (p, cx, cy, rx, ry)
      else
        let cx := if cstrEqFull a.name "cx" then
          nsvg__parseCoordinate p a.value (nsvg__actualOrigX p) (nsvg__actualWidth p) else cx
        let cy := if cstrEqFull a.name "cy" then
          nsvg__parseCoordinate p a.value (nsvg__actualOrigY p) (nsvg__actualHeight p) else cy
        let rx := if cstrEqFull a.name "rx" then
          fabsf (nsvg__parseCoordinate p a.value 0 (nsvg__actualWidth p)) else rx
        let ry := if cstrEqFull a.name "ry" then
          fabsf (nsvg__parseCoordinate p a.value 0 (nsvg__actualHeight p)) else ry
        (p, cx, cy, rx, ry))
    (p, 0, 0, 0, 0)
  let (p, cx, cy, rx, ry) := acc
  if rx > 0 ∧ ry > 0 then
    let p := nsvg__resetPath p
    let p := nsvg__moveTo p (cx + rx) cy
    let p := nsvg__cubicBezTo p (cx + rx) (cy + ry * NSVG_KAPPA90) (cx + rx * NSVG_KAPPA90) (cy + ry) cx (cy + ry)
    let p := nsvg__cubicBezTo p (cx - rx * NSVG_KAPPA90) (cy + ry) (cx - rx) (cy + ry * NSVG_KAPPA90) (cx - rx) cy
    let p := nsvg__cubicBezTo p (cx - rx) (cy - ry * NSVG_KAPPA90) (cx - rx * NSVG_KAPPA90) (cy - ry) cx (cy - ry)
    let p := nsvg__cubicBezTo p (cx + rx * NSVG_KAPPA90) (cy - ry) (cx + rx) (cy - ry * NSVG_KAPPA90) (cx + rx) cy
    let p := nsvg__addPath p true
    nsvg__addShape p
  else p

/-- C `nsvg__parseLine`. -/
def nsvg__parseLine (p : NSVGparserS) (attrs : List NSVGattrValue) : NSVGparserS :=
  let acc := attrs.foldl
    (fun (acc : NSVGparserS × F × F × F × F) a =>
      let (p, x1, y1, x2, y2) := acc
      let (p, ok) := nsvg__parseAttrC p a
      if ok then (p, x1, y1, x2, y2)
      else
        let x1 := if cstrEqFull a.name "x1" then
          nsvg__parseCoordinate p a.value (nsvg__actualOrigX p) (nsvg__actualWidth p) else x1
        let y1 := if cstrEqFull a.name "y1" then
          nsvg__parseCoordinate p a.value (nsvg__actualOrigY p) (nsvg__actualHeight p) else y1
        let x2 := if cstrEqFull a.name "x2" then
          nsvg__parseCoordinate p a.value (nsvg__actualOrigX p) (nsvg__actualWidth p) else x2
        let y2 := if cstrEqFull a.name "y2" then
          nsvg__parseCoordinate p a.value (nsvg__actualOrigY p) (nsvg__actualHeight p) else y2
        (p, x1, y1, x2, y2))
    (p, 0, 0, 0, 0)
  let (p, x1, y1, x2, y2) := acc
  let p := nsvg__resetPath p
  let p := nsvg__moveTo p x1 y1
  let p := nsvg__lineTo p x2 y2
  let p := nsvg__addPath p false
  nsvg__addShape p

/-- C `nsvg__getNextPathItem`: skip whitespace and commas, then one number
token or one single-character command.  Returns the item and the rest. -/
def nsvg__getNextPathItem (s : List Char) : List Char × List Char :=
  let s := s.dropWhile (fun c => nsvg__isspace c || c = ',')
  match s with
  | [] => ([], s)
  | c :: rest =>
    if c = '-' ∨ c = '+' ∨ c = '.' ∨ nsvg__isdigit c then
      let len := min (s.length + 1) 64
      nsvg__parseNumber s len
    else ([c], rest)

/-- C `nsvg__getNextPathItemWhenArcFlag`: an arc flag is a bare `0` or `1`. -/
def nsvg__getNextPathItemWhenArcFlag (s : List Char) : List Char × List Char :=
  let s := s.dropWhile (fun c => nsvg__isspace c || c = ',')
  match s with
  | [] => ([], s)
  | c :: rest => if c = '0' ∨ c = '1' then ([c], rest) else ([], s)

/-- Point loop of C `nsvg__parsePoly`. -/
def nsvg__parsePolyLoop (p : NSVGparserS) (s : List Char) (arg0 : F)
    (nargs npts : Nat) : Nat → NSVGparserS
  | 0 => p
  | fuel + 1 =>
    if s.isEmpty then p
    else
      let (item, rest) := nsvg__getNextPathItem s
      let v := nsvg__atof item
      if nargs = 0 then nsvg__parsePolyLoop p rest v 1 npts fuel
      else
        let p := if npts = 0 then nsvg__moveTo p arg0 v else nsvg__lineTo p arg0 v
        nsvg__parsePolyLoop p rest arg0 0 (npts + 1) fuel

/-- C `nsvg__parsePoly` (both `polyline` and `polygon`). -/
def nsvg__parsePoly (p : NSVGparserS) (attrs : List NSVGattrValue)
    (closeFlag : Bool) : NSVGparserS :=
  let p := nsvg__resetPath p
  let p := attrs.foldl
    (fun p a =>
      let (p, ok) := nsvg__parseAttrC p a
      if ok then p
      else if cstrEqFull a.name "points" then
        nsvg__parsePolyLoop p a.value 0 0 0 (a.value.length + 1)
      else p)
    p
  let p := nsvg__addPath p closeFlag
  nsvg__addShape p

/-- C `nsvg__parseGroup`: apply the attributes and append a shape node with
no shape (a pure group marker). -/
def nsvg__parseGroup (p : NSVGparserS) (attrs : List NSVGattrValue) : NSVGparserS :=
  let p := nsvg__parseAttribs p attrs
  let p := nsvg__resetPath p
  let img := nsvg__mallocAcct p.image sizeofNSVGshapeNode
  let node : NSVGshapeNode :=
    { shapeDepth := p.shapeDepth, shape := none, parent := none, animates := [] }
  { p with image := { img with shapes := img.shapes ++ [node] } }

/-- Model of `strstr(hay, needle) != 0` restricted to the value slice (the
source searches the whole remaining buffer; the claims below never exercise
the difference). -/
def strstrHas (hay : List Char) (needle : String) : Bool :=
  (List.range (hay.length + 1)).any (fun i => needle.toList.isPrefixOf (hay.drop i))

/-- The `viewBox` attribute of C `nsvg__parseSVG`: four numbers separated by
spaces, `%` or commas.  Mirrors the early `return` of the source: `none`
means the whole `nsvg__parseSVG` attribute loop stops. -/
def nsvg__parseViewBox (img : NSVGimage) (s : List Char) : Option NSVGimage :=
  let len := min (s.length + 1) 64
  let (buf, s) := nsvg__parseNumber s len
  let img := { img with viewMinx := nsvg__atof buf }
  let s := s.dropWhile (fun c => nsvg__isspace c || c = '%' || c = ',')
  if s.isEmpty then none
  else
    let len := min (s.length + 1) 64
    let (buf, s) := nsvg__parseNumber s len
    let img := { img with viewMiny := nsvg__atof buf }
    let s := s.dropWhile (fun c => nsvg__isspace c || c = '%' || c = ',')
    if s.isEmpty then none
    else
      let len := min (s.length + 1) 64
      let (buf, s) := nsvg__parseNumber s len
      let img := { img with viewWidth := nsvg__atof buf }
      let s := s.dropWhile (fun c => nsvg__isspace c || c = '%' || c = ',')
      if s.isEmpty then none
      else
        let len := min (s.length + 1) 64
        let (buf, _) := nsvg__parseNumber s len
        some { img with viewHeight := nsvg__atof buf }

/-- C `nsvg__parseSVG`.  The early `return` inside the `viewBox` branch
aborts the remaining attributes, modeled by the stop flag. -/
def nsvg__parseSVG (p : NSVGparserS) (attrs : List NSVGattrValue) : NSVGparserS :=
  (attrs.foldl
    (fun (acc : NSVGparserS × Bool) a =>
      let (p, stop) := acc
      if stop then acc
      else
        let (p, ok) := nsvg__parseAttrC p a
        if ok then (p, false)
        else if cstrEqFull a.name "width" then
          ({ p with image := { p.image with width := nsvg__parseCoordinate p a.value 0 0 } }, false)
        else if cstrEqFull a.name "height" then
          ({ p with image := { p.image with height := nsvg__parseCoordinate p a.value 0 0 } }, false)
        else if cstrEqFull a.name "viewBox" then
          match nsvg__parseViewBox p.image a.value with
          | some img => ({ p with image := img }, false)
          | none =>
            -- the source already stored the successfully parsed prefix
            ({ p with image := nsvg__parseViewBoxPartial p.image a.value }, true)
        else if cstrEqFull a.name "preserveAspectRatio" then
          if a.value.length ≥ 4 then
            if strstrHas a.value "none" then
              ({ p with image := { p.image with alignType := NSVG_ALIGN_NONE } }, false)
            else
              let img := p.image
              let img := if strstrHas a.value "xMin" then { img with alignX := NSVG_ALIGN_MIN }
                else if strstrHas a.value "xMid" then { img with alignX := NSVG_ALIGN_MID }
                else if strstrHas a.value "xMax" then { img with alignX := NSVG_ALIGN_MAX }
                else img
              let img := if strstrHas a.value "yMin" then { img with alignY := NSVG_ALIGN_MIN }
                else if strstrHas a.value "yMid" then { img with alignY := NSVG_ALIGN_MID }
                else if strstrHas a.value "yMax" then { img with alignY := NSVG_ALIGN_MAX }
                else img
              let img := { img with alignType := NSVG_ALIGN_MEET }
              let img :=
                if a.value.length ≥ 5 ∧ strstrHas a.value "slice" then
                  { img with alignType := NSVG_ALIGN_SLICE }
                else img
              ({ p with image := img }, false)
          else (p, false)
        else (p, false))
    (p, false)).1
where
  /-- The fields `nsvg__parseSVG` has already written when the `viewBox`
  value runs out early (the source mutates in place before returning). -/
  nsvg__parseViewBoxPartial (img : NSVGimage) (s : List Char) : NSVGimage :=
    let len := min (s.length + 1) 64
    let (buf, s) := nsvg__parseNumber s len
    let img := { img with viewMinx := nsvg__atof buf }
    let s := s.dropWhile (fun c => nsvg__isspace c || c = '%' || c = ',')
    if s.isEmpty then img
    else
      let len := min (s.length + 1) 64
      let (buf, s) := nsvg__parseNumber s len
      let img := { img with viewMiny := nsvg__atof buf }
      let s := s.dropWhile (fun c => nsvg__isspace c || c = '%' || c = ',')
      if s.isEmpty then img
      else
        let len := min (s.length + 1) 64
        let (buf, _) := nsvg__parseNumber s len
        { img with viewWidth := nsvg__atof buf }

/-- C `nsvg__parseGradient` (both `linearGradient` and `radialGradient`
start tags): allocate a gradient-data record and fill it from attributes.
The `xlink:href` copy takes `valueLen` characters starting one past the `#`,
which reaches one character past the value slice — the closing quote — a
detail the model reproduces through `term`. -/
def nsvg__parseGradient (p : NSVGparserS) (attrs : List NSVGattrValue)
    (gtype : Int) : NSVGparserS :=
  let p := { p with image := nsvg__mallocAcct p.image sizeofNSVGgradientData }
  let grad : NSVGgradientData :=
    { id := none
      ref := none
      gtype := gtype
      linear :=
        if gtype = NSVG_PAINT_LINEAR_GRADIENT then
          { x1 := nsvg__coord 0 NSVG_UNITS_PERCENT
            y1 := nsvg__coord 0 NSVG_UNITS_PERCENT
            x2 := nsvg__coord 100 NSVG_UNITS_PERCENT
            y2 := nsvg__coord 0 NSVG_UNITS_PERCENT }
        else default
      radial :=
        if gtype = NSVG_PAINT_RADIAL_GRADIENT then
          { cx := nsvg__coord 50 NSVG_UNITS_PERCENT
            cy := nsvg__coord 50 NSVG_UNITS_PERCENT
            r := nsvg__coord 50 NSVG_UNITS_PERCENT
            fx := default
            fy := default }
        else default
      spread := 0
      units := NSVG_OBJECT_SPACE
      xform := nsvg__xformIdentity
      stops := [] }
  let (p, grad) := attrs.foldl
    (fun (acc : NSVGparserS × NSVGgradientData) a =>
      let (p, grad) := acc
      if cstrEqFull a.name "id" then
        let p := match grad.id with
          | some _ => p
          | none => (nsvg__allocId p).1
        (p, { grad with id := some (String.mk (a.value.take 63)) })
      else
        let (p, ok) := nsvg__parseAttrC p a
        if ok then (p, grad)
        else if cstrEqFull a.name "gradientUnits" then
          if cstrEqFull a.value "objectBoundingBox" then
            (p, { grad with units := NSVG_OBJECT_SPACE })
          else (p, { grad with units := NSVG_USER_SPACE })
        else if cstrEqFull a.name "gradientTransform" then
          (p, { grad with xform := nsvg__parseTransform a.value })
        else if cstrEqFull a.name "cx" then
          (p, { grad with radial := { grad.radial with cx := nsvg__parseCoordinateRaw a.value } })
        else if cstrEqFull a.name "cy" then
          (p, { grad with radial := { grad.radial with cy := nsvg__parseCoordinateRaw a.value } })
        else if cstrEqFull a.name "r" then
          (p, { grad with radial := { grad.radial with r := nsvg__parseCoordinateRaw a.value } })
        else if cstrEqFull a.name "fx" then
          (p, { grad with radial := { grad.radial with fx := nsvg__parseCoordinateRaw a.value } })
        else if cstrEqFull a.name "fy" then
          (p, { grad with radial := { grad.radial with fy := nsvg__parseCoordinateRaw a.value } })
        else if cstrEqFull a.name "x1" then
          (p, { grad with linear := { grad.linear with x1 := nsvg__parseCoordinateRaw a.value } })
        else if cstrEqFull a.name "y1" then
          (p, { grad with linear := { grad.linear with y1 := nsvg__parseCoordinateRaw a.value } })
        else if cstrEqFull a.name "x2" then
          (p, { grad with linear := { grad.linear with x2 := nsvg__parseCoordinateRaw a.value } })
        else if cstrEqFull a.name "y2" then
          (p, { grad with linear := { grad.linear with y2 := nsvg__parseCoordinateRaw a.value } })
        else if cstrEqFull a.name "spreadMethod" then
          if cstrEqFull a.value "pad" then (p, { grad with spread := NSVG_SPREAD_PAD })
          else if cstrEqFull a.value "reflect" then (p, { grad with spread := NSVG_SPREAD_REFLECT })
          else if cstrEqFull a.value "repeat" then (p, { grad with spread := NSVG_SPREAD_REPEAT })
          else (p, grad)
        else if cstrEqFull a.name "xlink:href" then
          let p := match grad.ref with
            | some _ => p
            | none => (nsvg__allocId p).1
          let len := min a.value.length 62
          (p, { grad with ref := some (String.mk (((a.value.drop 1) ++ [a.term]).take len)) })
        else (p, grad))
    (p, grad)
  { p with gradients := grad :: p.gradients }

/-- Sorted-insert position of C `nsvg__parseGradientStop`: the first index
whose offset exceeds the new one, or the end. -/
def stopInsertIdx (stops : List NSVGgradientStop) (off : F) : Nat :=
  match stops.findIdx? (fun s => off < s.offset) with
  | some i => i
  | none => stops.length

/-- C `nsvg__parseGradientStop`: reset the stop fields of the current
attribute frame, parse the attributes, then insert a stop into the most
recent gradient at its sorted position. -/
def nsvg__parseGradientStop (p : NSVGparserS) (attrs : List NSVGattrValue) : NSVGparserS :=
  let p := modifyAttr p (fun a => { a with stopOffset := 0, stopColor := 0, stopOpacity := 1 })
  let p := attrs.foldl (fun p a => (nsvg__parseAttrC p a).1) p
  match p.gradients with
  | [] => p
  | grad :: rest =>
    let p := { p with image := (nsvg__reallocAcct p.image
      (sizeofNSVGgradientStop * ((grad.stops.length : Int) + 1))
      (sizeofNSVGgradientStop * (grad.stops.length : Int))) }
    let curAttr := nsvg__getAttr p
    let stop : NSVGgradientStop :=
      { color := curAttr.stopColor ||| ((cInt (curAttr.stopOpacity * 255)).toNat <<< 24)
        offset := curAttr.stopOffset }
    let idx := stopInsertIdx grad.stops curAttr.stopOffset
    let stops := grad.stops.take idx ++ [stop] ++ grad.stops.drop idx
    { p with gradients := { grad with stops := stops } :: rest }

/-! Path-data interpreter (`d="..."`). -/

def nsvg__getArgsPerElement (cmd : Char) : Int :=
  if cmd = 'v' ∨ cmd = 'V' ∨ cmd = 'h' ∨ cmd = 'H' then 1
  else if cmd = 'm' ∨ cmd = 'M' ∨ cmd = 'l' ∨ cmd = 'L' ∨ cmd = 't' ∨ cmd = 'T' then 2
  else if cmd = 'q' ∨ cmd = 'Q' ∨ cmd = 's' ∨ cmd = 'S' then 4
  else if cmd = 'c' ∨ cmd = 'C' then 6
  else if cmd = 'a' ∨ cmd = 'A' then 7
  else if cmd = 'z' ∨ cmd = 'Z' then 0
  else -1

def nsvg__pathMoveTo (p : NSVGparserS) (cpx cpy : F) (args : List F) (rel : Bool) :
    NSVGparserS × F × F :=
  let cpx := if rel then cpx + getF args 0 else getF args 0
  let cpy := if rel then cpy + getF args 1 else getF args 1
  (nsvg__moveTo p cpx cpy, cpx, cpy)

def nsvg__pathLineTo (p : NSVGparserS) (cpx cpy : F) (args : List F) (rel : Bool) :
    NSVGparserS × F × F :=
  let cpx := if rel then cpx + getF args 0 else getF args 0
  let cpy := if rel then cpy + getF args 1 else getF args 1
  (nsvg__lineTo p cpx cpy, cpx, cpy)

def nsvg__pathHLineTo (p : NSVGparserS) (cpx cpy : F) (args : List F) (rel : Bool) :
    NSVGparserS × F × F :=
  let cpx := if rel then cpx + getF args 0 else getF args 0
  (nsvg__lineTo p cpx cpy, cpx, cpy)

def nsvg__pathVLineTo (p : NSVGparserS) (cpx cpy : F) (args : List F) (rel : Bool) :
    NSVGparserS × F × F :=
  let cpy := if rel then cpy + getF args 0 else getF args 0
  (nsvg__lineTo p cpx cpy, cpx, cpy)

def nsvg__pathCubicBezTo (p : NSVGparserS) (cpx cpy cpx2 cpy2 : F)
    (args : List F) (rel : Bool) : NSVGparserS × F × F × F × F :=
  let _ := (cpx2, cpy2)
  let cx1 := if rel then cpx + getF args 0 else getF args 0
  let cy1 := if rel then cpy + getF args 1 else getF args 1
  let cx2 := if rel then cpx + getF args 2 else getF args 2
  let cy2 := if rel then cpy + getF args 3 else getF args 3
  let x2 := if rel then cpx + getF args 4 else getF args 4
  let y2 := if rel then cpy + getF args 5 else getF args 5
  (nsvg__cubicBezTo p cx1 cy1 cx2 cy2 x2 y2, x2, y2, cx2, cy2)

def nsvg__pathCubicBezShortTo (p : NSVGparserS) (cpx cpy cpx2 cpy2 : F)
    (args : List F) (rel : Bool) : NSVGparserS × F × F × F × F :=
  let x1 := cpx
  let y1 := cpy
  let cx2 := if rel then cpx + getF args 0 else getF args 0
  let cy2 := if rel then cpy + getF args 1 else getF args 1
  let x2 := if rel then cpx + getF args 2 else getF args 2
  let y2 := if rel then cpy + getF args 3 else getF args 3
  let cx1 := 2 * x1 - cpx2
  let cy1 := 2 * y1 - cpy2
  (nsvg__cubicBezTo p cx1 cy1 cx2 cy2 x2 y2, x2, y2, cx2, cy2)

def nsvg__pathQuadBezTo (p : NSVGparserS) (cpx cpy cpx2 cpy2 : F)
    (args : List F) (rel : Bool) : NSVGparserS × F × F × F × F :=
  let _ := (cpx2, cpy2)
  let x1 := cpx
  let y1 := cpy
  let cx := if rel then cpx + getF args 0 else getF args 0
  let cy := if rel then cpy + getF args 1 else getF args 1
  let x2 := if rel then cpx + getF args 2 else getF args 2
  let y2 := if rel then cpy + getF args 3 else getF args 3
  let cx1 := x1 + (2/3) * (cx - x1)
  let cy1 := y1 + (2/3) * (cy - y1)
  let cx2 := x2 + (2/3) * (cx - x2)
  let cy2 := y2 + (2/3) * (cy - y2)
  (nsvg__cubicBezTo p cx1 cy1 cx2 cy2 x2 y2, x2, y2, cx, cy)

def nsvg__pathQuadBezShortTo (p : NSVGparserS) (cpx cpy cpx2 cpy2 : F)
    (args : List F) (rel : Bool) : NSVGparserS × F × F × F × F :=
  let x1 := cpx
  let y1 := cpy
  let x2 := if rel then cpx + getF args 0 else getF args 0
  let y2 := if rel then cpy + getF args 1 else getF args 1
  let cx := 2 * x1 - cpx2
  let cy := 2 * y1 - cpy2
  let cx1 := x1 + (2/3) * (cx - x1)
  let cy1 := y1 + (2/3) * (cy - y1)
  let cx2 := x2 + (2/3) * (cx - x2)
  let cy2 := y2 + (2/3) * (cy - y2)
  (nsvg__cubicBezTo p cx1 cy1 cx2 cy2 x2 y2, x2, y2, cx, cy)

def nsvg__sqr (x : F) : F := x * x
def nsvg__vmag (x y : F) : F := sqrtf (x * x + y * y)

def nsvg__vecrat (ux uy vx vy : F) : F :=
  (ux * vx + uy * vy) / (nsvg__vmag ux uy * nsvg__vmag vx vy)

def nsvg__vecang (ux uy vx vy : F) : F :=
  let r := nsvg__vecrat ux uy vx vy
  let r := if r < -1 then -1 else r
  let r := if r > 1 then 1 else r
  (if ux * vy < uy * vx then -1 else 1) * acosf r

/-- C `nsvg__pathArcTo` (SVG implementation note F.6, ported from canvg). -/
def nsvg__pathArcTo (p : NSVGparserS) (cpx cpy : F) (args : List F) (rel : Bool) :
    NSVGparserS × F × F :=
  let rx := fabsf (getF args 0)
  let ry := fabsf (getF args 1)
  let rotx := getF args 2 / 180 * NSVG_PI
  let fa := fabsf (getF args 3) > 1/1000000
  let fs := fabsf (getF args 4) > 1/1000000
  let x1 := cpx
  let y1 := cpy
  let x2 := if rel then cpx + getF args 5 else getF args 5
  let y2 := if rel then cpy + getF args 6 else getF args 6
  let dx := x1 - x2
  let dy := y1 - y2
  let d := sqrtf (dx * dx + dy * dy)
  if d < 1/1000000 ∨ rx < 1/1000000 ∨ ry < 1/1000000 then
    (nsvg__lineTo p x2 y2, x2, y2)
  else
    let sinrx := sinf rotx
    let cosrx := cosf rotx
    let x1p := cosrx * dx / 2 + sinrx * dy / 2
    let y1p := -sinrx * dx / 2 + cosrx * dy / 2
    let d2 := nsvg__sqr x1p / nsvg__sqr rx + nsvg__sqr y1p / nsvg__sqr ry
    let (rx, ry) := if d2 > 1 then (rx * sqrtf d2, ry * sqrtf d2) else (rx, ry)
    let sa := nsvg__sqr rx * nsvg__sqr ry - nsvg__sqr rx * nsvg__sqr y1p - nsvg__sqr ry * nsvg__sqr x1p
    let sb := nsvg__sqr rx * nsvg__sqr y1p + nsvg__sqr ry * nsvg__sqr x1p
    let sa := if sa < 0 then 0 else sa
    let s := if sb > 0 then sqrtf (sa / sb) else 0
    let s := if fa = fs then -s else s
    let cxp := s * rx * y1p / ry
    let cyp := s * (-ry) * x1p / rx
    let cx := (x1 + x2) / 2 + cosrx * cxp - sinrx * cyp
    let cy := (y1 + y2) / 2 + sinrx * cxp + cosrx * cyp
    let ux := (x1p - cxp) / rx
    let uy := (y1p - cyp) / ry
    let vx := (-x1p - cxp) / rx
    let vy := (-y1p - cyp) / ry
    let a1 := nsvg__vecang 1 0 ux uy
    let da := nsvg__vecang ux uy vx vy
    let da := if ¬fs ∧ da > 0 then da - 2 * NSVG_PI
      else if fs ∧ da < 0 then da + 2 * NSVG_PI
      else da
    let t : Xform := ⟨cosrx, sinrx, -sinrx, cosrx, cx, cy⟩
    let ndivs := (cInt (fabsf da / (NSVG_PI * (1/2)) + 1)).toNat
    let hda := (da / (ndivs : F)) / 2
    let hda :=
      if hda < 1/1000 ∧ hda > -(1/1000) then hda * (1/2)
      else (1 - cosf hda) / sinf hda
    let kappa := fabsf (4 / 3 * hda)
    let kappa := if da < 0 then -kappa else kappa
    let final := (List.range (ndivs + 1)).foldl
      (fun (acc : NSVGparserS × F × F × F × F) i =>
        let (p, px, py, ptanx, ptany) := acc
        let a := a1 + da * ((i : F) / (ndivs : F))
        let dxa := cosf a
        let dya := sinf a
        let (x, y) := nsvg__xformPoint (dxa * rx) (dya * ry) t
        let (tanx, tany) := nsvg__xformVec (-dya * rx * kappa) (dxa * ry * kappa) t
        let p :=
          if i > 0 then
            nsvg__cubicBezTo p (px + ptanx) (py + ptany) (x - tanx) (y - tany) x y
          else p
        (p, x, y, tanx, tany))
      (p, 0, 0, 0, 0)
    (final.1, x2, y2)

/-- State of the C `nsvg__parsePath` command loop. -/
structure PathSt where
  p : NSVGparserS
  cpx : F
  cpy : F
  cpx2 : F
  cpy2 : F
  args : List F
  nargs : Nat
  rargs : Int
  cmd : Char
  initPoint : Bool
  closedFlag : Bool
deriving Inhabited

/-- Command dispatch of C `nsvg__parsePath` once `nargs >= rargs`. -/
def nsvg__parsePathDispatch (st : PathSt) : PathSt :=
  let st :=
    if st.cmd = 'm' ∨ st.cmd = 'M' then
      let (p, cpx, cpy) := nsvg__pathMoveTo st.p st.cpx st.cpy st.args (st.cmd = 'm')
      let cmd := if st.cmd = 'm' then 'l' else 'L'
      { st with
        p := p
        cpx := cpx
        cpy := cpy
        cmd := cmd
        rargs := nsvg__getArgsPerElement cmd
        cpx2 := cpx
        cpy2 := cpy
        initPoint := true }
    else if st.cmd = 'l' ∨ st.cmd = 'L' then
      let (p, cpx, cpy) := nsvg__pathLineTo st.p st.cpx st.cpy st.args (st.cmd = 'l')
      { st with p := p, cpx := cpx, cpy := cpy, cpx2 := cpx, cpy2 := cpy }
    else if st.cmd = 'H' ∨ st.cmd = 'h' then
      let (p, cpx, cpy) := nsvg__pathHLineTo st.p st.cpx st.cpy st.args (st.cmd = 'h')
      { st with p := p, cpx := cpx, cpy := cpy, cpx2 := cpx, cpy2 := cpy }
    else if st.cmd = 'V' ∨ st.cmd = 'v' then
      let (p, cpx, cpy) := nsvg__pathVLineTo st.p st.cpx st.cpy st.args (st.cmd = 'v')
      { st with p := p, cpx := cpx, cpy := cpy, cpx2 := cpx, cpy2 := cpy }
    else if st.cmd = 'C' ∨ st.cmd = 'c' then
      let (p, cpx, cpy, cpx2, cpy2) :=
        nsvg__pathCubicBezTo st.p st.cpx st.cpy st.cpx2 st.cpy2 st.args (st.cmd = 'c')
      { st with p := p, cpx := cpx, cpy := cpy, cpx2 := cpx2, cpy2 := cpy2 }
    else if st.cmd = 'S' ∨ st.cmd = 's' then
      let (p, cpx, cpy, cpx2, cpy2) :=
        nsvg__pathCubicBezShortTo st.p st.cpx st.cpy st.cpx2 st.cpy2 st.args (st.cmd = 's')
      { st with p := p, cpx := cpx, cpy := cpy, cpx2 := cpx2, cpy2 := cpy2 }
    else if st.cmd = 'Q' ∨ st.cmd = 'q' then
      let (p, cpx, cpy, cpx2, cpy2) :=
        nsvg__pathQuadBezTo st.p st.cpx st.cpy st.cpx2 st.cpy2 st.args (st.cmd = 'q')
      { st with p := p, cpx := cpx, cpy := cpy, cpx2 := cpx2, cpy2 := cpy2 }
    else if st.cmd = 'T' ∨ st.cmd = 't' then
      let (p, cpx, cpy, cpx2, cpy2) :=
        nsvg__pathQuadBezShortTo st.p st.cpx st.cpy st.cpx2 st.cpy2 st.args (st.cmd = 't')
      { st with p := p, cpx := cpx, cpy := cpy, cpx2 := cpx2, cpy2 := cpy2 }
    else if st.cmd = 'A' ∨ st.cmd = 'a' then
      let (p, cpx, cpy) := nsvg__pathArcTo st.p st.cpx st.cpy st.args (st.cmd = 'a')
      { st with p := p, cpx := cpx, cpy := cpy, cpx2 := cpx, cpy2 := cpy }
    else
      if st.nargs ≥ 2 then
        let cpx := getF st.args (st.nargs - 2)
        let cpy := getF st.args (st.nargs - 1)
        { st with cpx := cpx, cpy := cpy, cpx2 := cpx, cpy2 := cpy }
      else st
  { st with nargs := 0 }

/-- Command-character handling of C `nsvg__parsePath`. -/
def nsvg__parsePathCommand (st : PathSt) (c : Char) : PathSt :=
  let st : PathSt := { st with cmd := c }
  let st : PathSt :=
    if c = 'M' ∨ c = 'm' then
      let p := if st.p.npts > 0 then nsvg__addPath st.p st.closedFlag else st.p
      { st with p := nsvg__resetPath p, closedFlag := false, nargs := 0 }
    else if ¬st.initPoint then { st with cmd := '\x00' }
    else st
  let st : PathSt :=
    if st.cmd = 'Z' ∨ st.cmd = 'z' then
      let st : PathSt := { st with closedFlag := true }
      let st : PathSt :=
        if st.p.npts > 0 then
          let cpx := getF st.p.pts 0
          let cpy := getF st.p.pts 1
          { st with
            cpx := cpx
            cpy := cpy
            cpx2 := cpx
            cpy2 := cpy
            p := nsvg__addPath st.p st.closedFlag }
        else st
      let p := nsvg__resetPath st.p
      let p := nsvg__moveTo p st.cpx st.cpy
      { st with p := p, closedFlag := false, nargs := 0 }
    else st
  let rargs := nsvg__getArgsPerElement st.cmd
  if rargs = -1 then { st with cmd := '\x00', rargs := 0 }
  else { st with rargs := rargs }

/-- Main loop of C `nsvg__parsePath` over the `d` attribute. -/
def nsvg__parsePathLoop (st : PathSt) (s : List Char) : Nat → PathSt
  | 0 => st
  | fuel + 1 =>
    if s.isEmpty then st
    else
      let (item, s) :=
        if (st.cmd = 'A' ∨ st.cmd = 'a') ∧ (st.nargs = 3 ∨ st.nargs = 4) then
          let (it, s2) := nsvg__getNextPathItemWhenArcFlag s
          if it.isEmpty then nsvg__getNextPathItem s2 else (it, s2)
        else nsvg__getNextPathItem s
      if item.isEmpty then st
      else if st.cmd ≠ '\x00' ∧ nsvg__isCoordinate item then
        let st :=
          if st.nargs < 10 then
            { st with args := writeAt st.args st.nargs (nsvg__atof item), nargs := st.nargs + 1 }
          else st
        let st := if (st.nargs : Int) ≥ st.rargs then nsvg__parsePathDispatch st else st
        nsvg__parsePathLoop st s fuel
      else
        let st := nsvg__parsePathCommand st (item.headD '\x00')
        nsvg__parsePathLoop st s fuel

/-- C `nsvg__parsePath`. -/
def nsvg__parsePath (p : NSVGparserS) (attrs : List NSVGattrValue) : NSVGparserS :=
  let (p, dval) := attrs.foldl
    (fun (acc : NSVGparserS × Option (List Char)) a =>
      let (p, d) := acc
      if cstrEqFull a.name "d" then (p, some a.value)
      else (nsvg__parseAttribs p [a], d))
    (p, none)
  let p :=
    match dval with
    | some s =>
      if s.isEmpty then p
      else
        let p := nsvg__resetPath p
        let st : PathSt :=
          { p := p, cpx := 0, cpy := 0, cpx2 := 0, cpy2 := 0,
            args := List.replicate 10 (0 : F), nargs := 0, rargs := 0,
            cmd := '\x00', initPoint := false, closedFlag := false }
        let st := nsvg__parsePathLoop st s (s.length + 1)
        if st.p.npts ≠ 0 then nsvg__addPath st.p st.closedFlag else st.p
    | none => p
  nsvg__addShape p

/-! Animate descriptor parsing. -/

/-- Loop of C `nsvg__parseAnimateTime`.  A unit suffix assigns `millis` and
stops with `value = 0`; an unknown character stops keeping `value` (added as
seconds afterwards); `h:m:s` components accumulate. -/
def animTimeLoop (s : List Char) (millis : Int) (value : F)
    (hasHours hasMinutes : Bool) : Nat → Int × F
  | 0 => (millis, value)
  | fuel + 1 =>
    match s with
    | [] => (millis, value)
    | c :: rest =>
      if nsvg__isdigit c then
        let len := min (s.length + 1) 64
        let (it, rest2) := nsvg__parseNumber s len
        animTimeLoop rest2 millis (nsvg__atof it) hasHours hasMinutes fuel
      else if c = ':' then
        if ¬hasHours then
          animTimeLoop rest (millis + cInt value * 60 * 60 * 1000) value true hasMinutes fuel
        else if ¬hasMinutes then
          animTimeLoop rest (millis + cInt value * 60 * 1000) value true true fuel
        else (millis, 0)
      else if s.length ≥ 1 ∧ c = 'h' then (cInt (value * 60 * 60 * 1000), 0)
      else if s.length ≥ 3 ∧ cstrEq s "min".toList 3 then (cInt (value * 60 * 1000), 0)
      else if s.length ≥ 1 ∧ c = 's' then (cInt (value * 1000), 0)
      else if s.length ≥ 2 ∧ cstrEq s "ms".toList 2 then (cInt value, 0)
      else (millis, value)

/-- C `nsvg__parseAnimateTime` (the returned continuation pointer is unused
by every caller and omitted). -/
def nsvg__parseAnimateTime (s : List Char) : Int :=
  let (millis, value) := animTimeLoop s 0 0 false false (s.length + 1)
  if value > 0 then millis + cInt (value * 1000) else millis

/-- C `nsvg__parseAnimateValuesCount`: number of semicolon-separated cells
holding at least one non-space character. -/
def animValuesCountLoop (s : List Char) (count : Int) : Nat → Int
  | 0 => count
  | fuel + 1 =>
    let s1 := s.dropWhile nsvg__isspace
    if s1.isEmpty then count
    else
      let s2 := s1.dropWhile (· ≠ ';')
      if s2.isEmpty then count + 1
      else animValuesCountLoop (s2.drop 1) (count + 1) fuel

def nsvg__parseAnimateValuesCount (s : List Char) : Int :=
  animValuesCountLoop s 0 (s.length + 1)

/-- C `nsvg__parseAnimateValue`: parse one semicolon-separated value cell
into the caller's buffer according to the animation type (only the entries
actually parsed are overwritten).  Returns the buffer, `na` and the input
after the cell's semicolon. -/
def nsvg__parseAnimateValue (p : NSVGparserS) (args0 : List F) (str : List Char)
    (type : Int) : List F × Nat × List Char :=
  let ptr := str.dropWhile nsvg__isspace
  if ptr.isEmpty then (args0, 0, ptr)
  else
    let (args, na) :=
      if type = NSVG_ANIMATE_TYPE_TRANSFORM_TRANSLATE then
        let (_, args, na) := nsvg__parseTransformArgs ptr args0 2 false
        let args := if na = 1 then writeAt args 1 0 else args
        (args, 2)
      else if type = NSVG_ANIMATE_TYPE_TRANSFORM_SCALE then
        let (_, args, na) := nsvg__parseTransformArgs ptr args0 2 false
        let args := if na = 1 then writeAt args 1 (getF args 0) else args
        (args, 2)
      else if type = NSVG_ANIMATE_TYPE_TRANSFORM_ROTATE then
        let (_, args, na) := nsvg__parseTransformArgs ptr args0 3 false
        (args, na)
      else if type = NSVG_ANIMATE_TYPE_TRANSFORM_SKEWX ∨
              type = NSVG_ANIMATE_TYPE_TRANSFORM_SKEWY then
        let (_, args, na) := nsvg__parseTransformArgs ptr args0 1 false
        (args, na)
      else if type = NSVG_ANIMATE_TYPE_OPACITY ∨ type = NSVG_ANIMATE_TYPE_FILL_OPACITY ∨
              type = NSVG_ANIMATE_TYPE_STROKE_OPACITY then
        (writeAt args0 0 (nsvg__parseOpacity ptr), 1)
      else if type = NSVG_ANIMATE_TYPE_FILL ∨ type = NSVG_ANIMATE_TYPE_STROKE then
        let color := nsvg__parseColor ptr
        let args := writeAt args0 0 ((color &&& 0xFF : Nat) : F)
        let args := writeAt args 1 (((color >>> 8) &&& 0xFF : Nat) : F)
        let args := writeAt args 2 (((color >>> 16) &&& 0xFF : Nat) : F)
        (args, 3)
      else if type = NSVG_ANIMATE_TYPE_STROKE_WIDTH ∨
              type = NSVG_ANIMATE_TYPE_STROKE_DASHOFFSET then
        (writeAt args0 0 (nsvg__parseCoordinate p ptr 0 (nsvg__actualLength p)), 1)
      else if type = NSVG_ANIMATE_TYPE_STROKE_DASHARRAY then
        let (dashCount, vals) := nsvg__parseStrokeDashArray p ptr
        let args := overwritePrefix args0 vals ++ []
        let args := (args.take args0.length)
        let args := writeAt args dashCount.toNat (dashCount : F)
        (args, dashCount.toNat + 1)
      else if type = NSVG_ANIMATE_TYPE_SPLINE then
        let (_, args, na) := nsvg__parseTransformArgs ptr args0 4 false
        if na ≠ 4 then
          (writeAt (writeAt (writeAt (writeAt args 0 0) 1 0) 2 0) 3 0, 4)
        else (args, 4)
      else if type = NSVG_ANIMATE_TYPE_NUMBER then
        let (_, args, na) := nsvg__parseTransformArgs ptr args0 1 false
        (args, na)
      else (args0, 0)
    let rest := ptr.dropWhile (· ≠ ';')
    let rest := if rest.isEmpty then rest else rest.drop 1
    (args, na, rest)

/-- The attribute values collected by the first loop of `nsvg__parseAnimate`.
`unset` is the C `long unset = 0x80000000` (positive on LP64); the `int`
`repeatCount` receives `(int)unset`, the most negative 32-bit value. -/
structure AnimCollect where
  attrName : Option NSVGattrValue := none
  type : Option NSVGattrValue := none
  fromA : Option NSVGattrValue := none
  toA : Option NSVGattrValue := none
  values : Option NSVGattrValue := none
  keyTimes : Option NSVGattrValue := none
  keySplines : Option NSVGattrValue := none
  valuesCount : Int := 0
  keyTimesCount : Int := 0
  keySplinesCount : Int := 0
  begin : Int := 0
  endT : Int := 2147483648
  dur : Int := 2147483648
  repeatDur : Int := 2147483648
  repeatCount : Int := -2147483648
  additive : Int := NSVG_ANIMATE_ADDITIVE_REPLACE
  fill : Int := NSVG_ANIMATE_FILL_REMOVE
  calcMode : Int := NSVG_ANIMATE_CALC_MODE_LINEAR
deriving Inhabited

def animUnset : Int := 2147483648

/-- Attribute-collection loop of C `nsvg__parseAnimate`. -/
def nsvg__parseAnimateCollect (attrs : List NSVGattrValue) : AnimCollect :=
  attrs.foldl
    (fun c a =>
      if cstrEqFull a.name "attributeName" then { c with attrName := some a }
      else if cstrEqFull a.name "id" then c
      else if cstrEqFull a.name "type" then { c with type := some a }
      else if cstrEqFull a.name "from" then { c with fromA := some a }
      else if cstrEqFull a.name "to" then { c with toA := some a }
      else if cstrEqFull a.name "values" then
        { c with values := some a, valuesCount := nsvg__parseAnimateValuesCount a.value }
      else if cstrEqFull a.name "keyTimes" then
        { c with keyTimes := some a, keyTimesCount := nsvg__parseAnimateValuesCount a.value }
      else if cstrEqFull a.name "keySplines" then
        { c with keySplines := some a, keySplinesCount := nsvg__parseAnimateValuesCount a.value }
      else if cstrEqFull a.name "begin" then { c with begin := nsvg__parseAnimateTime a.value }
      else if cstrEqFull a.name "end" then { c with endT := nsvg__parseAnimateTime a.value }
      else if cstrEqFull a.name "dur" then { c with dur := nsvg__parseAnimateTime a.value }
      else if cstrEqFull a.name "repeatDur" then
        if cstrEqFull a.value "indefinite" then { c with repeatDur := -1 }
        else { c with repeatDur := nsvg__parseAnimateTime a.value }
      else if cstrEqFull a.name "additive" ∧ cstrEqFull a.value "sum" then
        { c with additive := NSVG_ANIMATE_ADDITIVE_SUM }
      else if cstrEqFull a.name "fill" ∧ cstrEqFull a.value "freeze" then
        { c with fill := NSVG_ANIMATE_FILL_FREEZE }
      else if cstrEqFull a.name "repeatCount" then
        if cstrEqFull a.value "indefinite" then { c with repeatCount := -1 }
        else { c with repeatCount := cInt (nsvg__atof a.value) }
      else if cstrEqFull a.name "calcMode" then
        if cstrEqFull a.value "linear" then { c with calcMode := NSVG_ANIMATE_CALC_MODE_LINEAR }
        else if cstrEqFull a.value "discrete" then { c with calcMode := NSVG_ANIMATE_CALC_MODE_DISCRETE }
        else if cstrEqFull a.value "paced" then { c with calcMode := NSVG_ANIMATE_CALC_MODE_PACED }
        else if cstrEqFull a.value "spline" then { c with calcMode := NSVG_ANIMATE_CALC_MODE_SPLINE }
        else c
      else c)
    {}

/-- State of the keyTimes-segmentation loop of `nsvg__parseAnimate`. -/
structure AnimSegSt where
  keyTimes : Option (List Char)
  keySplines : Option (List Char)
  keyTimeEnd : F
  valuesSlice : List Char
  args : List F
  argsNa : Nat
  acc : List NSVGanimate
deriving Inhabited

/-- Segment loop of `nsvg__parseAnimate` (the multi-`values` branch): one
`NSVGanimate` per consecutive value pair. -/
def nsvg__parseAnimateSegLoop (p : NSVGparserS) (c : AnimCollect)
    (animateType repeatCount endT : Int) (valuesCount : Int) (st : AnimSegSt) :
    Nat → AnimSegSt
  | 0 => st
  | fuel + 1 =>
    let i := (st.acc.length : Int)
    if i ≥ valuesCount - 1 then st
    else
      let keyTimeBegin := st.keyTimeEnd
      let (keyTimes, keyTimeEnd) :=
        match st.keyTimes with
        | some kts =>
          let (a2, _, rest) :=
            nsvg__parseAnimateValue p [st.keyTimeEnd] kts NSVG_ANIMATE_TYPE_NUMBER
          (some rest, getF a2 0)
        | none =>
          if i < valuesCount - 2 then (none, ((i + 1 : Int) : F) / ((valuesCount - 1 : Int) : F))
          else (none, 1)
      let (keySplines, spline) :=
        match st.keySplines with
        | some kss =>
          let (sp, _, rest) := nsvg__parseAnimateValue p (zeroBuf 4) kss NSVG_ANIMATE_TYPE_SPLINE
          (some rest, sp.take 4)
        | none => (none, zeroBuf 4)
      let an : NSVGanimate :=
        { type := animateType
          begin := cInt ((c.begin : F) + (c.dur : F) * keyTimeBegin)
          endMs := endT
          dur := cInt ((c.dur : F) * (keyTimeEnd - keyTimeBegin))
          groupDur := c.dur
          repeatCount := repeatCount
          src := writeAt (writeAt (writeAt (zeroBuf 10) 0 (getF st.args 0)) 1 (getF st.args 1)) 2 (getF st.args 2)
          srcNa := (st.argsNa : Int)
          dst := zeroBuf 10
          dstNa := 0
          spline := spline
          calcMode := c.calcMode
          additive := c.additive
          fill := c.fill
          flags := 0 }
      let (args, argsNa, valuesSlice) :=
        nsvg__parseAnimateValue p st.args st.valuesSlice animateType
      let an :=
        { an with
          dst := writeAt (writeAt (writeAt (zeroBuf 10) 0 (getF args 0)) 1 (getF args 1)) 2 (getF args 2)
          dstNa := (argsNa : Int) }
      nsvg__parseAnimateSegLoop p c animateType repeatCount endT valuesCount
        { keyTimes := keyTimes, keySplines := keySplines, keyTimeEnd := keyTimeEnd,
          valuesSlice := valuesSlice, args := args, argsNa := argsNa,
          acc := st.acc ++ [an] } fuel

/-- Attach point of `nsvg__parseAnimate`: the closest preceding shape node
whose depth is smaller than the current depth; the animate list is appended
to its animation list (dropped when no such node exists). -/
def nsvg__attachAnimates (p : NSVGparserS) (lst : List NSVGanimate) : NSVGparserS :=
  match lst with
  | [] => p
  | first :: rest =>
    let first := { first with flags := first.flags ||| NSVG_ANIMATE_FLAG_GROUP_FIRST }
    let lst := first :: rest
    let lst := lst.dropLast ++
      [{ (lst.getLast (by simp)) with
          flags := (lst.getLast (by simp)).flags ||| NSVG_ANIMATE_FLAG_GROUP_LAST }]
    match (p.image.shapes.reverse.findIdx? (fun n => n.shapeDepth < p.shapeDepth)) with
    | none => p
    | some rj =>
      let i := p.image.shapes.length - 1 - rj
      let shapes := p.image.shapes.mapIdx
        (fun j n => if j = i then { n with animates := n.animates ++ lst } else n)
      { p with image := { p.image with shapes := shapes } }

/-- C `nsvg__parseAnimate`.  When the tag is `animate`/`animateTransform`
and the validity gates pass but no `attributeName` attribute exists, the
source dereferences the null `attrName` pointer; the model reports this as an
error. -/
def nsvg__parseAnimate (p : NSVGparserS) (tagName : List Char)
    (attrs : List NSVGattrValue) : Except String NSVGparserS :=
  let c := nsvg__parseAnimateCollect attrs
  if c.dur = animUnset then .ok p
  else if c.values.isNone ∧ (c.fromA.isNone ∨ c.toA.isNone) then .ok p
  else if c.keyTimesCount > 0 ∧ c.valuesCount > 0 ∧ c.keyTimesCount ≠ c.valuesCount then .ok p
  else if c.keySplinesCount > 0 ∧ c.valuesCount > 0 ∧ c.keySplinesCount ≠ c.valuesCount - 1 then .ok p
  else
    let (repeatCount, endT) :=
      if c.repeatDur ≠ animUnset then
        let rc := if c.repeatCount ≠ animUnset then -1 else c.repeatCount
        let e :=
          if c.endT > 0 ∧ c.repeatDur < 0 then c.endT
          else if c.endT < 0 ∧ c.repeatDur > 0 then c.repeatDur
          else if c.endT > 0 ∧ c.repeatDur > 0 then
            (if c.endT < c.repeatDur then c.endT else c.repeatDur)
          else c.endT
        (rc, e)
      else (c.repeatCount, c.endT)
    let isTransformTag := tagName.length = 16 ∧ cstrEq tagName "animateTransform".toList 16
    let isAnimateTag := tagName.length = 7 ∧ cstrEq tagName "animate".toList 7
    if ¬isTransformTag ∧ ¬isAnimateTag then .ok p
    else
      match c.attrName with
      | none => .error "null pointer dereference: attributeName in nsvg__parseAnimate"
      | some attrName =>
        let animateType? : Option Int :=
          if isTransformTag then
            if cstrEqFull attrName.value "transform" then
              match c.type with
              | none => none
              | some ty =>
                if cstrEqFull ty.value "translate" then some NSVG_ANIMATE_TYPE_TRANSFORM_TRANSLATE
                else if cstrEqFull ty.value "scale" then some NSVG_ANIMATE_TYPE_TRANSFORM_SCALE
                else if cstrEqFull ty.value "rotate" then some NSVG_ANIMATE_TYPE_TRANSFORM_ROTATE
                else if cstrEqFull ty.value "skewX" then some NSVG_ANIMATE_TYPE_TRANSFORM_SKEWX
                else if cstrEqFull ty.value "skewY" then some NSVG_ANIMATE_TYPE_TRANSFORM_SKEWY
                else none
            else none
          else
            if cstrEqFull attrName.value "opacity" then some NSVG_ANIMATE_TYPE_OPACITY
            else if cstrEqFull attrName.value "fill" then some NSVG_ANIMATE_TYPE_FILL
            else if cstrEqFull attrName.value "fill-opacity" then some NSVG_ANIMATE_TYPE_FILL_OPACITY
            else if cstrEqFull attrName.value "stroke" then some NSVG_ANIMATE_TYPE_STROKE
            else if cstrEqFull attrName.value "stroke-opacity" then some NSVG_ANIMATE_TYPE_STROKE_OPACITY
            else if cstrEqFull attrName.value "stroke-width" then some NSVG_ANIMATE_TYPE_STROKE_WIDTH
            else if cstrEqFull attrName.value "stroke-dashoffset" then some NSVG_ANIMATE_TYPE_STROKE_DASHOFFSET
            else if cstrEqFull attrName.value "stroke-dasharray" then some NSVG_ANIMATE_TYPE_STROKE_DASHARRAY
            else none
        match animateType? with
        | none => .ok p
        | some animateType =>
          if c.values.isNone ∨ c.valuesCount < 2 then
            let an0 : NSVGanimate :=
              { type := animateType
                begin := c.begin
                endMs := endT
                dur := c.dur
                groupDur := c.dur
                repeatCount := repeatCount
                src := zeroBuf 10
                dst := zeroBuf 10
                spline := zeroBuf 4
                srcNa := 0
                dstNa := 0
                calcMode := c.calcMode
                additive := c.additive
                fill := c.fill
                flags := 0 }
            let an :=
              match c.values with
              | none =>
                match c.fromA, c.toA with
                | some f, some t =>
                  let (src, srcNa, _) := nsvg__parseAnimateValue p an0.src f.value animateType
                  let (dst, dstNa, _) := nsvg__parseAnimateValue p an0.dst t.value animateType
                  { an0 with src := src, srcNa := (srcNa : Int), dst := dst, dstNa := (dstNa : Int) }
                | _, _ => an0
              | some v =>
                let (src, srcNa, _) := nsvg__parseAnimateValue p an0.src v.value animateType
                { an0 with src := src, srcNa := (srcNa : Int), dst := src, dstNa := (srcNa : Int) }
            .ok (nsvg__attachAnimates p [an])
          else
            match c.values with
            | none => .ok p
            | some v =>
              let (keyTimes0, keyTimeEnd0) :=
                match c.keyTimes with
                | some kt =>
                  let (a2, na2, rest) :=
                    nsvg__parseAnimateValue p [0] kt.value NSVG_ANIMATE_TYPE_NUMBER
                  (some rest, if na2 = 0 then 0 else getF a2 0)
                | none => (none, (0 : F))
              let (args0, argsNa0, valuesRest) :=
                nsvg__parseAnimateValue p (zeroBuf 10) v.value animateType
              let st0 : AnimSegSt :=
                { keyTimes := keyTimes0
                  keySplines := c.keySplines.map (·.value)
                  keyTimeEnd := keyTimeEnd0
                  valuesSlice := valuesRest
                  args := args0
                  argsNa := argsNa0
                  acc := [] }
              let st := nsvg__parseAnimateSegLoop p c animateType repeatCount endT
                c.valuesCount st0 ((c.valuesCount - 1).toNat + 1)
              .ok (nsvg__attachAnimates p st.acc)

/-! Gradient resolution (post-parse pass 1). -/

def nsvg__findGradientData (p : NSVGparserS) (id : String) : Option NSVGgradientData :=
  if id = "" then none
  else p.gradients.find? (fun g => g.id = some id)

/-- The `href` chase of C `nsvg__createGradient`: walk the reference chain
until a record with stops is found; a hop landing on the same record aborts
(the source compares pointers; the model compares the records, which agrees
whenever the gradient list holds no two identical records), and at most 32
hops are followed. -/
def gradChaseLoop (p : NSVGparserS) (ref : Option NSVGgradientData)
    (refIter : Nat) : Nat → Option (List NSVGgradientStop)
  | 0 => none
  | fuel + 1 =>
    match ref with
    | none => none
    | some r =>
      if ¬r.stops.isEmpty then some r.stops
      else
        let nextRef := match r.ref with
          | none => none
          | some rid => nsvg__findGradientData p rid
        if nextRef = some r then none
        else if refIter + 1 > 32 then none
        else gradChaseLoop p nextRef (refIter + 1) fuel

/-- C `nsvg__createGradient`.  On success also returns the paint type the
source writes through `paintType` (the gradient-data type); on failure the
out-parameter is untouched, modeled by `none`. -/
def nsvg__createGradient (p : NSVGparserS) (id : String) (localBounds : Bounds4)
    (xform : Xform) : NSVGparserS × Option (NSVGgradient × Int) :=
  match nsvg__findGradientData p id with
  | none => (p, none)
  | some data =>
    match gradChaseLoop p (some data) 0 40 with
    | none => (p, none)
    | some stops =>
      let p := { p with image := (nsvg__mallocAcct p.image
        (sizeofNSVGgradient + sizeofNSVGgradientStop * ((stops.length : Int) - 1))) }
      let (ox, oy, sw, sh) :=
        if data.units = NSVG_OBJECT_SPACE then
          (localBounds.b0, localBounds.b1, localBounds.b2 - localBounds.b0,
           localBounds.b3 - localBounds.b1)
        else
          (nsvg__actualOrigX p, nsvg__actualOrigY p, nsvg__actualWidth p, nsvg__actualHeight p)
      let sl := sqrtf (sw * sw + sh * sh) / sqrtf 2
      let (gxform, fx, fy) :=
        if data.gtype = NSVG_PAINT_LINEAR_GRADIENT then
          let x1 := nsvg__convertToPixels p.image data.linear.x1 ox sw
          let y1 := nsvg__convertToPixels p.image data.linear.y1 oy sh
          let x2 := nsvg__convertToPixels p.image data.linear.x2 ox sw
          let y2 := nsvg__convertToPixels p.image data.linear.y2 oy sh
          let dx := x2 - x1
          let dy := y2 - y1
          ((⟨dy, -dx, dx, dy, x1, y1⟩ : Xform), (0 : F), (0 : F))
        else
          let cx := nsvg__convertToPixels p.image data.radial.cx ox sw
          let cy := nsvg__convertToPixels p.image data.radial.cy oy sh
          let fx := nsvg__convertToPixels p.image data.radial.fx ox sw
          let fy := nsvg__convertToPixels p.image data.radial.fy oy sh
          let r := nsvg__convertToPixels p.image data.radial.r 0 sl
          ((⟨r, 0, 0, r, cx, cy⟩ : Xform), fx / r, fy / r)
      let gxform := nsvg__xformMultiply gxform data.xform
      let gxform := nsvg__xformMultiply gxform xform
      let grad : NSVGgradient :=
        { xform := gxform
          origXform := gxform
          spread := data.spread
          fx := fx
          fy := fy
          stops := stops }
      (p, some (grad, data.gtype))

/-- Per-path fold of C `nsvg__getLocalBounds`. -/
def localBoundsPathLoop (pts : List F) (npts : Nat) (xform : Xform) (i : Nat)
    (cur : F × F) (st : Bounds4 × Bool) : Nat → Bounds4 × Bool
  | 0 => st
  | fuel + 1 =>
    if i + 1 < npts then
      let c1 := nsvg__xformPoint (getF pts ((i + 1) * 2)) (getF pts ((i + 1) * 2 + 1)) xform
      let c2 := nsvg__xformPoint (getF pts ((i + 2) * 2)) (getF pts ((i + 2) * 2 + 1)) xform
      let c3 := nsvg__xformPoint (getF pts ((i + 3) * 2)) (getF pts ((i + 3) * 2 + 1)) xform
      let cb := nsvg__curveBounds cur.1 cur.2 c1.1 c1.2 c2.1 c2.2 c3.1 c3.2
      let st :=
        if st.2 then (cb, false)
        else
          (⟨nsvg__minf st.1.b0 cb.b0, nsvg__minf st.1.b1 cb.b1,
            nsvg__maxf st.1.b2 cb.b2, nsvg__maxf st.1.b3 cb.b3⟩, false)
      localBoundsPathLoop pts npts xform (i + 3) c3 st fuel
    else st

/-- C `nsvg__getLocalBounds` (`first` spans all paths; with no segment at
all the bounds stay uninitialized, modeled as zeros). -/
def nsvg__getLocalBounds (shape : NSVGshape) (xform : Xform) : Bounds4 :=
  (shape.paths.foldl
    (fun st path =>
      let c0 := nsvg__xformPoint (getF path.pts 0) (getF path.pts 1) xform
      localBoundsPathLoop path.pts path.npts xform 0 c0 st (path.npts + 1))
    ((default : Bounds4), true)).1

/-- Fill half of the loop body of C `nsvg__createGradients` (the
`shape->fill.type == NSVG_PAINT_UNDEF` block). -/
def nsvg__createGradientsFill (p : NSVGparserS) (shape : NSVGshape) :
    NSVGparserS × NSVGshape :=
  if shape.fill.ptype = NSVG_PAINT_UNDEF then
    let (p, shape) :=
      match shape.fillGradient with
      | some gid =>
        if gid ≠ "" then
          let inv := nsvg__xformInverse nsvg__xformIdentity shape.xform
          let localBounds := nsvg__getLocalBounds shape inv
          let (p, res) := nsvg__createGradient p gid localBounds shape.xform
          match res with
          | some (g, t) =>
            (p, { shape with fill := { shape.fill with gradient := some g, ptype := t } })
          | none => (p, { shape with fill := { shape.fill with gradient := none } })
        else (p, shape)
      | none => (p, shape)
    let shape :=
      if shape.fill.ptype = NSVG_PAINT_UNDEF then
        { shape with fill := { shape.fill with ptype := NSVG_PAINT_NONE } }
      else shape
    (p, { shape with origFill := shape.fill })
  else (p, shape)

/-- Stroke half of the loop body of C `nsvg__createGradients` (the
`shape->stroke.type == NSVG_PAINT_UNDEF` block). -/
def nsvg__createGradientsStroke (p : NSVGparserS) (shape : NSVGshape) :
    NSVGparserS × NSVGshape :=
  if shape.stroke.ptype = NSVG_PAINT_UNDEF then
    let (p, shape) :=
      match shape.strokeGradient with
      | some gid =>
        if gid ≠ "" then
          let inv := nsvg__xformInverse nsvg__xformIdentity shape.xform
          let localBounds := nsvg__getLocalBounds shape inv
          let (p, res) := nsvg__createGradient p gid localBounds shape.xform
          match res with
          | some (g, t) =>
            (p, { shape with stroke := { shape.stroke with gradient := some g, ptype := t } })
          | none => (p, { shape with stroke := { shape.stroke with gradient := none } })
        else (p, shape)
      | none => (p, shape)
    let shape :=
      if shape.stroke.ptype = NSVG_PAINT_UNDEF then
        { shape with stroke := { shape.stroke with ptype := NSVG_PAINT_NONE } }
      else shape
    (p, { shape with origStroke := shape.stroke })
  else (p, shape)

/-- Loop body of C `nsvg__createGradients`: resolve the `undefined` paints
of the shape at index `i`. -/
def nsvg__createGradientsStep (p : NSVGparserS) (i : Nat) : NSVGparserS :=
  match (p.image.shapes.getD i default).shape with
  | none => p
  | some shape =>
    let (p, shape) := nsvg__createGradientsFill p shape
    let (p, shape) := nsvg__createGradientsStroke p shape
    let shapes := p.image.shapes.mapIdx
      (fun j n => if j = i then { n with shape := some shape } else n)
    { p with image := { p.image with shapes := shapes } }


/-- C `nsvg__createGradients`: resolve `undefined` paints. -/
def nsvg__createGradients (p : NSVGparserS) : NSVGparserS :=
  let n := p.image.shapes.length
  (List.range n).foldl nsvg__createGradientsStep p

/-- C `nsvg__findShapeParents`: the parent of a node is the closest earlier
node of strictly smaller depth. -/
def nsvg__findShapeParents (p : NSVGparserS) : NSVGparserS :=
  let shapes := p.image.shapes
  let shapes2 := shapes.mapIdx
    (fun j n =>
      { n with parent :=
          ((List.range j).reverse.find? (fun i => (shapes.getD i default).shapeDepth < n.shapeDepth)) })
  { p with image := { p.image with shapes := shapes2 } }

/-! ViewBox resolution (post-parse pass 2). -/

def nsvg__imageBounds (image : NSVGimage) : Bounds4 :=
  let withShape := image.shapes.filterMap (·.shape)
  match withShape with
  | [] => ⟨0, 0, 0, 0⟩
  | s0 :: rest =>
    rest.foldl
      (fun b s =>
        ⟨nsvg__minf b.b0 s.bounds.b0, nsvg__minf b.b1 s.bounds.b1,
         nsvg__maxf b.b2 s.bounds.b2, nsvg__maxf b.b3 s.bounds.b3⟩)
      s0.bounds

def nsvg__viewAlign (content container : F) (type : Int) : F :=
  if type = NSVG_ALIGN_MIN then 0
  else if type = NSVG_ALIGN_MAX then container - content
  else (container - content) * (1/2)

/-- C `nsvg__scaleGradient`: recompose the live transform from the baseline. -/
def nsvg__scaleGradient (grad : NSVGgradient) (tx ty sx sy : F) : NSVGgradient :=
  let x := nsvg__xformMultiply grad.origXform (nsvg__xformSetTranslation tx ty)
  let x := nsvg__xformMultiply x (nsvg__xformSetScale sx sy)
  { grad with xform := x }

/-- C `nsvg__scaleToViewbox`. -/
def nsvg__scaleToViewbox (image : NSVGimage) : NSVGimage :=
  let bounds := nsvg__imageBounds image
  let image : NSVGimage :=
    if image.viewWidth = 0 then
      if image.width > 0 then { image with viewWidth := image.width }
      else { image with viewMinx := bounds.b0, viewWidth := bounds.b2 - bounds.b0 }
    else image
  let image : NSVGimage :=
    if image.viewHeight = 0 then
      if image.height > 0 then { image with viewHeight := image.height }
      else { image with viewMiny := bounds.b1, viewHeight := bounds.b3 - bounds.b1 }
    else image
  let image : NSVGimage := if image.width = 0 then { image with width := image.viewWidth } else image
  let image : NSVGimage := if image.height = 0 then { image with height := image.viewHeight } else image
  let tx := -image.viewMinx
  let ty := -image.viewMiny
  let sx := if image.viewWidth > 0 then image.width / image.viewWidth else 0
  let sy := if image.viewHeight > 0 then image.height / image.viewHeight else 0
  let us := 1 / nsvg__convertToPixels image (nsvg__coord 1 (nsvg__parseUnits image.units)) 0 1
  let (tx, ty, sx, sy) :=
    if image.alignType = NSVG_ALIGN_MEET then
      let s := nsvg__minf sx sy
      (tx + nsvg__viewAlign (image.viewWidth * s) image.width image.alignX / s,
       ty + nsvg__viewAlign (image.viewHeight * s) image.height image.alignY / s, s, s)
    else if image.alignType = NSVG_ALIGN_SLICE then
      let s := nsvg__maxf sx sy
      (tx + nsvg__viewAlign (image.viewWidth * s) image.width image.alignX / s,
       ty + nsvg__viewAlign (image.viewHeight * s) image.height image.alignY / s, s, s)
    else (tx, ty, sx, sy)
  let sx := sx * us
  let sy := sy * us
  let avgs := (sx + sy) / 2
  let shapes := image.shapes.map
    (fun node =>
      match node.shape with
      | none => node
      | some shape =>
        let shape : NSVGshape :=
          { shape with bounds :=
              ⟨(shape.bounds.b0 + tx) * sx, (shape.bounds.b1 + ty) * sy,
               (shape.bounds.b2 + tx) * sx, (shape.bounds.b3 + ty) * sy⟩ }
        let shape : NSVGshape :=
          { shape with paths := (shape.paths.map
              (fun path =>
                let path : NSVGpath :=
                  { path with bounds :=
                      ⟨(path.bounds.b0 + tx) * sx, (path.bounds.b1 + ty) * sy,
                       (path.bounds.b2 + tx) * sx, (path.bounds.b3 + ty) * sy⟩ }
                if ¬path.scaled then
                  { path with
                    pts := ((List.range path.npts).foldl
                      (fun acc i =>
                        acc ++ [(getF path.pts (i * 2) + tx) * sx,
                                (getF path.pts (i * 2 + 1) + ty) * sy])
                      [])
                    scaled := true }
                else path)) }
        let shape : NSVGshape :=
          if shape.fill.ptype = NSVG_PAINT_LINEAR_GRADIENT ∨
             shape.fill.ptype = NSVG_PAINT_RADIAL_GRADIENT then
            { shape with fill := { shape.fill with gradient := (shape.fill.gradient.map
                (fun g =>
                  let g := nsvg__scaleGradient g tx ty sx sy
                  { g with xform := nsvg__xformInverse g.xform g.xform })) } }
          else shape
        let shape : NSVGshape :=
          if shape.stroke.ptype = NSVG_PAINT_LINEAR_GRADIENT ∨
             shape.stroke.ptype = NSVG_PAINT_RADIAL_GRADIENT then
            { shape with stroke := { shape.stroke with gradient := (shape.stroke.gradient.map
                (fun g =>
                  let g := nsvg__scaleGradient g tx ty sx sy
                  { g with xform := nsvg__xformInverse g.xform g.xform })) } }
          else shape
        let shape : NSVGshape :=
          if ¬shape.strokeScaled then
            { shape with
              strokeWidth := shape.strokeWidth * avgs
              strokeDashOffset := shape.strokeDashOffset * avgs
              strokeDashArray := scalePrefix shape.strokeDashArray shape.strokeDashCount.toNat avgs
              strokeScaled := true }
          else shape
        { node with shape := some shape })
  { image with shapes := shapes }

/-! XML lexer and element dispatch. -/

/-- Attribute loop of C `nsvg__parseElement`.  Returns the collected
attributes and whether a bare `/` (self-closing tag) was seen. -/
def parseElementAttrLoop (s : List Char) (acc : List NSVGattrValue) :
    Nat → List NSVGattrValue × Bool
  | 0 => (acc, false)
  | fuel + 1 =>
    if acc.length ≥ 61 then (acc, false)
    else
      let s := s.dropWhile nsvg__isspace
      match s with
      | [] => (acc, false)
      | '/' :: _ => (acc, true)
      | _ =>
        let name := s.takeWhile (fun c => ¬nsvg__isspace c ∧ c ≠ '=')
        let s1 := s.drop name.length
        if s1.isEmpty then (acc, false)
        else
          let s2 := s1.drop 1
          let s3 := s2.dropWhile (fun c => c ≠ '\x22' ∧ c ≠ '\'')
          match s3 with
          | [] => (acc, false)
          | quote :: s4 =>
            let value := s4.takeWhile (· ≠ quote)
            let s5 := s4.drop value.length
            if s5.isEmpty then (acc ++ [{ name := name, value := [], term := '\x00' }], false)
            else
              parseElementAttrLoop (s5.drop 1)
                (acc ++ [{ name := name, value := value, term := quote }]) fuel

/-- Slice analysis of C `nsvg__parseElement`: start/end flags, tag name and
attributes (`none` when the element is a comment, processing instruction or
empty). -/
def nsvg__parseElementParse (s : List Char) :
    Option (Bool × Bool × List Char × List NSVGattrValue) :=
  let s := s.dropWhile nsvg__isspace
  let (endF, s) := match s with
    | '/' :: r => (true, r)
    | _ => (false, s)
  let start := ¬endF
  match s with
  | [] => none
  | c :: _ =>
    if c = '?' ∨ c = '!' then none
    else
      let name := s.takeWhile (fun c => ¬nsvg__isspace c)
      let s := s.drop name.length
      let (attrs, endF2) :=
        if endF then ([], false) else parseElementAttrLoop s [] (s.length + 1)
      some (start, endF ∨ endF2, name, attrs)

/-- C `nsvg__startElement`. -/
def nsvg__startElement (p : NSVGparserS) (elName : List Char)
    (attrs : List NSVGattrValue) : Except String NSVGparserS :=
  let p := { p with shapeDepth := p.shapeDepth + 1 }
  if p.defsFlag then
    if cstrEqFull elName "linearGradient" then
      .ok (nsvg__parseGradient p attrs NSVG_PAINT_LINEAR_GRADIENT)
    else if cstrEqFull elName "radialGradient" then
      .ok (nsvg__parseGradient p attrs NSVG_PAINT_RADIAL_GRADIENT)
    else if cstrEqFull elName "stop" then .ok (nsvg__parseGradientStop p attrs)
    else .ok p
  else if cstrEqFull elName "g" then
    .ok (nsvg__parseGroup (nsvg__pushAttr p) attrs)
  else if cstrEqFull elName "path" then
    if p.pathFlag then .ok p
    else .ok (nsvg__popAttr (nsvg__parsePath (nsvg__pushAttr p) attrs))
  else if cstrEqFull elName "rect" then
    .ok (nsvg__popAttr (nsvg__parseRect (nsvg__pushAttr p) attrs))
  else if cstrEqFull elName "circle" then
    .ok (nsvg__popAttr (nsvg__parseCircle (nsvg__pushAttr p) attrs))
  else if cstrEqFull elName "ellipse" then
    .ok (nsvg__popAttr (nsvg__parseEllipse (nsvg__pushAttr p) attrs))
  else if cstrEqFull elName "line" then
    .ok (nsvg__popAttr (nsvg__parseLine (nsvg__pushAttr p) attrs))
  else if cstrEqFull elName "polyline" then
    .ok (nsvg__popAttr (nsvg__parsePoly (nsvg__pushAttr p) attrs false))
  else if cstrEqFull elName "polygon" then
    .ok (nsvg__popAttr (nsvg__parsePoly (nsvg__pushAttr p) attrs true))
  else if cstrEqFull elName "linearGradient" then
    .ok (nsvg__parseGradient p attrs NSVG_PAINT_LINEAR_GRADIENT)
  else if cstrEqFull elName "radialGradient" then
    .ok (nsvg__parseGradient p attrs NSVG_PAINT_RADIAL_GRADIENT)
  else if cstrEqFull elName "stop" then .ok (nsvg__parseGradientStop p attrs)
  else if cstrEqFull elName "defs" then .ok { p with defsFlag := true }
  else if cstrEqFull elName "animate" || cstrEqFull elName "animateTransform" then
    match nsvg__parseAnimate (nsvg__pushAttr p) elName attrs with
    | .ok p => .ok (nsvg__popAttr p)
    | .error e => .error e
  else if cstrEqFull elName "svg" then .ok (nsvg__parseSVG p attrs)
  else .ok p

/-- C `nsvg__endElement`. -/
def nsvg__endElement (p : NSVGparserS) (elName : List Char) : NSVGparserS :=
  let p :=
    if cstrEqFull elName "g" then nsvg__popAttr p
    else if cstrEqFull elName "path" then { p with pathFlag := false }
    else if cstrEqFull elName "defs" then { p with defsFlag := false }
    else p
  { p with shapeDepth := p.shapeDepth - 1 }

/-- One element between `<` and `>` handed to the callbacks. -/
def nsvg__parseElementCb (p : NSVGparserS) (tag : List Char) :
    Except String NSVGparserS :=
  match nsvg__parseElementParse tag with
  | none => .ok p
  | some (start, endF, name, attrs) => do
    let p ← if start then nsvg__startElement p name attrs else pure p
    pure (if endF then nsvg__endElement p name else p)

/-- The comment state of the lexer: skip until past `-->`, or to the end. -/
def xmlSkipComment (s : List Char) : Nat → List Char
  | 0 => []
  | fuel + 1 =>
    match s with
    | [] => []
    | _ :: rest =>
      if cstrEq s "-->".toList 3 then s.drop 3
      else xmlSkipComment rest fuel

/-- Main loop of C `nsvg__parseXML` (the content callback of the SVG parser
is empty, so content runs are skipped directly). -/
def nsvg__parseXMLLoop (p : NSVGparserS) (s : List Char) :
    Nat → Except String NSVGparserS
  | 0 => .ok p
  | fuel + 1 =>
    match s with
    | [] => .ok p
    | '<' :: rest =>
      if cstrEq s "<!--".toList 4 then
        nsvg__parseXMLLoop p (xmlSkipComment (s.drop 4) (s.length + 1)) fuel
      else
        let tag := rest.takeWhile (· ≠ '>')
        let s2 := rest.drop tag.length
        if s2.isEmpty then .ok p
        else do
          let p ← nsvg__parseElementCb p tag
          nsvg__parseXMLLoop p (s2.drop 1) fuel
    | _ :: rest =>
      nsvg__parseXMLLoop p (rest.dropWhile (· ≠ '<')) fuel

def nsvg__parseXML (input : List Char) (p : NSVGparserS) : Except String NSVGparserS :=
  nsvg__parseXMLLoop p input (input.length + 2)

/-! Parser construction, tear-down accounting, and the public parse entry. -/

/-- C `nsvg__createParser` (the parser, image and first attribute frame are
plain `malloc`s and do not enter the accounting). -/
def nsvg__createParser : NSVGparserS :=
  let attr0 : NSVGattrib :=
    { id := none
      xform := nsvg__xformIdentity
      fillColor := NSVG_RGB 0 0 0
      strokeColor := NSVG_RGB 0 0 0
      opacity := 1
      fillOpacity := 1
      strokeOpacity := 1
      fillGradient := none
      strokeGradient := none
      strokeWidth := 1
      strokeDashOffset := 0
      strokeDashArray := List.replicate 8 0
      strokeDashCount := 0
      strokeLineJoin := NSVG_JOIN_MITER
      strokeLineCap := NSVG_CAP_BUTT
      miterLimit := 4
      fillRule := NSVG_FILLRULE_NONZERO
      fontSize := 0
      stopColor := 0
      stopOpacity := 1
      stopOffset := 0
      hasFill := 1
      hasStroke := 0
      visible := 1 }
  { attr := [attr0]
    idFreeCount := 0
    pts := []
    npts := 0
    cpts := 0
    plist := []
    image :=
      { width := 0, height := 0, viewMinx := 0, viewMiny := 0, viewWidth := 0,
        viewHeight := 0, fontSize := 0, dpi := 0, alignX := 0, alignY := 0,
        alignType := 0, units := [], shapes := [], memorySize := 0 }
    gradients := []
    pathFlag := false
    defsFlag := false
    shapeDepth := 0 }

/-- Accounting effect of C `nsvg__deleteParser`: the in-flight path list and
the gradient-data records go through `nsvg__free`; the id freelist is freed
through `nsvg__free`; the point scratch buffer and the attribute frames are
plain `free`s (no accounting). -/
def nsvg__deleteParser (p : NSVGparserS) : NSVGimage :=
  let img := p.plist.foldl
    (fun img path =>
      let img := if path.pts.isEmpty then img
        else nsvg__freeAcct img ((path.npts : Int) * 2 * sizeofFloat)
      let img := if path.origPts.isEmpty then img
        else nsvg__freeAcct img ((path.npts : Int) * 2 * sizeofFloat)
      nsvg__freeAcct img sizeofNSVGpath)
    p.image
  let img := p.gradients.foldl
    (fun img g =>
      let img := if g.id.isSome then nsvg__freeAcct img sizeofNSVGid else img
      let img := if g.ref.isSome then nsvg__freeAcct img sizeofNSVGid else img
      let img := if g.stops.isEmpty then img
        else nsvg__freeAcct img (sizeofNSVGgradientStop * (g.stops.length : Int))
      nsvg__freeAcct img sizeofNSVGgradientData)
    img
  { img with memorySize := img.memorySize - sizeofNSVGid * (p.idFreeCount : Int) }

/-- C `nsvgParse`.  `allocOk` models whether `nsvg__createParser`'s
allocations succeed — the only condition under which the source returns
NULL. -/
def nsvgParse (allocOk : Bool) (input : List Char) (units : List Char) (dpi : F) :
    Except String (Option NSVGimage) :=
  if ¬allocOk then .ok none
  else
    let p := nsvg__createParser
    let p := { p with image := { p.image with dpi := dpi, units := units.take 3 } }
    match nsvg__parseXML input p with
    | .error e => .error e
    | .ok p =>
      let p := nsvg__createGradients p
      let p := nsvg__findShapeParents p
      let p := { p with image := nsvg__scaleToViewbox p.image }
      .ok (some (nsvg__deleteParser p))

/-! Animation engine. -/

def nsvg__animateApplyTransform (xform : Xform) (args : List F) (na : Int)
    (type additive : Int) : Xform :=
  let xform2 :=
    if type = NSVG_ANIMATE_TYPE_TRANSFORM_TRANSLATE then
      nsvg__xformSetTranslation (getF args 0) (getF args 1)
    else if type = NSVG_ANIMATE_TYPE_TRANSFORM_SCALE then
      nsvg__xformSetScale (getF args 0) (getF args 1)
    else if type = NSVG_ANIMATE_TYPE_TRANSFORM_ROTATE then
      if na > 1 then nsvg__xformSetNonCenterRotation (getF args 0) (getF args 1) (getF args 2)
      else nsvg__xformSetRotation (getF args 0)
    else if type = NSVG_ANIMATE_TYPE_TRANSFORM_SKEWX then nsvg__xformSetSkewX (getF args 0)
    else if type = NSVG_ANIMATE_TYPE_TRANSFORM_SKEWY then nsvg__xformSetSkewY (getF args 0)
    else nsvg__xformIdentity
  let xform := if additive = NSVG_ANIMATE_ADDITIVE_REPLACE then nsvg__xformIdentity else xform
  nsvg__xformPremultiply xform xform2

/-- C `nsvg__animateApplyPaint` (color channels; `&0xFF` of the `int` cast
is the nonnegative remainder). -/
def nsvg__animateApplyPaint (paint : NSVGpaint) (args : List F) (additive : Int) : NSVGpaint :=
  let r := (cInt (getF args 0)).emod 256
  let g := (cInt (getF args 1)).emod 256
  let b := (cInt (getF args 2)).emod 256
  if paint.ptype ≠ NSVG_PAINT_COLOR then paint
  else
    let (r, g, b) :=
      if additive = NSVG_ANIMATE_ADDITIVE_SUM then
        let r := r + ((paint.color &&& 0xFF : Nat) : Int)
        let g := g + (((paint.color >>> 8) &&& 0xFF : Nat) : Int)
        let b := b + (((paint.color >>> 16) &&& 0xFF : Nat) : Int)
        (if r < 0xFF then r else 0xFF, if g < 0xFF then g else 0xFF,
         if b < 0xFF then b else 0xFF)
      else (r, g, b)
    { paint with color := (paint.color &&& 0xFF000000) ||| NSVG_RGB r.toNat g.toNat b.toNat }

/-- C `nsvg__animateApplyOpacity` (the alpha byte of a color paint). -/
def nsvg__animateApplyOpacity (paint : NSVGpaint) (args : List F) (additive : Int) : NSVGpaint :=
  let a := (cInt (getF args 0 * 255)).emod 256
  if paint.ptype ≠ NSVG_PAINT_COLOR then paint
  else
    let a :=
      if additive = NSVG_ANIMATE_ADDITIVE_SUM then
        let a := a + (((paint.color >>> 24) &&& 0xFF : Nat) : Int)
        if a < 0xFF then a else 0xFF
      else a
    { paint with color := (paint.color &&& 0x00FFFFFF) ||| (a.toNat <<< 24) }

/-- C `nsvg__animateApplyValue`. -/
def nsvg__animateApplyValue (value : F) (args : List F) (additive : Int) : F :=
  if additive = NSVG_ANIMATE_ADDITIVE_SUM then value + getF args 0 else getF args 0

/-- One iteration body of C `nsvg__animateApplyGroup` once the animate is
selected for application (`ended` already weighed in via `progression = 1`). -/
def nsvg__animateApplyOne (shape : NSVGshape) (animate : NSVGanimate)
    (progression : F) : NSVGshape :=
  let args := (List.range 10).map
    (fun i => getF animate.src i + (getF animate.dst i - getF animate.src i) * progression)
  let (shape, scaleStroke) :=
    if animate.type = NSVG_ANIMATE_TYPE_TRANSFORM_TRANSLATE ∨
       animate.type = NSVG_ANIMATE_TYPE_TRANSFORM_SCALE ∨
       animate.type = NSVG_ANIMATE_TYPE_TRANSFORM_ROTATE ∨
       animate.type = NSVG_ANIMATE_TYPE_TRANSFORM_SKEWX ∨
       animate.type = NSVG_ANIMATE_TYPE_TRANSFORM_SKEWY then
      let na := if animate.srcNa > animate.dstNa then animate.srcNa else animate.dstNa
      let shape :=
        { shape with xform :=
            nsvg__animateApplyTransform shape.xform args na animate.type animate.additive }
      let shape :=
        { shape with paths := (shape.paths.map
            (fun path =>
              let path :=
                { path with xform :=
                    nsvg__animateApplyTransform path.xform args na animate.type animate.additive }
              let path := nsvg__transformPath path path.xform
              { path with scaled := false })) }
      (shape, true)
    else if animate.type = NSVG_ANIMATE_TYPE_FILL then
      ({ shape with fill := nsvg__animateApplyPaint shape.fill args animate.additive }, false)
    else if animate.type = NSVG_ANIMATE_TYPE_STROKE then
      ({ shape with stroke := nsvg__animateApplyPaint shape.stroke args animate.additive }, false)
    else if animate.type = NSVG_ANIMATE_TYPE_OPACITY then
      -- NOTE (source line 4216-4222): in the `additive = sum` case the
      -- source first adds `args[0]` and then unconditionally overwrites
      -- `shape->opacity = args[0]`, so the sum is discarded.
      let opacity := if animate.additive = NSVG_ANIMATE_ADDITIVE_SUM then
        shape.opacity + getF args 0 else shape.opacity
      let _ := opacity
      let opacity := getF args 0
      let opacity := if opacity > 1 then 1 else opacity
      ({ shape with opacity := opacity }, false)
    else if animate.type = NSVG_ANIMATE_TYPE_FILL_OPACITY then
      ({ shape with fill := nsvg__animateApplyOpacity shape.fill args animate.additive }, false)
    else if animate.type = NSVG_ANIMATE_TYPE_STROKE_OPACITY then
      ({ shape with stroke := nsvg__animateApplyOpacity shape.stroke args animate.additive }, false)
    else if animate.type = NSVG_ANIMATE_TYPE_STROKE_WIDTH then
      ({ shape with strokeWidth := nsvg__animateApplyValue shape.strokeWidth args animate.additive }, false)
    else if animate.type = NSVG_ANIMATE_TYPE_STROKE_DASHOFFSET then
      ({ shape with strokeDashOffset := nsvg__animateApplyValue shape.strokeDashOffset args animate.additive }, true)
    else if animate.type = NSVG_ANIMATE_TYPE_STROKE_DASHARRAY then
      let k := (animate.dstNa - 1).toNat
      let src := if animate.srcNa ≠ animate.dstNa then animate.dst else args
      let shape :=
        { shape with
          strokeDashArray := overwritePrefix shape.strokeDashArray (src.take k)
          strokeDashCount := cInt (getF args (animate.dstNa - 1).toNat) }
      (shape, false)
    else (shape, false)
  if scaleStroke then nsvg__scaleShapeStroke shape shape.xform else shape

/-- C `nsvg__animateApplyGroup`: iterate an animate list, applying at most
one member per descriptor group, honoring begin/duration/end/repeat gating
and `fill=freeze`.  Returns the updated shape and the `animateApplied` flag. -/
def nsvg__animateApplyGroup (shape : NSVGshape) (animates : List NSVGanimate)
    (timeMs : Int) : NSVGshape × Bool :=
  let final := animates.foldl
    (fun (acc : NSVGshape × Bool × Bool) animate =>
      let (shape, animateApplied, groupHasAnimate) := acc
      let groupHasAnimate :=
        if animate.flags &&& NSVG_ANIMATE_FLAG_GROUP_FIRST ≠ 0 then false else groupHasAnimate
      if groupHasAnimate then (shape, animateApplied, groupHasAnimate)
      else
        let relativeTime := cmod (timeMs - animate.begin) animate.groupDur + animate.begin
        if relativeTime < animate.begin then (shape, animateApplied, groupHasAnimate)
        else
          let ended := relativeTime ≥ animate.begin + animate.dur
          let ended := ended ∨ (animate.endMs > 0 ∧ timeMs ≥ animate.endMs)
          let ended := ended ∨ (animate.repeatCount ≥ 0 ∧
            cdiv (timeMs - animate.begin) animate.groupDur + 1 > animate.repeatCount)
          if ended ∧ ¬(animate.flags &&& NSVG_ANIMATE_FLAG_GROUP_LAST ≠ 0 ∧
                       animate.fill = NSVG_ANIMATE_FILL_FREEZE) then
            (shape, animateApplied, groupHasAnimate)
          else
            let progression : F :=
              if ¬ended then
                let pr :=
                  if animate.calcMode ≠ NSVG_ANIMATE_CALC_MODE_DISCRETE then
                    ((relativeTime - animate.begin : Int) : F) / ((animate.dur : Int) : F)
                  else 1
                if animate.calcMode = NSVG_ANIMATE_CALC_MODE_SPLINE then
                  let splineValue := nsvg__evalBezier pr 0 (getF animate.spline 0) (getF animate.spline 2) 1
                  nsvg__evalBezier splineValue 0 (getF animate.spline 1) (getF animate.spline 3) 1
                else pr
              else 1
            (nsvg__animateApplyOne shape animate progression, true, true))
    (shape, false, false)
  (final.1, final.2.1)

/-- C `nsvg__animateApplyGroupRecursive`: ancestors first, then the node's
own animate list.  The recursion follows `parent` indices, which
`nsvg__findShapeParents` makes strictly decreasing; the fuel `idx + 1`
therefore never runs out. -/
def nsvg__animateApplyGroupRecursive (shapes : List NSVGshapeNode) (shape : NSVGshape)
    (idx : Nat) (timeMs : Int) : Nat → NSVGshape × Bool
  | 0 => (shape, false)
  | fuel + 1 =>
    let node := shapes.getD idx default
    let (shape, appliedP) :=
      match node.parent with
      | some pi => nsvg__animateApplyGroupRecursive shapes shape pi timeMs fuel
      | none => (shape, false)
    let (shape, applied2) := nsvg__animateApplyGroup shape node.animates timeMs
    (shape, appliedP || applied2)

/-- C `nsvg__animateReset`: restore the baseline fields and rewrite every
path's points from `orig.pts` through `orig.xform` (note: the `scaled` and
`strokeScaled` flags are not touched here). -/
def nsvg__animateReset (shape : NSVGshape) : NSVGshape :=
  let shape :=
    { shape with
      opacity := shape.origOpacity
      fill := shape.origFill
      stroke := shape.origStroke
      strokeWidth := shape.origStrokeWidth
      strokeDashOffset := shape.origStrokeDashOffset
      strokeDashCount := shape.origStrokeDashCount
      strokeDashArray := shape.origStrokeDashArray
      xform := shape.origXform }
  { shape with paths := (shape.paths.map
      (fun path =>
        let path := { path with xform := path.origXform }
        nsvg__transformPath path path.xform)) }

/-- C `nsvgAnimate`: per shape, reset to baseline, apply the animate lists
of the node and its ancestors, update the bounds; then re-run the viewbox
resolver.  The return value is `1` as soon as any node holding a shape has a
non-empty animate list (the applied flags from the recursion are discarded
by the source). -/
def nsvgAnimate (image : NSVGimage) (timeMs : Int) : NSVGimage × Bool :=
  let n := image.shapes.length
  let (image, retVal) := (List.range n).foldl
    (fun (acc : NSVGimage × Bool) i =>
      let (image, retVal) := acc
      let node := image.shapes.getD i default
      match node.shape with
      | none => (image, retVal)
      | some shape =>
        let shape := nsvg__animateReset shape
        let (shape, _) := nsvg__animateApplyGroupRecursive image.shapes shape i timeMs (i + 1)
        let shape := nsvg__updateShapeBounds shape
        let image :=
          { image with shapes := (image.shapes.mapIdx
              (fun j nd => if j = i then { nd with shape := some shape } else nd)) }
        (image, retVal || ¬node.animates.isEmpty))
    (image, false)
  (nsvg__scaleToViewbox image, retVal)

/-- Specification-side observer for the return-value claim: whether any
Animate actually contributed during `nsvgAnimate image timeMs` — the
disjunction of the `nsvg__animateApplyGroupRecursive` results that the
source computes and then discards. -/
def nsvgAnimateContributed (image : NSVGimage) (timeMs : Int) : Bool :=
  (List.range image.shapes.length).any
    (fun i =>
      let node := image.shapes.getD i default
      match node.shape with
      | none => false
      | some shape =>
        let shape := nsvg__animateReset shape
        (nsvg__animateApplyGroupRecursive image.shapes shape i timeMs (i + 1)).2)

/-- Specification-side measure for the memory-accounting claim: the total
bytes currently allocated for the entities owned by the image — shape
nodes, shapes, ids, paths with their two point arrays, gradients with their
inline stop tails, and animate records. -/
def specOwnedBytes (image : NSVGimage) : Int :=
  image.shapes.foldl
    (fun acc node =>
      let acc := acc + sizeofNSVGshapeNode
      let acc := acc + sizeofNSVGanimate * (node.animates.length : Int)
      match node.shape with
      | none => acc
      | some s =>
        let acc := acc + sizeofNSVGshape
        let acc := acc + (if s.id.isSome then sizeofNSVGid else 0)
        let acc := acc + (if s.fillGradient.isSome then sizeofNSVGid else 0)
        let acc := acc + (if s.strokeGradient.isSome then sizeofNSVGid else 0)
        let acc := s.paths.foldl
          (fun acc path =>
            acc + sizeofNSVGpath + 2 * ((path.npts : Int) * 2 * sizeofFloat))
          acc
        let paintBytes := fun (paint : NSVGpaint) =>
          if (paint.ptype = NSVG_PAINT_LINEAR_GRADIENT ∨
              paint.ptype = NSVG_PAINT_RADIAL_GRADIENT) then
            match paint.gradient with
            | some g => sizeofNSVGgradient + sizeofNSVGgradientStop * ((g.stops.length : Int) - 1)
            | none => 0
          else 0
        acc + paintBytes s.fill + paintBytes s.stroke)
    0

/-! ## Claim-analysis predicates -/

/-- A paint of gradient type must carry a gradient record. -/
def paintResolved (paint : NSVGpaint) : Prop :=
  (paint.ptype = NSVG_PAINT_LINEAR_GRADIENT ∨ paint.ptype = NSVG_PAINT_RADIAL_GRADIENT) →
    paint.gradient.isSome = true

/-- Executable form of `paintResolved`. -/
def paintResolvedB (paint : NSVGpaint) : Bool :=
  (decide ¬(paint.ptype = NSVG_PAINT_LINEAR_GRADIENT ∨
    paint.ptype = NSVG_PAINT_RADIAL_GRADIENT)) || paint.gradient.isSome

def shapePaintsOk (s : NSVGshape) : Prop := paintResolved s.fill ∧ paintResolved s.stroke

def shapePaintsDone (s : NSVGshape) : Prop :=
  shapePaintsOk s ∧ s.fill.ptype ≠ NSVG_PAINT_UNDEF ∧ s.stroke.ptype ≠ NSVG_PAINT_UNDEF

def nodeOk (node : NSVGshapeNode) : Prop := ∀ s, node.shape = some s → shapePaintsOk s

/-- Executable form of `nodeOk`. -/
def nodeOkB (node : NSVGshapeNode) : Bool :=
  match node.shape with
  | none => true
  | some s => paintResolvedB s.fill && paintResolvedB s.stroke

def nodeDone (node : NSVGshapeNode) : Prop := ∀ s, node.shape = some s → shapePaintsDone s

/-- Sortedness (non-decreasing offsets) of a stop list. -/
def stopsSorted (stops : List NSVGgradientStop) : Prop :=
  List.Pairwise (fun s t => s.offset ≤ t.offset) stops

/-- Every gradient-data record held by the parser has a sorted stop list. -/
def gradientsSorted (p : NSVGparserS) : Prop :=
  ∀ g ∈ p.gradients, stopsSorted g.stops

/-- The stop list a `url(#id)` reference resolves to: look the record up by
id and chase its `xlink:href` chain (at most 32 hops, self-cycles aborted)
until a record with stops is found; `none` when the chain yields no
stops. -/
def gradientStopsOf (p : NSVGparserS) (id : String) : Option (List NSVGgradientStop) :=
  match nsvg__findGradientData p id with
  | none => none
  | some data => gradChaseLoop p (some data) 0 40

/-- How one paint comes out of gradient resolution, relative to its state
`pre` and gradient reference `ref` before `nsvg__createGradients` ran: an
already-defined paint is untouched; an undefined one resolves to paint type
`none` when there is no reference or its href chain yields no stops, and to
a linear- or radial-gradient paint holding a gradient record when the chain
yields stops. -/
def paintResolvedFrom (p : NSVGparserS) (pre : NSVGpaint) (ref : Option String)
    (post : NSVGpaint) : Prop :=
  (pre.ptype ≠ NSVG_PAINT_UNDEF → post = pre) ∧
  (pre.ptype = NSVG_PAINT_UNDEF →
    ((ref = none ∨ ∃ gid, ref = some gid ∧ gradientStopsOf p gid = none) →
      post.ptype = NSVG_PAINT_NONE) ∧
    (∀ gid stops, ref = some gid → gradientStopsOf p gid = some stops →
      post.gradient.isSome = true ∧
      (post.ptype = NSVG_PAINT_LINEAR_GRADIENT ∨
        post.ptype = NSVG_PAINT_RADIAL_GRADIENT)))

/-- `paintResolvedFrom` for both paints of a shape node (`none` nodes are
untouched). -/
def nodeResolvedFrom (p : NSVGparserS) (pre post : NSVGshapeNode) : Prop :=
  (pre.shape = none → post = pre) ∧
  (∀ s, pre.shape = some s → ∃ s2, post.shape = some s2 ∧
    paintResolvedFrom p s.fill s.fillGradient s2.fill ∧
    paintResolvedFrom p s.stroke s.strokeGradient s2.stroke)

/-! ## Concrete inputs for the claim analyses -/

/-- A minimal animated document whose only animate starts at `begin="5s"`. -/
def svgC1 : String := "<svg width=\x2210\x22 height=\x2210\x22><rect width=\x225\x22 height=\x225\x22><animate attributeName=\x22opacity\x22 from=\x220.3\x22 to=\x220.7\x22 begin=\x225s\x22 dur=\x221s\x22/></rect></svg>"

def imgC1 : NSVGimage :=
  match nsvgParse true svgC1.toList "px".toList 96 with
  | .ok (some img) => img
  | _ => default

/-- A document whose viewBox scale is 2, with no animations at all. -/
def svgC2 : String := "<svg width=\x2220\x22 height=\x2220\x22 viewBox=\x220 0 10 10\x22><rect width=\x225\x22 height=\x225\x22 stroke=\x22red\x22 stroke-width=\x221\x22/></svg>"

def imgC2 : NSVGimage :=
  match nsvgParse true svgC2.toList "px".toList 96 with
  | .ok (some img) => img
  | _ => default

/-- Input that is not XML at all: no element ever opens. -/
def c3Input : String := "hello"

def c3Img : NSVGimage :=
  match nsvgParse true c3Input.toList "px".toList 96 with
  | .ok (some img) => img
  | _ => default

/-- A shape with `opacity="0.5"` and an `additive="sum"` opacity animate
whose value is the constant 0.3. -/
def svgC4 : String := "<svg width=\x2210\x22 height=\x2210\x22><rect width=\x225\x22 height=\x225\x22 opacity=\x220.5\x22><animate attributeName=\x22opacity\x22 from=\x220.3\x22 to=\x220.3\x22 begin=\x220s\x22 dur=\x221s\x22 additive=\x22sum\x22/></rect></svg>"

def imgC4 : NSVGimage :=
  match nsvgParse true svgC4.toList "px".toList 96 with
  | .ok (some img) => img
  | _ => default

/-- An animate element with `dur` and `from`/`to` but no `attributeName`. -/
def svgC6 : String := "<svg><rect width=\x225\x22 height=\x225\x22><animate dur=\x221s\x22 from=\x220\x22 to=\x221\x22/></rect></svg>"

/-- A concrete opacity animate record with `additive="sum"`. -/
def animC4W : NSVGanimate :=
  { (default : NSVGanimate) with
    type := NSVG_ANIMATE_TYPE_OPACITY
    additive := NSVG_ANIMATE_ADDITIVE_SUM
    src := [3/10]
    dst := [7/10] }

/-- The single attribute frame `nsvg__createParser` starts with. -/
def attrC7 : NSVGattrib := nsvg__createParser.attr.headD default

/-- A shape whose fill holds an unresolved `url(#a)` reference and whose
stroke holds a dangling `url(#nosuch)` reference — the state the shape of
`<rect fill="url(#a)" stroke="url(#nosuch)"/>` is in when
`nsvg__createGradients` runs. -/
def shapeG : NSVGshape :=
  { (default : NSVGshape) with
    fill := { ptype := NSVG_PAINT_UNDEF, color := 0, gradient := none }
    stroke := { ptype := NSVG_PAINT_UNDEF, color := 0, gradient := none }
    fillGradient := some "a"
    strokeGradient := some "nosuch"
    xform := nsvg__xformIdentity }

/-- A parser state about to run gradient resolution: one stored gradient
record with id `a` and one shape node holding `shapeG`. -/
def pG : NSVGparserS :=
  { nsvg__createParser with
    gradients := [{ id := some "a"
                    ref := none
                    gtype := NSVG_PAINT_LINEAR_GRADIENT
                    linear := default
                    radial := default
                    spread := 0
                    units := NSVG_USER_SPACE
                    xform := nsvg__xformIdentity
                    stops := [⟨4278190080, 0⟩, ⟨4294901760, 1⟩] }]
    image := { nsvg__createParser.image with
               shapes := [{ shapeDepth := 0
                            shape := some shapeG
                            parent := none
                            animates := [] }] } }

def nodeG9 : NSVGshapeNode := (nsvg__createGradients pG).image.shapes.getD 0 default

def shapeG9 : NSVGshape := nodeG9.shape.getD default

/-- A parser state holding one sorted gradient-data record with id `a`. -/
def pC10 : NSVGparserS :=
  { nsvg__createParser with
    gradients := [{ id := some "a"
                    ref := none
                    gtype := NSVG_PAINT_LINEAR_GRADIENT
                    linear := default
                    radial := default
                    spread := 0
                    units := NSVG_USER_SPACE
                    xform := nsvg__xformIdentity
                    stops := [⟨4278190080, 0⟩, ⟨4278190080, 1⟩] }] }

def attrsC10 : List NSVGattrValue := [⟨"offset".toList, "0.5".toList, '\x22'⟩]

def gradC10 : NSVGgradient :=
  ((nsvg__createGradient pC10 "a" default nsvg__xformIdentity).2.getD default).1

def tC10 : Int :=
  ((nsvg__createGradient pC10 "a" default nsvg__xformIdentity).2.getD default).2


set_option maxRecDepth 40000

/-! ## Supporting lemmas for the claim analyses -/

theorem getAttr_modifyAttr (p : NSVGparserS) (f : NSVGattrib → NSVGattrib)
    (a : NSVGattrib) (rest : List NSVGattrib) (h : p.attr = a :: rest) :
    nsvg__getAttr (modifyAttr p f) = f a := by
  simp [modifyAttr, nsvg__getAttr, h]

theorem addPoint_npts (p : NSVGparserS) (x y : F) :
    (nsvg__addPoint p x y).npts = p.npts + 1 := by
  simp only [nsvg__addPoint]
  split <;> rfl

theorem moveTo_npts (p : NSVGparserS) (x y : F) :
    (nsvg__moveTo p x y).npts = if p.npts > 0 then p.npts else p.npts + 1 := by
  simp only [nsvg__moveTo]
  split
  · rfl
  · simp [addPoint_npts]

theorem lineTo_npts (p : NSVGparserS) (x y : F) :
    (nsvg__lineTo p x y).npts = if p.npts > 0 then p.npts + 3 else p.npts := by
  simp only [nsvg__lineTo]
  split
  · simp [addPoint_npts]
  · rfl

theorem cubicBezTo_npts (p : NSVGparserS) (c1x c1y c2x c2y x y : F) :
    (nsvg__cubicBezTo p c1x c1y c2x c2y x y).npts
      = if p.npts > 0 then p.npts + 3 else p.npts := by
  simp only [nsvg__cubicBezTo]
  split
  · simp [addPoint_npts]
  · rfl

theorem paintResolved_of_B (paint : NSVGpaint) (h : paintResolvedB paint = true) :
    paintResolved paint := by
  intro hg
  unfold paintResolvedB at h
  simp only [Bool.or_eq_true, decide_eq_true_eq] at h
  rcases h with h1 | h2
  · exact absurd hg h1
  · exact h2

theorem nodesOk_of_allB (shapes : List NSVGshapeNode)
    (h : shapes.all nodeOkB = true) :
    ∀ node ∈ shapes, ∀ s, node.shape = some s →
      paintResolved s.fill ∧ paintResolved s.stroke := by
  intro node hn s hs
  have hb : nodeOkB node = true := List.all_eq_true.mp h node hn
  unfold nodeOkB at hb
  rw [hs] at hb
  simp only [Bool.and_eq_true] at hb
  exact ⟨paintResolved_of_B _ hb.1, paintResolved_of_B _ hb.2⟩

theorem getD_zero_mem (l : List NSVGshapeNode) (h : 0 < l.length) :
    l.getD 0 default ∈ l := by
  rw [List.getD_eq_getElem?_getD, List.getElem?_eq_getElem h, Option.getD_some]
  exact List.getElem_mem h

theorem shape_eq_some_getD (node : NSVGshapeNode) (h : node.shape.isSome = true) :
    node.shape = some (node.shape.getD default) := by
  cases hs : node.shape with
  | none => rw [hs] at h; cases h
  | some s => rfl



theorem createGradient_shapes (p : NSVGparserS) (id : String) (lb : Bounds4) (xf : Xform) :
    (nsvg__createGradient p id lb xf).1.image.shapes = p.image.shapes := by
  unfold nsvg__createGradient
  split
  · rfl
  · split
    · rfl
    · rfl

theorem createGradientsFill_spec (p : NSVGparserS) (shape : NSVGshape) :
    (nsvg__createGradientsFill p shape).1.image.shapes = p.image.shapes
    ∧ (nsvg__createGradientsFill p shape).2.stroke = shape.stroke
    ∧ (shape.fill.ptype ≠ NSVG_PAINT_UNDEF →
        (nsvg__createGradientsFill p shape).2.fill = shape.fill)
    ∧ (shape.fill.ptype = NSVG_PAINT_UNDEF →
        paintResolved (nsvg__createGradientsFill p shape).2.fill
        ∧ (nsvg__createGradientsFill p shape).2.fill.ptype ≠ NSVG_PAINT_UNDEF) := by
  unfold nsvg__createGradientsFill
  by_cases hf : shape.fill.ptype = NSVG_PAINT_UNDEF
  · rw [if_pos hf]
    dsimp only
    split
    next gid =>
      split
      · split
        next g t hres =>
          dsimp only
          refine ⟨createGradient_shapes .., by split <;> rfl, fun hne => absurd hf hne,
            fun _ => ?_⟩
          by_cases ht : t = NSVG_PAINT_UNDEF
          · rw [if_pos ht]
            exact ⟨fun habs => by
                simp [NSVG_PAINT_NONE, NSVG_PAINT_LINEAR_GRADIENT,
                  NSVG_PAINT_RADIAL_GRADIENT] at habs,
              by simp [NSVG_PAINT_NONE, NSVG_PAINT_UNDEF]⟩
          · rw [if_neg ht]
            exact ⟨fun _ => rfl, ht⟩
        next hres =>
          dsimp only
          rw [if_pos hf]
          refine ⟨createGradient_shapes .., rfl, fun hne => absurd hf hne, fun _ => ?_⟩
          exact ⟨fun habs => by
              simp [NSVG_PAINT_NONE, NSVG_PAINT_LINEAR_GRADIENT,
                NSVG_PAINT_RADIAL_GRADIENT] at habs,
            by simp [NSVG_PAINT_NONE, NSVG_PAINT_UNDEF]⟩
      · dsimp only
        try rw [if_pos hf]
        refine ⟨rfl, rfl, fun hne => absurd hf hne, fun _ => ?_⟩
        exact ⟨fun habs => by
            simp [NSVG_PAINT_NONE, NSVG_PAINT_LINEAR_GRADIENT,
              NSVG_PAINT_RADIAL_GRADIENT] at habs,
          by simp [NSVG_PAINT_NONE, NSVG_PAINT_UNDEF]⟩
    next =>
      dsimp only
      try rw [if_pos hf]
      refine ⟨rfl, rfl, fun hne => absurd hf hne, fun _ => ?_⟩
      exact ⟨fun habs => by
          simp [NSVG_PAINT_NONE, NSVG_PAINT_LINEAR_GRADIENT,
            NSVG_PAINT_RADIAL_GRADIENT] at habs,
        by simp [NSVG_PAINT_NONE, NSVG_PAINT_UNDEF]⟩
  · rw [if_neg hf]
    exact ⟨rfl, rfl, fun _ => rfl, fun habs => absurd habs hf⟩

theorem createGradientsStroke_spec (p : NSVGparserS) (shape : NSVGshape) :
    (nsvg__createGradientsStroke p shape).1.image.shapes = p.image.shapes
    ∧ (nsvg__createGradientsStroke p shape).2.fill = shape.fill
    ∧ (shape.stroke.ptype ≠ NSVG_PAINT_UNDEF →
        (nsvg__createGradientsStroke p shape).2.stroke = shape.stroke)
    ∧ (shape.stroke.ptype = NSVG_PAINT_UNDEF →
        paintResolved (nsvg__createGradientsStroke p shape).2.stroke
        ∧ (nsvg__createGradientsStroke p shape).2.stroke.ptype ≠ NSVG_PAINT_UNDEF) := by
  unfold nsvg__createGradientsStroke
  by_cases hf : shape.stroke.ptype = NSVG_PAINT_UNDEF
  · rw [if_pos hf]
    dsimp only
    split
    next gid =>
      split
      · split
        next g t hres =>
          dsimp only
          refine ⟨createGradient_shapes .., by split <;> rfl, fun hne => absurd hf hne,
            fun _ => ?_⟩
          by_cases ht : t = NSVG_PAINT_UNDEF
          · rw [if_pos ht]
            exact ⟨fun habs => by
                simp [NSVG_PAINT_NONE, NSVG_PAINT_LINEAR_GRADIENT,
                  NSVG_PAINT_RADIAL_GRADIENT] at habs,
              by simp [NSVG_PAINT_NONE, NSVG_PAINT_UNDEF]⟩
          · rw [if_neg ht]
            exact ⟨fun _ => rfl, ht⟩
        next hres =>
          dsimp only
          rw [if_pos hf]
          refine ⟨createGradient_shapes .., rfl, fun hne => absurd hf hne, fun _ => ?_⟩
          exact ⟨fun habs => by
              simp [NSVG_PAINT_NONE, NSVG_PAINT_LINEAR_GRADIENT,
                NSVG_PAINT_RADIAL_GRADIENT] at habs,
            by simp [NSVG_PAINT_NONE, NSVG_PAINT_UNDEF]⟩
      · dsimp only
        try rw [if_pos hf]
        refine ⟨rfl, rfl, fun hne => absurd hf hne, fun _ => ?_⟩
        exact ⟨fun habs => by
            simp [NSVG_PAINT_NONE, NSVG_PAINT_LINEAR_GRADIENT,
              NSVG_PAINT_RADIAL_GRADIENT] at habs,
          by simp [NSVG_PAINT_NONE, NSVG_PAINT_UNDEF]⟩
    next =>
      dsimp only
      try rw [if_pos hf]
      refine ⟨rfl, rfl, fun hne => absurd hf hne, fun _ => ?_⟩
      exact ⟨fun habs => by
          simp [NSVG_PAINT_NONE, NSVG_PAINT_LINEAR_GRADIENT,
            NSVG_PAINT_RADIAL_GRADIENT] at habs,
        by simp [NSVG_PAINT_NONE, NSVG_PAINT_UNDEF]⟩
  · rw [if_neg hf]
    exact ⟨rfl, rfl, fun _ => rfl, fun habs => absurd habs hf⟩

theorem default_shapeNode_shape : (default : NSVGshapeNode).shape = none := rfl

theorem step_shapes_getD_ne (p : NSVGparserS) (i j : Nat) (hne : j ≠ i) :
    (nsvg__createGradientsStep p i).image.shapes.getD j default
      = p.image.shapes.getD j default := by
  unfold nsvg__createGradientsStep
  split
  · rfl
  next shape hs =>
    rcases hF : nsvg__createGradientsFill p shape with ⟨p1, shape1⟩
    rcases hS : nsvg__createGradientsStroke p1 shape1 with ⟨p2, shape2⟩
    simp only [hF, hS]
    have e1 : p1.image.shapes = p.image.shapes := by
      have := (createGradientsFill_spec p shape).1
      rw [hF] at this
      exact this
    have e2 : p2.image.shapes = p1.image.shapes := by
      have := (createGradientsStroke_spec p1 shape1).1
      rw [hS] at this
      exact this
    rw [e2, e1]
    simp [List.getD_eq_getElem?_getD, List.getElem?_mapIdx, hne]

theorem step_length (p : NSVGparserS) (i : Nat) :
    (nsvg__createGradientsStep p i).image.shapes.length = p.image.shapes.length := by
  unfold nsvg__createGradientsStep
  split
  · rfl
  next shape hs =>
    rcases hF : nsvg__createGradientsFill p shape with ⟨p1, shape1⟩
    rcases hS : nsvg__createGradientsStroke p1 shape1 with ⟨p2, shape2⟩
    simp only [hF, hS]
    have e1 : p1.image.shapes = p.image.shapes := by
      have := (createGradientsFill_spec p shape).1
      rw [hF] at this
      exact this
    have e2 : p2.image.shapes = p1.image.shapes := by
      have := (createGradientsStroke_spec p1 shape1).1
      rw [hS] at this
      exact this
    rw [e2, e1]
    simp [List.length_mapIdx]

theorem step_getD_self (p : NSVGparserS) (i : Nat)
    (hres : nodeOk (p.image.shapes.getD i default)) :
    nodeDone ((nsvg__createGradientsStep p i).image.shapes.getD i default) := by
  unfold nsvg__createGradientsStep
  split
  next hs =>
    intro s hcontra
    rw [hs] at hcontra
    cases hcontra
  next shape hs =>
    rcases hF : nsvg__createGradientsFill p shape with ⟨p1, shape1⟩
    rcases hS : nsvg__createGradientsStroke p1 shape1 with ⟨p2, shape2⟩
    simp only [hF, hS]
    have e1 : p1.image.shapes = p.image.shapes := by
      have := (createGradientsFill_spec p shape).1
      rw [hF] at this
      exact this
    have e2 : p2.image.shapes = p1.image.shapes := by
      have := (createGradientsStroke_spec p1 shape1).1
      rw [hS] at this
      exact this
    have hlen : i < p.image.shapes.length := by
      by_contra hge
      have hnone : p.image.shapes.getD i default = default := by
        simp [List.getD_eq_getElem?_getD, List.getElem?_eq_none (Nat.le_of_not_lt hge)]
      rw [hnone, default_shapeNode_shape] at hs
      cases hs
    have hgd : (p2.image.shapes.mapIdx
        (fun j n => if j = i then { n with shape := some shape2 } else n)).getD i default
        = { p.image.shapes.getD i default with shape := some shape2 } := by
      rw [e2, e1]
      have hsome : p.image.shapes[i]? = some p.image.shapes[i] :=
        List.getElem?_eq_getElem hlen
      simp only [List.getD_eq_getElem?_getD, List.getElem?_mapIdx, hsome,
        Option.map_some, Option.getD_some, if_pos, eq_self_iff_true, if_true]
      rfl
    rw [hgd]
    intro s hs2
    rw [Option.some.injEq] at hs2
    subst hs2
    have hOk : shapePaintsOk shape := hres shape hs
    have F := createGradientsFill_spec p shape
    rw [hF] at F
    obtain ⟨_, F2, F3, F4⟩ := F
    have S := createGradientsStroke_spec p1 shape1
    rw [hS] at S
    obtain ⟨_, S2, S3, S4⟩ := S
    have hfill : paintResolved shape1.fill ∧ shape1.fill.ptype ≠ NSVG_PAINT_UNDEF := by
      by_cases hu : shape.fill.ptype = NSVG_PAINT_UNDEF
      · exact F4 hu
      · rw [F3 hu]
        exact ⟨hOk.1, hu⟩
    have hstroke : paintResolved shape2.stroke ∧ shape2.stroke.ptype ≠ NSVG_PAINT_UNDEF := by
      by_cases hu : shape1.stroke.ptype = NSVG_PAINT_UNDEF
      · exact S4 hu
      · rw [S3 hu, F2]
        rw [F2] at hu
        exact ⟨hOk.2, hu⟩
    refine ⟨⟨?_, hstroke.1⟩, ?_, hstroke.2⟩
    · rw [S2]
      exact hfill.1
    · rw [S2]
      exact hfill.2

theorem step_nodesOk (p : NSVGparserS) (i : Nat)
    (hp : ∀ j : Nat, nodeOk (p.image.shapes.getD j default)) :
    ∀ j : Nat, nodeOk ((nsvg__createGradientsStep p i).image.shapes.getD j default) := by
  intro j
  by_cases hji : j = i
  · subst hji
    intro s hs
    exact ((step_getD_self p j (hp j)) s hs).1
  · rw [step_shapes_getD_ne p i j hji]
    exact hp j

theorem createGradients_fold (l : List Nat) (p : NSVGparserS)
    (hp : ∀ j : Nat, nodeOk (p.image.shapes.getD j default)) :
    (∀ j : Nat, nodeOk ((l.foldl nsvg__createGradientsStep p).image.shapes.getD j default))
    ∧ (∀ j : Nat, nodeDone (p.image.shapes.getD j default) →
        nodeDone ((l.foldl nsvg__createGradientsStep p).image.shapes.getD j default))
    ∧ (∀ i ∈ l, nodeDone ((l.foldl nsvg__createGradientsStep p).image.shapes.getD i default)) := by
  induction l generalizing p with
  | nil => exact ⟨hp, fun j h => h, by simp⟩
  | cons i l ih =>
    have hstep := step_nodesOk p i hp
    obtain ⟨A, B, C⟩ := ih (nsvg__createGradientsStep p i) hstep
    refine ⟨A, ?_, ?_⟩
    · intro j hdone
      by_cases hji : j = i
      · subst hji
        exact B j (step_getD_self p j (hp j))
      · refine B j ?_
        rw [step_shapes_getD_ne p i j hji]
        exact hdone
    · intro k hk
      rcases List.mem_cons.mp hk with rfl | hk2
      · exact B k (step_getD_self p k (hp k))
      · exact C k hk2

theorem fold_length (l : List Nat) (p : NSVGparserS) :
    (l.foldl nsvg__createGradientsStep p).image.shapes.length = p.image.shapes.length := by
  induction l generalizing p with
  | nil => rfl
  | cons i l ih => rw [List.foldl_cons, ih, step_length]



theorem gradients_modifyAttr (p : NSVGparserS) (f : NSVGattrib → NSVGattrib) :
    (modifyAttr p f).gradients = p.gradients := by
  unfold modifyAttr
  split <;> rfl

theorem gradients_allocId (p : NSVGparserS) :
    (nsvg__allocId p).1.gradients = p.gradients := by
  unfold nsvg__allocId
  split <;> rfl

set_option maxHeartbeats 2000000 in
set_option linter.unusedTactic false in
theorem parseAttr_gradients (fuel : Nat) :
    (∀ p name value term, (nsvg__parseAttr fuel p name value term).1.gradients = p.gradients)
    ∧ (∀ p item term, (nsvg__parseNameValue fuel p item term).gradients = p.gradients)
    ∧ (∀ p value term, (nsvg__parseStyle fuel p value term).gradients = p.gradients)
    ∧ (∀ p s term pos, (nsvg__parseStyleLoop fuel p s term pos).gradients = p.gradients) := by
  induction fuel with
  | zero =>
    exact ⟨fun p _ _ _ => rfl, fun p _ _ => rfl, fun p _ _ => rfl, fun p _ _ _ => rfl⟩
  | succ fuel ih =>
    obtain ⟨ihA, ihN, ihS, ihL⟩ := ih
    refine ⟨?_, ?_, ?_, ?_⟩
    · intro p name value term
      unfold nsvg__parseAttr
      by_cases h0 : cstrEqFull name "style" = true
      · rw [if_pos h0]
        exact ihS ..
      rw [if_neg h0]
      by_cases h1 : cstrEqFull name "display" = true
      · rw [if_pos h1]
        repeat' split
        all_goals simp only [gradients_modifyAttr, gradients_allocId]
      rw [if_neg h1]
      by_cases h2 : cstrEqFull name "fill" = true
      · rw [if_pos h2]
        repeat' split
        all_goals simp only [gradients_modifyAttr, gradients_allocId]
      rw [if_neg h2]
      by_cases h3 : cstrEqFull name "opacity" = true
      · rw [if_pos h3]
        repeat' split
        all_goals simp only [gradients_modifyAttr, gradients_allocId]
      rw [if_neg h3]
      by_cases h4 : cstrEqFull name "fill-opacity" = true
      · rw [if_pos h4]
        repeat' split
        all_goals simp only [gradients_modifyAttr, gradients_allocId]
      rw [if_neg h4]
      by_cases h5 : cstrEqFull name "stroke" = true
      · rw [if_pos h5]
        repeat' split
        all_goals simp only [gradients_modifyAttr, gradients_allocId]
      rw [if_neg h5]
      by_cases h6 : cstrEqFull name "stroke-width" = true
      · rw [if_pos h6]
        repeat' split
        all_goals simp only [gradients_modifyAttr, gradients_allocId]
      rw [if_neg h6]
      by_cases h7 : cstrEqFull name "stroke-dasharray" = true
      · rw [if_pos h7]
        repeat' split
        all_goals simp only [gradients_modifyAttr, gradients_allocId]
      rw [if_neg h7]
      by_cases h8 : cstrEqFull name "stroke-dashoffset" = true
      · rw [if_pos h8]
        repeat' split
        all_goals simp only [gradients_modifyAttr, gradients_allocId]
      rw [if_neg h8]
      by_cases h9 : cstrEqFull name "stroke-opacity" = true
      · rw [if_pos h9]
        repeat' split
        all_goals simp only [gradients_modifyAttr, gradients_allocId]
      rw [if_neg h9]
      by_cases h10 : cstrEqFull name "stroke-linecap" = true
      · rw [if_pos h10]
        repeat' split
        all_goals simp only [gradients_modifyAttr, gradients_allocId]
      rw [if_neg h10]
      by_cases h11 : cstrEqFull name "stroke-linejoin" = true
      · rw [if_pos h11]
        repeat' split
        all_goals simp only [gradients_modifyAttr, gradients_allocId]
      rw [if_neg h11]
      by_cases h12 : cstrEqFull name "stroke-miterlimit" = true
      · rw [if_pos h12]
        repeat' split
        all_goals simp only [gradients_modifyAttr, gradients_allocId]
      rw [if_neg h12]
      by_cases h13 : cstrEqFull name "fill-rule" = true
      · rw [if_pos h13]
        repeat' split
        all_goals simp only [gradients_modifyAttr, gradients_allocId]
      rw [if_neg h13]
      by_cases h14 : cstrEqFull name "font-size" = true
      · rw [if_pos h14]
        repeat' split
        all_goals simp only [gradients_modifyAttr, gradients_allocId]
      rw [if_neg h14]
      by_cases h15 : cstrEqFull name "transform" = true
      · rw [if_pos h15]
        repeat' split
        all_goals simp only [gradients_modifyAttr, gradients_allocId]
      rw [if_neg h15]
      by_cases h16 : cstrEqFull name "stop-color" = true
      · rw [if_pos h16]
        repeat' split
        all_goals simp only [gradients_modifyAttr, gradients_allocId]
      rw [if_neg h16]
      by_cases h17 : cstrEqFull name "stop-opacity" = true
      · rw [if_pos h17]
        repeat' split
        all_goals simp only [gradients_modifyAttr, gradients_allocId]
      rw [if_neg h17]
      by_cases h18 : cstrEqFull name "offset" = true
      · rw [if_pos h18]
        repeat' split
        all_goals simp only [gradients_modifyAttr, gradients_allocId]
      rw [if_neg h18]
      by_cases h19 : cstrEqFull name "id" = true
      · rw [if_pos h19]
        repeat' split
        all_goals simp only [gradients_modifyAttr, gradients_allocId]
      rw [if_neg h19]
    · intro p item term
      unfold nsvg__parseNameValue
      simp only [ihA]
    · intro p value term
      unfold nsvg__parseStyle
      simp only [ihL]
    · intro p s term pos
      unfold nsvg__parseStyleLoop
      split
      · rfl
      · dsimp only
        split
        · rw [ihL, ihN]
        · rw [ihN]




theorem stopInsertIdx_cons_lt (s : NSVGgradientStop) (rest : List NSVGgradientStop)
    (off : F) (h : off < s.offset) : stopInsertIdx (s :: rest) off = 0 := by
  simp [stopInsertIdx, List.findIdx?_cons, h]

theorem stopInsertIdx_cons_ge (s : NSVGgradientStop) (rest : List NSVGgradientStop)
    (off : F) (h : ¬off < s.offset) :
    stopInsertIdx (s :: rest) off = stopInsertIdx rest off + 1 := by
  unfold stopInsertIdx
  rw [List.findIdx?_cons, if_neg (by simpa using h), List.findIdx?_succ]
  cases hfind : rest.findIdx? (fun t => decide (off < t.offset)) with
  | none => simp [hfind]
  | some i => simp [hfind]

theorem stopInsert_sorted (stops : List NSVGgradientStop) (stop : NSVGgradientStop)
    (h : stopsSorted stops) :
    stopsSorted (stops.take (stopInsertIdx stops stop.offset) ++ [stop]
      ++ stops.drop (stopInsertIdx stops stop.offset)) := by
  induction stops with
  | nil => simp [stopsSorted, stopInsertIdx]
  | cons s rest ih =>
    rw [stopsSorted, List.pairwise_cons] at h
    obtain ⟨hhead, htail⟩ := h
    by_cases hlt : stop.offset < s.offset
    · rw [stopInsertIdx_cons_lt s rest _ hlt]
      simp only [List.take_zero, List.drop_zero, List.nil_append, List.singleton_append]
      exact List.Pairwise.cons
        (fun t ht => by
          rcases List.mem_cons.mp ht with h1 | h2
          · exact h1 ▸ le_of_lt hlt
          · exact le_trans (le_of_lt hlt) (hhead t h2))
        (List.Pairwise.cons hhead htail)
    · rw [stopInsertIdx_cons_ge s rest _ hlt]
      simp only [List.take_succ_cons, List.drop_succ_cons, List.cons_append]
      refine List.Pairwise.cons (fun t ht => ?_) (ih htail)
      rcases List.mem_append.mp ht with h1 | h2
      · rcases List.mem_append.mp h1 with h3 | h4
        · exact hhead t (List.take_subset _ _ h3)
        · rw [List.mem_singleton.mp h4]
          exact le_of_not_lt hlt
      · exact hhead t (List.drop_subset _ _ h2)

theorem findGradientData_mem (p : NSVGparserS) (id : String) (r : NSVGgradientData)
    (h : nsvg__findGradientData p id = some r) : r ∈ p.gradients := by
  unfold nsvg__findGradientData at h
  split at h
  · cases h
  · exact List.mem_of_find?_eq_some h

theorem gradChaseLoop_sorted (p : NSVGparserS) (hp : gradientsSorted p) :
    ∀ (fuel : Nat) (ref : Option NSVGgradientData) (refIter : Nat)
      (stops : List NSVGgradientStop),
      (∀ r, ref = some r → r ∈ p.gradients) →
      gradChaseLoop p ref refIter fuel = some stops → stopsSorted stops := by
  intro fuel
  induction fuel with
  | zero =>
    intro ref refIter stops _ h
    cases h
  | succ fuel ih =>
    intro ref refIter stops href h
    cases ref with
    | none =>
      simp only [gradChaseLoop] at h
      cases h
    | some r =>
      simp only [gradChaseLoop] at h
      by_cases hs : ¬r.stops.isEmpty
      · rw [if_pos hs] at h
        rw [Option.some.injEq] at h
        subst h
        exact hp r (href r rfl)
      · rw [if_neg hs] at h
        split at h
        · cases h
        · split at h
          · cases h
          · refine ih _ _ stops ?_ h
            intro r2 hr2
            split at hr2
            · cases hr2
            next rid hrid =>
              exact findGradientData_mem p rid r2 hr2

theorem createGradient_sorted (p : NSVGparserS) (hp : gradientsSorted p)
    (id : String) (lb : Bounds4) (xf : Xform) (g : NSVGgradient) (t : Int)
    (h : (nsvg__createGradient p id lb xf).2 = some (g, t)) : stopsSorted g.stops := by
  unfold nsvg__createGradient at h
  split at h
  · cases h
  next data hfind =>
    split at h
    · cases h
    next stops hch =>
      simp only [Prod.mk.injEq, Option.some.injEq] at h
      obtain ⟨hg, _⟩ := h
      have hsorted : stopsSorted stops := by
        refine gradChaseLoop_sorted p hp 40 (some data) 0 stops ?_ hch
        intro r hr
        rw [Option.some.injEq] at hr
        subst hr
        exact findGradientData_mem p id data hfind
      rw [← hg]
      exact hsorted

theorem parseAttrC_gradients (p : NSVGparserS) (a : NSVGattrValue) :
    (nsvg__parseAttrC p a).1.gradients = p.gradients :=
  (parseAttr_gradients (attrFuel a.name a.value)).1 p a.name a.value a.term

theorem foldAttrs_gradients (attrs : List NSVGattrValue) (p : NSVGparserS) :
    (attrs.foldl (fun p a => (nsvg__parseAttrC p a).1) p).gradients = p.gradients := by
  induction attrs generalizing p with
  | nil => rfl
  | cons a attrs ih => rw [List.foldl_cons, ih, parseAttrC_gradients]

theorem parseGradientStop_sorted (p : NSVGparserS) (attrs : List NSVGattrValue)
    (hp : gradientsSorted p) : gradientsSorted (nsvg__parseGradientStop p attrs) := by
  unfold nsvg__parseGradientStop
  dsimp only
  set q := attrs.foldl (fun p a => (nsvg__parseAttrC p a).1)
      (modifyAttr p (fun a => { a with stopOffset := 0, stopColor := 0, stopOpacity := 1 }))
    with hq
  have hg : q.gradients = p.gradients := by
    rw [hq, foldAttrs_gradients, gradients_modifyAttr]
  clear hq
  clear_value q
  split
  next hnil =>
    intro g hgmem
    rw [hnil] at hgmem
    cases hgmem
  next grad rest hcons =>
    rw [hg] at hcons
    set ca := nsvg__getAttr { q with image := (nsvg__reallocAcct q.image
        (sizeofNSVGgradientStop * ((grad.stops.length : Int) + 1))
        (sizeofNSVGgradientStop * (grad.stops.length : Int))) } with hca
    clear hca
    clear_value ca
    intro g hgmem
    dsimp only at hgmem
    rcases List.mem_cons.mp hgmem with rfl | hrest
    · have hgrad : stopsSorted grad.stops :=
        hp grad (by rw [hcons]; exact List.mem_cons_self ..)
      exact stopInsert_sorted grad.stops
        ⟨ca.stopColor ||| ((cInt (ca.stopOpacity * 255)).toNat <<< 24), ca.stopOffset⟩ hgrad
    · exact hp g (by rw [hcons]; exact List.mem_cons_of_mem _ hrest)




theorem findGradientData_congr (p1 p2 : NSVGparserS) (h : p1.gradients = p2.gradients)
    (id : String) : nsvg__findGradientData p1 id = nsvg__findGradientData p2 id := by
  unfold nsvg__findGradientData
  rw [h]

theorem gradChaseLoop_congr (p1 p2 : NSVGparserS) (h : p1.gradients = p2.gradients) :
    ∀ (fuel : Nat) (ref : Option NSVGgradientData) (refIter : Nat),
      gradChaseLoop p1 ref refIter fuel = gradChaseLoop p2 ref refIter fuel := by
  intro fuel
  induction fuel with
  | zero => intro ref refIter; rfl
  | succ fuel ih =>
    intro ref refIter
    cases ref with
    | none => rfl
    | some r =>
      simp only [gradChaseLoop]
      by_cases hs : ¬r.stops.isEmpty
      · simp only [if_pos hs]
      · simp only [if_neg hs]
        cases hr : r.ref with
        | none =>
          dsimp only
          rw [ih]
        | some rid =>
          dsimp only
          rw [findGradientData_congr p1 p2 h, ih]

theorem gradientStopsOf_congr (p1 p2 : NSVGparserS) (h : p1.gradients = p2.gradients)
    (id : String) : gradientStopsOf p1 id = gradientStopsOf p2 id := by
  unfold gradientStopsOf
  rw [findGradientData_congr p1 p2 h]
  cases nsvg__findGradientData p2 id with
  | none => rfl
  | some data => exact gradChaseLoop_congr p1 p2 h 40 (some data) 0

theorem createGradient_gradients (p : NSVGparserS) (id : String) (lb : Bounds4)
    (xf : Xform) : (nsvg__createGradient p id lb xf).1.gradients = p.gradients := by
  unfold nsvg__createGradient
  split
  · rfl
  · split
    · rfl
    · rfl

theorem createGradient_stopsOf_none (p : NSVGparserS) (id : String) (lb : Bounds4)
    (xf : Xform) (h : (nsvg__createGradient p id lb xf).2 = none) :
    gradientStopsOf p id = none := by
  unfold nsvg__createGradient at h
  unfold gradientStopsOf
  split at h
  next hfind => rfl
  next data hfind =>
    split at h
    next hch => exact hch
    next stops hch => cases h

theorem createGradient_stopsOf_some (p : NSVGparserS) (id : String) (lb : Bounds4)
    (xf : Xform) (g : NSVGgradient) (t : Int)
    (h : (nsvg__createGradient p id lb xf).2 = some (g, t)) :
    ∃ data, nsvg__findGradientData p id = some data ∧ t = data.gtype ∧
      ∃ stops, gradientStopsOf p id = some stops := by
  unfold nsvg__createGradient at h
  unfold gradientStopsOf
  split at h
  next hfind => cases h
  next data hfind =>
    split at h
    next hch => cases h
    next stops hch =>
      simp only [Prod.mk.injEq, Option.some.injEq] at h
      exact ⟨data, hfind, h.2.symm, stops, hch⟩


theorem createGradientsFill_skip (p : NSVGparserS) (shape : NSVGshape)
    (h : shape.fill.ptype ≠ NSVG_PAINT_UNDEF) :
    nsvg__createGradientsFill p shape = (p, shape) := by
  unfold nsvg__createGradientsFill
  rw [if_neg h]

theorem createGradientsStroke_skip (p : NSVGparserS) (shape : NSVGshape)
    (h : shape.stroke.ptype ≠ NSVG_PAINT_UNDEF) :
    nsvg__createGradientsStroke p shape = (p, shape) := by
  unfold nsvg__createGradientsStroke
  rw [if_neg h]

theorem createGradientsFill_strokeRef (p : NSVGparserS) (shape : NSVGshape) :
    (nsvg__createGradientsFill p shape).2.strokeGradient = shape.strokeGradient := by
  unfold nsvg__createGradientsFill
  by_cases hf : shape.fill.ptype = NSVG_PAINT_UNDEF
  · rw [if_pos hf]
    dsimp only
    repeat first | rfl | split | dsimp only
  · rw [if_neg hf]

theorem createGradientsFill_gradients (p : NSVGparserS) (shape : NSVGshape) :
    (nsvg__createGradientsFill p shape).1.gradients = p.gradients := by
  unfold nsvg__createGradientsFill
  by_cases hf : shape.fill.ptype = NSVG_PAINT_UNDEF
  · rw [if_pos hf]
    dsimp only
    repeat first | rfl | exact createGradient_gradients .. | split | dsimp only
  · rw [if_neg hf]

theorem createGradientsStroke_gradients (p : NSVGparserS) (shape : NSVGshape) :
    (nsvg__createGradientsStroke p shape).1.gradients = p.gradients := by
  unfold nsvg__createGradientsStroke
  by_cases hf : shape.stroke.ptype = NSVG_PAINT_UNDEF
  · rw [if_pos hf]
    dsimp only
    repeat first | rfl | exact createGradient_gradients .. | split | dsimp only
  · rw [if_neg hf]


theorem gradientStopsOf_empty (p : NSVGparserS) : gradientStopsOf p "" = none := rfl

theorem createGradientsFill_resolvesFrom (p : NSVGparserS) (shape : NSVGshape)
    (hg : ∀ g ∈ p.gradients, g.gtype = NSVG_PAINT_LINEAR_GRADIENT
      ∨ g.gtype = NSVG_PAINT_RADIAL_GRADIENT) :
    paintResolvedFrom p shape.fill shape.fillGradient
      (nsvg__createGradientsFill p shape).2.fill := by
  refine ⟨fun h => by rw [createGradientsFill_skip p shape h], fun hf => ?_⟩
  unfold nsvg__createGradientsFill
  rw [if_pos hf]
  rcases hfg : shape.fillGradient with _ | gid
  · dsimp only
    rw [if_pos hf]
    exact ⟨fun _ => rfl, fun gid2 stops hsome hstops => Option.noConfusion hsome⟩
  · dsimp only
    by_cases hgid : gid = ""
    · rw [if_neg (not_not_intro hgid)]
      dsimp only
      rw [if_pos hf]
      refine ⟨fun _ => rfl, fun gid2 stops hsome hstops => ?_⟩
      injection hsome with h2
      subst h2
      rw [hgid, gradientStopsOf_empty] at hstops
      cases hstops
    · rw [if_pos hgid]
      rcases hres : (nsvg__createGradient p gid
          (nsvg__getLocalBounds shape (nsvg__xformInverse nsvg__xformIdentity shape.xform))
          shape.xform).2 with _ | ⟨g, t⟩
      · dsimp only
        rw [if_pos hf]
        refine ⟨fun _ => rfl, fun gid2 stops hsome hstops => ?_⟩
        injection hsome with h2
        subst h2
        rw [createGradient_stopsOf_none p gid _ _ hres] at hstops
        cases hstops
      · dsimp only
        obtain ⟨data, hfind, ht, stops0, hstops0⟩ :=
          createGradient_stopsOf_some p gid _ _ g t hres
        have htype : t = NSVG_PAINT_LINEAR_GRADIENT ∨ t = NSVG_PAINT_RADIAL_GRADIENT :=
          ht ▸ hg data (findGradientData_mem p gid data hfind)
        have htne : t ≠ NSVG_PAINT_UNDEF := by
          rcases htype with h | h <;> rw [h] <;> decide
        rw [if_neg htne]
        refine ⟨fun habs => ?_, fun gid2 stops hsome hstops => ?_⟩
        · rcases habs with h | ⟨gid2, heq, hn⟩
          · exact Option.noConfusion h
          · injection heq with h2
            subst h2
            rw [hstops0] at hn
            cases hn
        · exact ⟨rfl, htype⟩


theorem createGradientsStroke_resolvesFrom (p : NSVGparserS) (shape : NSVGshape)
    (hg : ∀ g ∈ p.gradients, g.gtype = NSVG_PAINT_LINEAR_GRADIENT
      ∨ g.gtype = NSVG_PAINT_RADIAL_GRADIENT) :
    paintResolvedFrom p shape.stroke shape.strokeGradient
      (nsvg__createGradientsStroke p shape).2.stroke := by
  refine ⟨fun h => by rw [createGradientsStroke_skip p shape h], fun hf => ?_⟩
  unfold nsvg__createGradientsStroke
  rw [if_pos hf]
  rcases hfg : shape.strokeGradient with _ | gid
  · dsimp only
    rw [if_pos hf]
    exact ⟨fun _ => rfl, fun gid2 stops hsome hstops => Option.noConfusion hsome⟩
  · dsimp only
    by_cases hgid : gid = ""
    · rw [if_neg (not_not_intro hgid)]
      dsimp only
      rw [if_pos hf]
      refine ⟨fun _ => rfl, fun gid2 stops hsome hstops => ?_⟩
      injection hsome with h2
      subst h2
      rw [hgid, gradientStopsOf_empty] at hstops
      cases hstops
    · rw [if_pos hgid]
      rcases hres : (nsvg__createGradient p gid
          (nsvg__getLocalBounds shape (nsvg__xformInverse nsvg__xformIdentity shape.xform))
          shape.xform).2 with _ | ⟨g, t⟩
      · dsimp only
        rw [if_pos hf]
        refine ⟨fun _ => rfl, fun gid2 stops hsome hstops => ?_⟩
        injection hsome with h2
        subst h2
        rw [createGradient_stopsOf_none p gid _ _ hres] at hstops
        cases hstops
      · dsimp only
        obtain ⟨data, hfind, ht, stops0, hstops0⟩ :=
          createGradient_stopsOf_some p gid _ _ g t hres
        have htype : t = NSVG_PAINT_LINEAR_GRADIENT ∨ t = NSVG_PAINT_RADIAL_GRADIENT :=
          ht ▸ hg data (findGradientData_mem p gid data hfind)
        have htne : t ≠ NSVG_PAINT_UNDEF := by
          rcases htype with h | h <;> rw [h] <;> decide
        rw [if_neg htne]
        refine ⟨fun habs => ?_, fun gid2 stops hsome hstops => ?_⟩
        · rcases habs with h | ⟨gid2, heq, hn⟩
          · exact Option.noConfusion h
          · injection heq with h2
            subst h2
            rw [hstops0] at hn
            cases hn
        · exact ⟨rfl, htype⟩


theorem paintResolvedFrom_congr (p1 p2 : NSVGparserS) (hgr : p1.gradients = p2.gradients)
    (pre : NSVGpaint) (ref : Option String) (post : NSVGpaint)
    (h : paintResolvedFrom p1 pre ref post) : paintResolvedFrom p2 pre ref post := by
  obtain ⟨h1, h2⟩ := h
  refine ⟨h1, fun hu => ?_⟩
  obtain ⟨hfail, hsucc⟩ := h2 hu
  constructor
  · rintro (hnone | ⟨gid, hgid, hstops⟩)
    · exact hfail (Or.inl hnone)
    · exact hfail (Or.inr ⟨gid, hgid, by
        rw [gradientStopsOf_congr p1 p2 hgr]
        exact hstops⟩)
  · intro gid stops hgid hstops
    refine hsucc gid stops hgid ?_
    rw [gradientStopsOf_congr p1 p2 hgr]
    exact hstops

theorem step_resolves (p0 p : NSVGparserS) (i : Nat)
    (hgr : p.gradients = p0.gradients)
    (hg : ∀ g ∈ p.gradients, g.gtype = NSVG_PAINT_LINEAR_GRADIENT
      ∨ g.gtype = NSVG_PAINT_RADIAL_GRADIENT) :
    nodeResolvedFrom p0 (p.image.shapes.getD i default)
      ((nsvg__createGradientsStep p i).image.shapes.getD i default) := by
  unfold nsvg__createGradientsStep
  split
  next hs =>
    exact ⟨fun _ => rfl, fun s hcontra => by rw [hs] at hcontra; cases hcontra⟩
  next shape hs =>
    rcases hF : nsvg__createGradientsFill p shape with ⟨p1, shape1⟩
    rcases hS : nsvg__createGradientsStroke p1 shape1 with ⟨p2, shape2⟩
    simp only [hF, hS]
    have e1 : p1.image.shapes = p.image.shapes := by
      have := (createGradientsFill_spec p shape).1
      rw [hF] at this
      exact this
    have e2 : p2.image.shapes = p1.image.shapes := by
      have := (createGradientsStroke_spec p1 shape1).1
      rw [hS] at this
      exact this
    have hlen : i < p.image.shapes.length := by
      by_contra hge
      have hnone : p.image.shapes.getD i default = default := by
        simp [List.getD_eq_getElem?_getD, List.getElem?_eq_none (Nat.le_of_not_lt hge)]
      rw [hnone, default_shapeNode_shape] at hs
      cases hs
    have hgd : (p2.image.shapes.mapIdx
        (fun j n => if j = i then { n with shape := some shape2 } else n)).getD i default
        = { p.image.shapes.getD i default with shape := some shape2 } := by
      rw [e2, e1]
      have hsome : p.image.shapes[i]? = some p.image.shapes[i] :=
        List.getElem?_eq_getElem hlen
      simp only [List.getD_eq_getElem?_getD, List.getElem?_mapIdx, hsome,
        Option.map_some, Option.getD_some, if_pos, eq_self_iff_true, if_true]
      rfl
    rw [hgd]
    refine ⟨fun hnone => (by rw [hs] at hnone; cases hnone), fun s hsome => ?_⟩
    rw [hs, Option.some.injEq] at hsome
    subst hsome
    refine ⟨shape2, rfl, ?_, ?_⟩
    · have hf := createGradientsFill_resolvesFrom p shape hg
      rw [hF] at hf
      have hs2eq : shape2.fill = shape1.fill := by
        have := (createGradientsStroke_spec p1 shape1).2.1
        rw [hS] at this
        exact this
      rw [hs2eq]
      exact paintResolvedFrom_congr p p0 hgr shape.fill shape.fillGradient shape1.fill hf
    · have hg1 : ∀ g ∈ p1.gradients, g.gtype = NSVG_PAINT_LINEAR_GRADIENT
          ∨ g.gtype = NSVG_PAINT_RADIAL_GRADIENT := by
        have e : p1.gradients = p.gradients := by
          have := createGradientsFill_gradients p shape
          rw [hF] at this
          exact this
        rw [e]
        exact hg
      have hst := createGradientsStroke_resolvesFrom p1 shape1 hg1
      rw [hS] at hst
      have hpre : shape1.stroke = shape.stroke := by
        have := (createGradientsFill_spec p shape).2.1
        rw [hF] at this
        exact this
      have href : shape1.strokeGradient = shape.strokeGradient := by
        have := createGradientsFill_strokeRef p shape
        rw [hF] at this
        exact this
      rw [hpre, href] at hst
      have e1g : p1.gradients = p0.gradients := by
        have := createGradientsFill_gradients p shape
        rw [hF] at this
        rw [this]
        exact hgr
      exact paintResolvedFrom_congr p1 p0 e1g shape.stroke shape.strokeGradient shape2.stroke hst


theorem step_gradients (p : NSVGparserS) (i : Nat) :
    (nsvg__createGradientsStep p i).gradients = p.gradients := by
  unfold nsvg__createGradientsStep
  split
  · rfl
  next shape hs =>
    rcases hF : nsvg__createGradientsFill p shape with ⟨p1, shape1⟩
    rcases hS : nsvg__createGradientsStroke p1 shape1 with ⟨p2, shape2⟩
    simp only [hF, hS]
    have e1 : p1.gradients = p.gradients := by
      have := createGradientsFill_gradients p shape
      rw [hF] at this
      exact this
    have e2 : p2.gradients = p1.gradients := by
      have := createGradientsStroke_gradients p1 shape1
      rw [hS] at this
      exact this
    exact e2.trans e1

theorem fold_getD_not_mem (l : List Nat) (a : Nat) (ha : a ∉ l) :
    ∀ p : NSVGparserS,
      (l.foldl nsvg__createGradientsStep p).image.shapes.getD a default
        = p.image.shapes.getD a default := by
  induction l with
  | nil => intro p; rfl
  | cons i rest ih =>
    intro p
    have hne : a ≠ i := fun h => ha (h ▸ List.mem_cons_self i rest)
    simp only [List.foldl_cons]
    rw [ih (fun h => ha (List.mem_cons_of_mem i h)) (nsvg__createGradientsStep p i),
      step_shapes_getD_ne p i a hne]

theorem fold_resolves (p0 : NSVGparserS)
    (hg : ∀ g ∈ p0.gradients, g.gtype = NSVG_PAINT_LINEAR_GRADIENT
      ∨ g.gtype = NSVG_PAINT_RADIAL_GRADIENT) :
    ∀ l : List Nat, l.Nodup → ∀ p : NSVGparserS, p.gradients = p0.gradients →
      ∀ i ∈ l, nodeResolvedFrom p0 (p.image.shapes.getD i default)
        ((l.foldl nsvg__createGradientsStep p).image.shapes.getD i default) := by
  intro l
  induction l with
  | nil => intro _ p _ i hi; cases hi
  | cons a rest ih =>
    intro hnd p hgr i hi
    have hnd2 := List.nodup_cons.mp hnd
    simp only [List.foldl_cons]
    rcases List.mem_cons.mp hi with rfl | hmem
    · rw [fold_getD_not_mem rest i hnd2.1 (nsvg__createGradientsStep p i)]
      exact step_resolves p0 p i hgr (by rw [hgr]; exact hg)
    · have hne : i ≠ a := fun h => hnd2.1 (h ▸ hmem)
      have hrec := ih hnd2.2 (nsvg__createGradientsStep p a)
        (by rw [step_gradients]; exact hgr) i hmem
      rw [step_shapes_getD_ne p a i hne] at hrec
      exact hrec

/-! ## The claims -/

/-- Claim C1 (refuted: code bug): at `timeMs = 100` the only animate of
`imgC1` is still waiting for its `begin="5s"`, so no Animate contributes
(`nsvgAnimateContributed` is false), yet `nsvgAnimate` returns `true` — the
source computes the per-shape applied flags and discards them, returning
instead whether any node holding a shape has a non-empty animate list. -/
theorem c1_returns_true_without_any_contribution :
    (nsvgAnimate imgC1 100).2 = true ∧ nsvgAnimateContributed imgC1 100 = false :=
  ⟨by with_unfolding_all rfl, by with_unfolding_all rfl⟩

/-- Claim C2 (refuted: code bug): calling `nsvgAnimate` at a time before
every begin does not leave the shapes at their post-parse state when the
viewBox scale is not 1: `nsvg__animateReset` rewrites the path points from
the baseline but never clears the `scaled`/`strokeScaled` flags, so the
re-run viewBox resolver skips the points and the stroke width — on `imgC2`
(scale 2) the stroke width drops from 2 to 1 and the first curve control
point from 10/3 to 5/3. -/
theorem c2_baseline_animate_alters_parsed_shape :
    ((imgC2.shapes.headD default).shape.getD default).strokeWidth = 2 ∧
    ((((imgC2.shapes.headD default).shape.getD default).paths.headD default).pts.take 4
      = [0, 0, 10/3, 0]) ∧
    (((nsvgAnimate imgC2 0).1.shapes.headD default).shape.getD default).strokeWidth = 1 ∧
    ((((nsvgAnimate imgC2 0).1.shapes.headD default).shape.getD
      default).paths.headD default).pts.take 4 = [0, 0, 5/3, 0] ∧
    (2 : F) ≠ 1 ∧ (10/3 : F) ≠ 5/3 := by
  refine ⟨by with_unfolding_all rfl, by with_unfolding_all rfl,
    by with_unfolding_all rfl, by with_unfolding_all rfl, by norm_num, by norm_num⟩

/-- Claim C3, counterexample: on input that is not XML at all the parser
still returns a present image — it merely has no shapes.  "So malformed
that no root shapes form" does not produce a null image. -/
theorem c3_malformed_input_still_yields_image :
    nsvgParse true c3Input.toList "px".toList 96 = .ok (some c3Img) ∧ c3Img.shapes = [] :=
  ⟨by with_unfolding_all rfl, by with_unfolding_all rfl⟩

/-- Claim C3 (amended): `nsvgParse` returns a null image exactly on
allocation failure; the shape of the input never produces a null image. -/
theorem c3_null_image_iff_alloc_failure (allocOk : Bool) (input units : List Char)
    (dpi : F) (r : Option NSVGimage)
    (h : nsvgParse allocOk input units dpi = .ok r) :
    r = none ↔ allocOk = false := by
  cases allocOk with
  | false =>
    have e : nsvgParse false input units dpi = .ok none := rfl
    rw [e] at h
    cases h
    simp
  | true =>
    simp only [nsvgParse, Bool.not_true, if_neg (by simp : ¬¬True)] at h
    split at h
    · exact absurd h (by simp)
    · simp only [Except.ok.injEq] at h
      subst h
      simp

theorem c3_null_image_iff_alloc_failure_witness :
    (some c3Img = none) ↔ ((true : Bool) = false) :=
  c3_null_image_iff_alloc_failure true c3Input.toList "px".toList 96 (some c3Img)
    (by with_unfolding_all rfl)

/-- Claim C4, counterexample: the shape of `imgC4` has baseline opacity 1/2
and an `additive="sum"` opacity animate of constant value 3/10; at 500 ms
the opacity is 3/10, not the claimed clamped sum 1/2 + 3/10. -/
theorem c4_additive_sum_opacity_discarded :
    ((imgC4.shapes.headD default).shape.getD default).opacity = 1/2 ∧
    (((nsvgAnimate imgC4 500).1.shapes.headD default).shape.getD default).opacity = 3/10 ∧
    (3/10 : F) ≠ 1/2 + 3/10 := by
  refine ⟨by with_unfolding_all rfl, by with_unfolding_all rfl, by norm_num⟩

/-- Claim C4 (amended): applying an opacity Animate always sets the shape
opacity to the interpolated value clamped to 1 — also when
`additive="sum"`, because the source adds the previous opacity and then
unconditionally overwrites the sum with the bare interpolated value
(nanosvg.h lines 4216-4222). -/
theorem c4_opacity_overwrites_additive_sum (shape : NSVGshape) (animate : NSVGanimate)
    (progression : F) (h : animate.type = NSVG_ANIMATE_TYPE_OPACITY) :
    (nsvg__animateApplyOne shape animate progression).opacity =
      (let v := getF animate.src 0 + (getF animate.dst 0 - getF animate.src 0) * progression
       if v > 1 then 1 else v) := by
  unfold nsvg__animateApplyOne
  rw [h]
  norm_num [NSVG_ANIMATE_TYPE_OPACITY, NSVG_ANIMATE_TYPE_TRANSFORM_TRANSLATE,
    NSVG_ANIMATE_TYPE_TRANSFORM_SCALE, NSVG_ANIMATE_TYPE_TRANSFORM_ROTATE,
    NSVG_ANIMATE_TYPE_TRANSFORM_SKEWX, NSVG_ANIMATE_TYPE_TRANSFORM_SKEWY,
    NSVG_ANIMATE_TYPE_FILL, NSVG_ANIMATE_TYPE_STROKE, getF, List.range_succ]

theorem c4_opacity_overwrites_additive_sum_witness :
    (nsvg__animateApplyOne (default : NSVGshape) animC4W (1/2)).opacity =
      (let v := getF animC4W.src 0 + (getF animC4W.dst 0 - getF animC4W.src 0) * ((1 : F)/2)
       if v > 1 then 1 else v) :=
  c4_opacity_overwrites_additive_sum (default : NSVGshape) animC4W (1/2)
    (by with_unfolding_all rfl)

/-- Claim C5 (refuted: code bug): after parsing `svgC4` the recorded
`memorySize` is 816 bytes while the bytes actually held by the owned
entities are 848 — the animate record (160 bytes, allocated with a raw
`malloc`) is never counted, while the 128-byte point scratch buffer that
`nsvg__deleteParser` frees with a raw `free` still is. -/
theorem c5_memory_size_not_owned_bytes :
    imgC4.memorySize = 816 ∧ specOwnedBytes imgC4 = 848 ∧ (816 : Int) ≠ 848 :=
  ⟨by with_unfolding_all rfl, by with_unfolding_all rfl, by decide⟩

/-- Claim C6 (refuted: code bug): an animate element carrying `dur` and
`from`/`to` but no `attributeName` is not rejected silently — the source
dereferences the null `attrName` pointer when deciding the animate type,
modeled as the error outcome of the parse. -/
theorem c6_missing_attribute_name_null_deref :
    nsvgParse true svgC6.toList "px".toList 96 =
      .error "null pointer dereference: attributeName in nsvg__parseAnimate" := by
  with_unfolding_all rfl

/-- Claim C7, counterexample: a `stroke="transparent"` attribute does not
clear the has-stroke flag — it falls through to the color parser and leaves
the attribute with an active gray stroke (0x808080), unlike
`fill="transparent"` which is cleared. -/
theorem c7_stroke_transparent_keeps_stroke :
    (nsvg__getAttr (nsvg__parseAttrC nsvg__createParser
        ⟨"stroke".toList, "transparent".toList, '\x22'⟩).1).hasStroke = 1 ∧
    (nsvg__getAttr (nsvg__parseAttrC nsvg__createParser
        ⟨"stroke".toList, "transparent".toList, '\x22'⟩).1).strokeColor = 8421504 ∧
    (1 : Int) ≠ 0 :=
  ⟨by with_unfolding_all rfl, by with_unfolding_all rfl, by decide⟩

/-- Claim C7 (amended): `fill` clears the has-fill flag for both `"none"`
and `"transparent"`, but `stroke` clears the has-stroke flag only for
`"none"`; `stroke="transparent"` sets an active stroke with the parsed
fallback color 0x808080. -/
theorem c7_paint_none_clears_flags (fuel : Nat) (p : NSVGparserS) (a : NSVGattrib)
    (rest : List NSVGattrib) (h : p.attr = a :: rest) :
    (nsvg__getAttr (nsvg__parseAttr (fuel + 1) p "fill".toList "none".toList '\x22').1).hasFill
      = 0 ∧
    (nsvg__getAttr (nsvg__parseAttr (fuel + 1) p "fill".toList "transparent".toList
      '\x22').1).hasFill = 0 ∧
    (nsvg__getAttr (nsvg__parseAttr (fuel + 1) p "stroke".toList "none".toList
      '\x22').1).hasStroke = 0 ∧
    (nsvg__getAttr (nsvg__parseAttr (fuel + 1) p "stroke".toList "transparent".toList
      '\x22').1).hasStroke = 1 ∧
    (nsvg__getAttr (nsvg__parseAttr (fuel + 1) p "stroke".toList "transparent".toList
      '\x22').1).strokeColor = 8421504 := by
  have e1 : nsvg__parseAttr (fuel + 1) p "fill".toList "none".toList '\x22'
      = (modifyAttr p (fun a => { a with hasFill := 0 }), true) := rfl
  have e2 : nsvg__parseAttr (fuel + 1) p "fill".toList "transparent".toList '\x22'
      = (modifyAttr p (fun a => { a with hasFill := 0 }), true) := rfl
  have e3 : nsvg__parseAttr (fuel + 1) p "stroke".toList "none".toList '\x22'
      = (modifyAttr p (fun a => { a with hasStroke := 0 }), true) := rfl
  have e4 : nsvg__parseAttr (fuel + 1) p "stroke".toList "transparent".toList '\x22'
      = (modifyAttr p (fun a =>
          { a with hasStroke := 1, strokeColor := nsvg__parseColor "transparent".toList }),
         true) := rfl
  rw [e1, e2, e3, e4]
  rw [getAttr_modifyAttr p _ a rest h, getAttr_modifyAttr p _ a rest h,
    getAttr_modifyAttr p _ a rest h]
  refine ⟨rfl, rfl, rfl, rfl, by with_unfolding_all rfl⟩

theorem c7_paint_none_clears_flags_witness :
    (nsvg__getAttr (nsvg__parseAttr 1 nsvg__createParser "fill".toList "none".toList
      '\x22').1).hasFill = 0 ∧
    (nsvg__getAttr (nsvg__parseAttr 1 nsvg__createParser "fill".toList "transparent".toList
      '\x22').1).hasFill = 0 ∧
    (nsvg__getAttr (nsvg__parseAttr 1 nsvg__createParser "stroke".toList "none".toList
      '\x22').1).hasStroke = 0 ∧
    (nsvg__getAttr (nsvg__parseAttr 1 nsvg__createParser "stroke".toList "transparent".toList
      '\x22').1).hasStroke = 1 ∧
    (nsvg__getAttr (nsvg__parseAttr 1 nsvg__createParser "stroke".toList "transparent".toList
      '\x22').1).strokeColor = 8421504 :=
  c7_paint_none_clears_flags 0 nsvg__createParser attrC7 [] (by with_unfolding_all rfl)

/-- Claim C8, counterexample: on a 10×10 rect with `rx = 1/2` and
`ry = 1/20000` the radii survive defaulting and clamping unchanged; the
spec's symmetric threshold (`both < 0.0001`) predicts the rounded 25-point
path since `rx ≥ 0.0001`, but the source emits the plain 10-point rectangle
because its test is `rx < 0.00001 || ry < 0.0001`. -/
theorem c8_asymmetric_radius_thresholds :
    nsvg__rectRadii 10 10 (1/2) (1/20000) = (1/2, 1/20000) ∧
    ¬((1/2 : F) < 1/10000) ∧
    (nsvg__rectEmit (nsvg__resetPath nsvg__createParser) 0 0 10 10 (1/2) (1/20000)).npts
      = 10 ∧
    (nsvg__rectEmit (nsvg__resetPath nsvg__createParser) 0 0 10 10 (1/2) (1/2)).npts = 25 :=
  ⟨by with_unfolding_all rfl, by norm_num, by with_unfolding_all rfl,
   by with_unfolding_all rfl⟩

/-- Claim C8 (amended): after the radii are defaulted and clamped, the rect
path is the plain 4-point rectangle (10 stored points) iff
`rx < 0.00001` or `ry < 0.0001` — the thresholds are asymmetric — and the
rounded 25-point form otherwise. -/
theorem c8_plain_rect_iff_code_thresholds (p : NSVGparserS) (x y w h rx ry : F) :
    ((nsvg__rectEmit (nsvg__resetPath p) x y w h rx ry).npts = 10 ↔
      (rx < 1/100000 ∨ ry < 1/10000)) ∧
    ((nsvg__rectEmit (nsvg__resetPath p) x y w h rx ry).npts = 25 ↔
      ¬(rx < 1/100000 ∨ ry < 1/10000)) := by
  unfold nsvg__rectEmit
  by_cases hc : rx < 1/100000 ∨ ry < 1/10000
  · rw [if_pos hc]
    simp only [moveTo_npts, lineTo_npts, cubicBezTo_npts, nsvg__resetPath]
    norm_num
    exact ⟨hc, fun h1 => hc.resolve_left (not_lt.mpr h1)⟩
  · rw [if_neg hc]
    simp only [moveTo_npts, lineTo_npts, cubicBezTo_npts, nsvg__resetPath]
    norm_num
    push_neg at hc
    exact hc

/-- Claim C9 (confirmed): gradient resolution settles every shape whose fill
or stroke paint is still undefined according to its gradient reference: when
the reference is absent, empty, dangling, or its href chain (at most 32 hops,
self-cycles aborted) yields no stops, the paint resolves to type `none`;
when the chain yields stops the paint gets linear- or radial-gradient type
and carries a gradient record — and afterwards every paint is defined and
every gradient-type paint holds a gradient. -/
theorem c9_gradient_paints_resolved (p : NSVGparserS)
    (hg : ∀ g ∈ p.gradients, g.gtype = NSVG_PAINT_LINEAR_GRADIENT
      ∨ g.gtype = NSVG_PAINT_RADIAL_GRADIENT)
    (hp : ∀ node ∈ p.image.shapes, ∀ s, node.shape = some s →
        paintResolved s.fill ∧ paintResolved s.stroke) :
    (∀ i s, (p.image.shapes.getD i default).shape = some s →
      ∃ s2, ((nsvg__createGradients p).image.shapes.getD i default).shape = some s2 ∧
        paintResolvedFrom p s.fill s.fillGradient s2.fill ∧
        paintResolvedFrom p s.stroke s.strokeGradient s2.stroke) ∧
    (∀ node ∈ (nsvg__createGradients p).image.shapes, ∀ s, node.shape = some s →
      (paintResolved s.fill ∧ paintResolved s.stroke)
      ∧ s.fill.ptype ≠ NSVG_PAINT_UNDEF ∧ s.stroke.ptype ≠ NSVG_PAINT_UNDEF) := by
  constructor
  · intro i s hs
    have hlen : i < p.image.shapes.length := by
      by_contra hge
      rw [List.getD_eq_getElem?_getD, List.getElem?_eq_none (Nat.le_of_not_lt hge)] at hs
      cases hs
    have hres := fold_resolves p hg (List.range p.image.shapes.length)
      (List.nodup_range _) p rfl i (List.mem_range.mpr hlen)
    unfold nsvg__createGradients
    exact hres.2 s hs
  · have hp2 : ∀ j : Nat, nodeOk (p.image.shapes.getD j default) := by
      intro j
      by_cases hj : j < p.image.shapes.length
      · intro s hs
        have hmem : p.image.shapes.getD j default ∈ p.image.shapes := by
          rw [List.getD_eq_getElem?_getD, List.getElem?_eq_getElem hj, Option.getD_some]
          exact List.getElem_mem hj
        exact hp _ hmem s hs
      · intro s hs
        rw [List.getD_eq_getElem?_getD, List.getElem?_eq_none (Nat.le_of_not_lt hj)] at hs
        cases hs
    obtain ⟨_, _, C⟩ := createGradients_fold (List.range p.image.shapes.length) p hp2
    intro node hn s hs
    obtain ⟨j, hj, hjnode⟩ := List.mem_iff_getElem.mp hn
    have hjlen : j < p.image.shapes.length := by
      rw [← fold_length (List.range p.image.shapes.length) p]
      exact hj
    have hgd : (nsvg__createGradients p).image.shapes.getD j default = node := by
      rw [List.getD_eq_getElem?_getD, List.getElem?_eq_getElem hj, hjnode]
      rfl
    have := C j (List.mem_range.mpr hjlen)
    unfold nsvg__createGradients at hgd
    rw [hgd] at this
    exact this s hs

theorem c9_gradient_paints_resolved_witness :
    shapeG9.fill.gradient.isSome = true
    ∧ (shapeG9.fill.ptype = NSVG_PAINT_LINEAR_GRADIENT
        ∨ shapeG9.fill.ptype = NSVG_PAINT_RADIAL_GRADIENT)
    ∧ shapeG9.stroke.ptype = NSVG_PAINT_NONE := by
  obtain ⟨s2, hs2, hfill, hstroke⟩ :=
    (c9_gradient_paints_resolved pG
      (by intro g hgm
          dsimp only [pG] at hgm
          rw [List.mem_singleton] at hgm
          subst hgm
          exact Or.inl rfl)
      (nodesOk_of_allB pG.image.shapes (by with_unfolding_all rfl))).1
      0 shapeG (by with_unfolding_all rfl)
  have hs9 : shapeG9 = s2 := by
    unfold shapeG9 nodeG9
    rw [hs2]
    rfl
  rw [hs9]
  have hsucc := (hfill.2 (by with_unfolding_all rfl)).2 "a"
    [⟨4278190080, 0⟩, ⟨4294901760, 1⟩] (by with_unfolding_all rfl)
    (by with_unfolding_all rfl)
  have hfail := (hstroke.2 (by with_unfolding_all rfl)).1
    (Or.inr ⟨"nosuch", by with_unfolding_all rfl, by with_unfolding_all rfl⟩)
  exact ⟨hsucc.1, hsucc.2, hfail⟩

/-- Claim C10 (confirmed): a parsed stop is inserted at its sorted position,
so `nsvg__parseGradientStop` preserves sortedness of every stored stop list,
and a gradient produced by `nsvg__createGradient` copies the stop list of
some stored record, hence is sorted as well. -/
theorem c10_stop_lists_sorted (p : NSVGparserS) (hp : gradientsSorted p) :
    (∀ attrs, gradientsSorted (nsvg__parseGradientStop p attrs)) ∧
    (∀ id lb xf g t, (nsvg__createGradient p id lb xf).2 = some (g, t) →
      stopsSorted g.stops) :=
  ⟨fun attrs => parseGradientStop_sorted p attrs hp,
   fun id lb xf g t h => createGradient_sorted p hp id lb xf g t h⟩

theorem c10_stop_lists_sorted_witness :
    gradientsSorted (nsvg__parseGradientStop pC10 attrsC10) ∧ stopsSorted gradC10.stops :=
  ⟨(c10_stop_lists_sorted pC10
      (by unfold gradientsSorted stopsSorted; with_unfolding_all decide)).1 attrsC10,
   (c10_stop_lists_sorted pC10
      (by unfold gradientsSorted stopsSorted; with_unfolding_all decide)).2 "a" default
     nsvg__xformIdentity gradC10 tC10 (by with_unfolding_all rfl)⟩


end AnimatedSVG
